import Mathlib

/-!
CoDs: smooth transition from free motion to contact.

A shallow embedding of the class CoDs (src/include/CoDs.h, src/src/CoDs.cpp).

* A C++ double is an element of a linearly ordered field; rounding, infinities
  and NaN are not represented.  The libm function exp is a parameter of the
  operations that call it.
* An Eigen VectorXd / MatrixXd is a size together with a coefficient function on
  natural-number indices.  Only the coefficients below the size are meaningful.
* The member function Error() is the loop  while(ros::ok()) {}.  A shutdown of ROS
  is final, so one Boolean describes the liveness signal for a call: rosOk = true
  means ros::ok() answers true at every poll (the loop never exits), rosOk = false
  means it answers false at some poll (the loop exits and the caller carries on).
* An operation returns Except.error s when it never returns, the object being
  stuck in state s inside Error(), and Except.ok when it returns.
* A division of the program is the division of the field, which gives 0 for a
  zero divisor where the division of doubles gives an infinity or NaN.  A quotient
  with a zero divisor does not stand for a value of the program;
  Calculate_Modulation_logged records the divisors of a call, so that a statement
  can require them to be different from zero.
* Output sent to cout is not represented.
-/

set_option linter.unusedSectionVars false

/-! ## Eigen vectors and matrices -/

/-- Dynamic column vector of Eigen: number of rows and the coefficients. -/
structure VectorXd (α : Type) where
  rows : Nat
  coeff : Nat → α

/-- Dynamic matrix of Eigen: number of rows and columns and the coefficients. -/
structure MatrixXd (α : Type) where
  rows : Nat
  cols : Nat
  coeff : Nat → Nat → α

section Eigen

variable {α : Type} [LinearOrderedField α]

/-- The call v.resize(n): nothing happens when the size is already n, otherwise the
storage is reallocated and holds whatever the new block contains (fresh). -/
def VectorXd.resize (v : VectorXd α) (n : Nat) (fresh : Nat → α) : VectorXd α :=
  if v.rows = n then v else { rows := n, coeff := fresh }

/-- The call v.setZero(). -/
def VectorXd.setZero (v : VectorXd α) : VectorXd α :=
  { v with coeff := fun _ => 0 }

/-- Sum of two vectors; the size is the one of the left operand. -/
def VectorXd.add (a b : VectorXd α) : VectorXd α :=
  { rows := a.rows, coeff := fun i => a.coeff i + b.coeff i }

/-- The row vector v.transpose(), a matrix with one row. -/
def VectorXd.transpose (v : VectorXd α) : MatrixXd α :=
  { rows := 1, cols := v.rows, coeff := fun _ j => v.coeff j }

/-- The call A.resize(r, c).  The coefficients after a resize that changes the size
are unspecified; every matrix resize of the program is followed at once by setZero
or setIdentity, which overwrite all of them. -/
def MatrixXd.resize (A : MatrixXd α) (r c : Nat) : MatrixXd α :=
  { A with rows := r, cols := c }

/-- The call A.setZero(). -/
def MatrixXd.setZero (A : MatrixXd α) : MatrixXd α :=
  { A with coeff := fun _ _ => 0 }

/-- The call A.setIdentity(). -/
def MatrixXd.setIdentity (A : MatrixXd α) : MatrixXd α :=
  { A with coeff := fun i j => if i = j then 1 else 0 }

/-- The assignment A(i, j) = x. -/
def MatrixXd.set (A : MatrixXd α) (i j : Nat) (x : α) : MatrixXd α :=
  { A with coeff := fun a b => if a = i ∧ b = j then x else A.coeff a b }

/-- The assignment A.col(j) = v. -/
def MatrixXd.setCol (A : MatrixXd α) (j : Nat) (v : VectorXd α) : MatrixXd α :=
  { A with coeff := fun a b => if b = j then v.coeff a else A.coeff a b }

/-- The matrix A.transpose(). -/
def MatrixXd.transpose (A : MatrixXd α) : MatrixXd α :=
  { rows := A.cols, cols := A.rows, coeff := fun i j => A.coeff j i }

/-- The product A * B of two matrices. -/
def MatrixXd.mul (A B : MatrixXd α) : MatrixXd α :=
  { rows := A.rows, cols := B.cols,
    coeff := fun i j => ∑ k in Finset.range A.cols, A.coeff i k * B.coeff k j }

/-- The product A * v of a matrix and a column vector. -/
def MatrixXd.mulVec (A : MatrixXd α) (v : VectorXd α) : VectorXd α :=
  { rows := A.rows, coeff := fun i => ∑ k in Finset.range A.cols, A.coeff i k * v.coeff k }

/-- Determinant of the upper left 3×3 block. -/
def MatrixXd.det3 (A : MatrixXd α) : α :=
  A.coeff 0 0 * (A.coeff 1 1 * A.coeff 2 2 - A.coeff 1 2 * A.coeff 2 1)
    - A.coeff 0 1 * (A.coeff 1 0 * A.coeff 2 2 - A.coeff 1 2 * A.coeff 2 0)
    + A.coeff 0 2 * (A.coeff 1 0 * A.coeff 2 1 - A.coeff 1 1 * A.coeff 2 0)

/-- The matrix A.inverse() for a 3×3 operand, the only size that initialize lets
through: the transposed cofactors over the determinant.  For an invertible operand
this is the inverse that Eigen computes, in exact arithmetic.  For a singular
operand Eigen promises nothing; here the division by the zero determinant gives
the zero matrix, and no statement below relies on that value. -/
def MatrixXd.inverse (A : MatrixXd α) : MatrixXd α :=
  { rows := A.rows, cols := A.cols,
    coeff := fun i j =>
      (A.coeff ((j + 1) % 3) ((i + 1) % 3) * A.coeff ((j + 2) % 3) ((i + 2) % 3)
        - A.coeff ((j + 1) % 3) ((i + 2) % 3) * A.coeff ((j + 2) % 3) ((i + 1) % 3))
        / A.det3 }

end Eigen

/-! ## The class CoDs -/

/-- The data members of the class CoDs, in the order of the header. -/
structure CoDs (α : Type) where
  Surface_ : Bool
  State_of_system_is_set_ : Bool
  State_of_surface_is_set_ : Bool
  Dimen_state_ : Int
  Gamma_Value_ : α
  Gammma_Threshold_ : α
  delta_dx_ : α
  F_d_ : α
  NF_ : α
  F_dNMN_ : α
  N_ : VectorXd α
  q2_ : VectorXd α
  q3_ : VectorXd α
  X_ : VectorXd α
  DX_ : VectorXd α
  F_ : VectorXd α
  Q_ : MatrixXd α
  Q_inv_ : MatrixXd α
  Lambda_ : MatrixXd α
  M_ : MatrixXd α
  InvMass_ : MatrixXd α
  Normal_velocity_robot_ : VectorXd α

namespace CoDs

variable {α : Type} [LinearOrderedField α]

/-- The constant epsilon of the header, 10e-20. -/
def epsilon : α := 10 / 10 ^ 20

/-- The member Error(): while(ros::ok()) {}.  With the liveness signal up the loop
never exits and the object stays as it is; with the signal down the call returns. -/
def Error (rosOk : Bool) (s : CoDs α) : Except (CoDs α) Unit :=
  if rosOk then Except.error s else Except.ok ()

/-- The member everythingisreceived(). -/
def everythingisreceived (s : CoDs α) : Bool :=
  s.State_of_system_is_set_ && s.State_of_surface_is_set_

/-- The member everyfalse(): both of its assignments write State_of_system_is_set_. -/
def everyfalse (s : CoDs α) : CoDs α :=
  let s : CoDs α := { s with State_of_system_is_set_ := false }
  { s with State_of_system_is_set_ := false }

/-- The member function named initialize in the source (a reserved word here).
The argument heap gives the contents of the memory
blocks that the vector resizes obtain when a size changes. -/
def initialise (rosOk : Bool) (heap : Nat → Nat → α) (Dimen_state : Int)
    (delta_dx F_d Gammma_free_motion : α) (defined_surface : Bool) (s : CoDs α) :
    Except (CoDs α) (CoDs α) := do
  if Dimen_state = 3 then pure () else Error rosOk s
  if 0 ≤ delta_dx then Error rosOk s
  if F_d < 0 then Error rosOk s
  let s : CoDs α := { s with Dimen_state_ := Dimen_state }
  let s : CoDs α := { s with Surface_ := defined_surface }
  let s : CoDs α := { s with Gammma_Threshold_ := Gammma_free_motion }
  let s : CoDs α := { s with delta_dx_ := delta_dx }
  let s : CoDs α := { s with F_d_ := F_d }
  let n := s.Dimen_state_.toNat
  let s : CoDs α := { s with N_ := s.N_.resize n (heap 0) }
  let s : CoDs α := { s with q2_ := s.q2_.resize n (heap 1) }
  let s : CoDs α := { s with q3_ := s.q3_.resize n (heap 2) }
  let s : CoDs α := { s with X_ := s.X_.resize n (heap 3) }
  let s : CoDs α := { s with DX_ := s.DX_.resize n (heap 4) }
  let s : CoDs α := { s with F_ := s.F_.resize n (heap 5) }
  let s : CoDs α := { s with Q_ := (s.Q_.resize n n).setZero }
  let s : CoDs α := { s with Q_inv_ := (s.Q_inv_.resize n n).setZero }
  let s : CoDs α := { s with Lambda_ := (s.Lambda_.resize n n).setZero }
  let s : CoDs α := { s with M_ := (s.M_.resize n n).setZero }
  let s : CoDs α := { s with InvMass_ := (s.InvMass_.resize n n).setIdentity }
  let s : CoDs α := { s with
    Normal_velocity_robot_ := (s.Normal_velocity_robot_.resize n (heap 6)).setZero }
  pure (everyfalse s)

/-- The member Set_Gamma.  The fourth conjunct of the test reads the stored N_, q2_
and q3_ and the incoming q2. -/
def Set_Gamma (rosOk : Bool) (Gamma : α) (Normal q2 q3 : VectorXd α) (s : CoDs α) :
    Except (CoDs α) (CoDs α) := do
  if (Normal.rows : Int) = s.Dimen_state_ ∧ (q2.rows : Int) = s.Dimen_state_
      ∧ (q3.rows : Int) = s.Dimen_state_
      ∧ (((s.N_.transpose.mulVec s.q2_).add (s.N_.transpose.mulVec s.q3_)).add
          (q2.transpose.mulVec s.q3_)).coeff 0 < 1 / 10000 then
    pure ()
  else
    Error rosOk s
  let s : CoDs α := { s with Gamma_Value_ := Gamma }
  let s : CoDs α := { s with N_ := Normal }
  let s : CoDs α := { s with q2_ := q2 }
  let s : CoDs α := { s with q3_ := q3 }
  let s : CoDs α := { s with Q_ := ((s.Q_.setCol 0 s.N_).setCol 1 s.q2_).setCol 2 s.q3_ }
  let s : CoDs α := { s with Q_inv_ := s.Q_.inverse }
  pure { s with State_of_surface_is_set_ := true }

/-- The member Set_State. -/
def Set_State (rosOk : Bool) (State DState Original_Dynamic : VectorXd α) (s : CoDs α) :
    Except (CoDs α) (CoDs α) := do
  if (State.rows : Int) = s.Dimen_state_ ∧ (Original_Dynamic.rows : Int) = s.Dimen_state_
      ∧ (DState.rows : Int) = s.Dimen_state_ then
    pure ()
  else
    Error rosOk s
  let s : CoDs α := { s with X_ := State }
  let s : CoDs α := { s with DX_ := DState }
  let s : CoDs α := { s with F_ := Original_Dynamic }
  pure { s with State_of_system_is_set_ := true }

/-- The member Set_Mass_Matrix. -/
def Set_Mass_Matrix (rosOk : Bool) (M : MatrixXd α) (s : CoDs α) :
    Except (CoDs α) (CoDs α) := do
  if (M.cols : Int) = s.Dimen_state_ ∧ (M.rows : Int) = s.Dimen_state_ then
    pure ()
  else
    Error rosOk s
  pure { s with InvMass_ := M.inverse }

/-- The member Calculate_Modulation: the object after the call and the matrix
returned.  The free motion test is an if of its own; the transition test and the
contact test form an if / else if after it. -/
def Calculate_Modulation (rosOk : Bool) (exp : α → α) (s : CoDs α) :
    Except (CoDs α) (CoDs α × MatrixXd α) := do
  if !everythingisreceived s then Error rosOk s
  let s : CoDs α := { s with Lambda_ := s.Lambda_.setIdentity }
  let s : CoDs α :=
    if s.Gammma_Threshold_ ≤ s.Gamma_Value_ then
      let s : CoDs α := { s with
        Lambda_ := s.Lambda_.set 0 0 (1 - exp (-(s.Gamma_Value_ - s.Gammma_Threshold_))) }
      let s : CoDs α := { s with Lambda_ := s.Lambda_.set 1 1 (s.Lambda_.coeff 0 0) }
      { s with Lambda_ := s.Lambda_.set 2 2 (s.Lambda_.coeff 0 0) }
    else s
  let s : CoDs α :=
    if s.Gamma_Value_ < s.Gammma_Threshold_ ∧ 0 < s.Gamma_Value_ then
      let s : CoDs α := { s with Normal_velocity_robot_ := s.Q_.transpose.mulVec s.DX_ }
      let s : CoDs α := { s with NF_ := (s.N_.transpose.mulVec s.F_).coeff 0 }
      if s.Normal_velocity_robot_.coeff 0 < s.delta_dx_ then
        { s with
          Lambda_ := s.Lambda_.set 0 0
            ((s.delta_dx_ - s.Normal_velocity_robot_.coeff 0
                + exp (-s.Gamma_Value_ / epsilon)) / (s.Gamma_Value_ * s.NF_)) }
      else
        let s : CoDs α := { s with
          F_dNMN_ := s.F_d_ * ((s.N_.transpose.mul s.InvMass_).mulVec s.N_).coeff 0 / s.NF_ }
        if s.delta_dx_ < s.Normal_velocity_robot_.coeff 0
            ∧ s.Normal_velocity_robot_.coeff 0 < 0 then
          { s with
            Lambda_ := s.Lambda_.set 0 0 (-s.F_dNMN_ * exp (-s.Gamma_Value_ / epsilon)) }
        else if 0 ≤ s.Normal_velocity_robot_.coeff 0 then
          { s with
            Lambda_ := s.Lambda_.set 0 0
              (-100 * s.F_dNMN_
                * (s.Normal_velocity_robot_.coeff 0 + exp (-s.Gamma_Value_ / epsilon))) }
        else s
    else if s.Gamma_Value_ ≤ 0 then
      let s : CoDs α := { s with NF_ := (s.N_.transpose.mulVec s.F_).coeff 0 }
      let s : CoDs α := { s with
        F_dNMN_ := -s.F_d_ * ((s.N_.transpose.mul s.InvMass_).mulVec s.N_).coeff 0 / s.NF_ }
      { s with Lambda_ := s.Lambda_.set 0 0 s.F_dNMN_ }
    else s
  let s : CoDs α := { s with M_ := (s.Q_.mul s.Lambda_).mul s.Q_inv_ }
  pure (s, s.M_)

/-- The member Get_Normal_Velocity. -/
def Get_Normal_Velocity (s : CoDs α) : VectorXd α :=
  s.Q_.transpose.mulVec s.DX_

/-! ## Objects used to exercise the operations -/

/-- A vector with the three components a, b, c. -/
def vec3 (a b c : α) : VectorXd α :=
  { rows := 3, coeff := fun i => if i = 0 then a else if i = 1 then b else if i = 2 then c else 0 }

/-- An object on which no member function has run yet: empty vectors and matrices.
The scalars and flags of such an object are indeterminate in C++; here they are
zero and false. -/
def fresh : CoDs α :=
  { Surface_ := false, State_of_system_is_set_ := false, State_of_surface_is_set_ := false,
    Dimen_state_ := 0, Gamma_Value_ := 0, Gammma_Threshold_ := 0, delta_dx_ := 0, F_d_ := 0,
    NF_ := 0, F_dNMN_ := 0,
    N_ := ⟨0, fun _ => 0⟩, q2_ := ⟨0, fun _ => 0⟩, q3_ := ⟨0, fun _ => 0⟩,
    X_ := ⟨0, fun _ => 0⟩, DX_ := ⟨0, fun _ => 0⟩, F_ := ⟨0, fun _ => 0⟩,
    Q_ := ⟨0, 0, fun _ _ => 0⟩, Q_inv_ := ⟨0, 0, fun _ _ => 0⟩, Lambda_ := ⟨0, 0, fun _ _ => 0⟩,
    M_ := ⟨0, 0, fun _ _ => 0⟩, InvMass_ := ⟨0, 0, fun _ _ => 0⟩,
    Normal_velocity_robot_ := ⟨0, fun _ => 0⟩ }

/-- One control tick on a fresh object whose new memory blocks are zeroed, with ROS
alive: initialize with dimension 3, then Set_Gamma, then Set_State. -/
def session (delta_dx F_d T Gamma : α) (Normal q2 q3 State DState F : VectorXd α) :
    Except (CoDs α) (CoDs α) := do
  let s ← initialise true (fun _ _ => 0) 3 delta_dx F_d T false fresh
  let s ← Set_Gamma true Gamma Normal q2 q3 s
  Set_State true State DState F s

/-- The matrix with columns Normal, q2, q3, as Set_Gamma builds it in a zeroed Q_. -/
def basis (Normal q2 q3 : VectorXd α) : MatrixXd α :=
  { rows := 3, cols := 3,
    coeff := fun a b => if b = 2 then q3.coeff a else if b = 1 then q2.coeff a
      else if b = 0 then Normal.coeff a else 0 }

/-- The object that session leaves behind when all its calls are accepted. -/
def sessionState (delta_dx F_d T Gamma : α) (Normal q2 q3 State DState F : VectorXd α) :
    CoDs α :=
  { Surface_ := false, State_of_system_is_set_ := true, State_of_surface_is_set_ := true,
    Dimen_state_ := 3, Gamma_Value_ := Gamma, Gammma_Threshold_ := T, delta_dx_ := delta_dx,
    F_d_ := F_d, NF_ := 0, F_dNMN_ := 0,
    N_ := Normal, q2_ := q2, q3_ := q3, X_ := State, DX_ := DState, F_ := F,
    Q_ := basis Normal q2 q3, Q_inv_ := (basis Normal q2 q3).inverse,
    Lambda_ := ⟨3, 3, fun _ _ => 0⟩, M_ := ⟨3, 3, fun _ _ => 0⟩,
    InvMass_ := ⟨3, 3, fun i j => if i = j then 1 else 0⟩,
    Normal_velocity_robot_ := ⟨3, fun _ => 0⟩ }

/-- The configuration of the scenarios of the specification (impact velocity -0.05,
contact force 5) with the coordinate axes as frame and the robot at the origin;
threshold, proximity, velocity and nominal force vary. -/
def scenario (T Gamma : α) (DState F : VectorXd α) : CoDs α :=
  sessionState (-(1 / 20)) 5 T Gamma (vec3 1 0 0) (vec3 0 1 0) (vec3 0 0 1) (vec3 0 0 0)
    DState F

/-- Scenario A of the specification: threshold 0.3, proximity 0.5 (free motion). -/
def scenarioA (α : Type) [LinearOrderedField α] : CoDs α :=
  scenario (3 / 10) (1 / 2) (vec3 0 0 0) (vec3 1 0 0)

/-- Scenario B of the specification: proximity 0.1 (transition), velocity (-0.2, 0, 0),
nominal force (1, 0, 0): the robot approaches faster than the impact velocity. -/
def scenarioB (α : Type) [LinearOrderedField α] : CoDs α :=
  scenario (3 / 10) (1 / 10) (vec3 (-(1 / 5)) 0 0) (vec3 1 0 0)

/-- Scenario C of the specification: proximity -0.01 (contact), nominal force (2, 0, 0). -/
def scenarioC (α : Type) [LinearOrderedField α] : CoDs α :=
  scenario (3 / 10) (-(1 / 100)) (vec3 0 0 0) (vec3 2 0 0)

/-- Transition phase with the normal velocity equal to the impact velocity -0.05. -/
def scenarioEdge (α : Type) [LinearOrderedField α] : CoDs α :=
  scenario (3 / 10) (1 / 10) (vec3 (-(1 / 20)) 0 0) (vec3 1 0 0)

/-- Transition phase with the robot moving away from the surface at 0.1. -/
def scenarioDeparting (α : Type) [LinearOrderedField α] : CoDs α :=
  scenario (3 / 10) (1 / 10) (vec3 (1 / 10) 0 0) (vec3 1 0 0)

/-- Proximity equal to the threshold 0.3. -/
def scenarioThreshold (α : Type) [LinearOrderedField α] : CoDs α :=
  scenario (3 / 10) (3 / 10) (vec3 0 0 0) (vec3 1 0 0)

/-- Threshold 0 and proximity 0: the proximity is at the threshold and in contact. -/
def scenarioZeroThreshold (α : Type) [LinearOrderedField α] : CoDs α :=
  scenario 0 0 (vec3 0 0 0) (vec3 1 0 0)

/-- The upper left 3×3 block as a matrix of Mathlib. -/
def toMat3 (A : MatrixXd α) : Matrix (Fin 3) (Fin 3) α :=
  fun i j => A.coeff i j

/-- The object that a returning call of Calculate_Modulation leaves behind.  With the
liveness signal down every call returns, and the object it leaves does not depend
on the signal. -/
def modulated (exp : α → α) (s : CoDs α) : CoDs α :=
  match Calculate_Modulation false exp s with
  | Except.ok r => r.1
  | Except.error e => e

/-- The object that a returning call of initialize leaves behind. -/
def initialised (heap : Nat → Nat → α) (Dimen_state : Int)
    (delta_dx F_d Gammma_free_motion : α) (defined_surface : Bool) (s : CoDs α) : CoDs α :=
  match initialise false heap Dimen_state delta_dx F_d Gammma_free_motion defined_surface s with
  | Except.ok r => r
  | Except.error e => e

/-- A fresh object after an accepted initialize and an accepted Set_Gamma with
proximity 0.5 and the coordinate axes as frame; Set_State has not been called. -/
def scenarioNoState (α : Type) [LinearOrderedField α] : CoDs α :=
  { sessionState (-(1 / 20)) 5 (3 / 10) (1 / 2) (vec3 1 0 0) (vec3 0 1 0) (vec3 0 0 1)
      ⟨3, fun _ => 0⟩ ⟨3, fun _ => 0⟩ ⟨3, fun _ => 0⟩ with
    State_of_system_is_set_ := false }

/-- The sum that the test of Set_Gamma compares with 0.0001: N_ᵀ q2_ + N_ᵀ q3_ + q2ᵀ q3_,
with the stored N_, q2_ and q3_ and the incoming q2. -/
def orthogonalitySum (s : CoDs α) (q2 : VectorXd α) : α :=
  (((s.N_.transpose.mulVec s.q2_).add (s.N_.transpose.mulVec s.q3_)).add
    (q2.transpose.mulVec s.q3_)).coeff 0

/-- The object that an accepted call of Set_Gamma leaves behind. -/
def framed (Gamma : α) (Normal q2 q3 : VectorXd α) (s : CoDs α) : CoDs α :=
  { s with
    Gamma_Value_ := Gamma, N_ := Normal, q2_ := q2, q3_ := q3,
    Q_ := ((s.Q_.setCol 0 Normal).setCol 1 q2).setCol 2 q3,
    Q_inv_ := (((s.Q_.setCol 0 Normal).setCol 1 q2).setCol 2 q3).inverse,
    State_of_surface_is_set_ := true }

/-- A ready object whose stored frame is far from orthogonal: normal (1,0,0),
first tangent (-1,0,0), second tangent (0,0,1). -/
def scenarioSkew (α : Type) [LinearOrderedField α] : CoDs α :=
  sessionState (-(1 / 20)) 5 (3 / 10) (1 / 2) (vec3 1 0 0) (vec3 (-1) 0 0) (vec3 0 0 1)
    (vec3 0 0 0) (vec3 0 0 0) (vec3 1 0 0)

/-- The objects that accepted calls produce while ROS is alive: the result of an
accepted initialize on any object, and from there the results of accepted calls of
Set_Gamma, Set_State, Set_Mass_Matrix and Calculate_Modulation. -/
inductive Reachable : CoDs α → Prop
  | init (heap : Nat → Nat → α) (D : Int) (delta_dx F_d T : α) (surf : Bool) (s t : CoDs α) :
      initialise true heap D delta_dx F_d T surf s = Except.ok t → Reachable t
  | frame (Gamma : α) (Normal q2 q3 : VectorXd α) (s t : CoDs α) :
      Reachable s → Set_Gamma true Gamma Normal q2 q3 s = Except.ok t → Reachable t
  | state (State DState F : VectorXd α) (s t : CoDs α) :
      Reachable s → Set_State true State DState F s = Except.ok t → Reachable t
  | mass (M : MatrixXd α) (s t : CoDs α) :
      Reachable s → Set_Mass_Matrix true M s = Except.ok t → Reachable t
  | modulation (exp : α → α) (s : CoDs α) (r : CoDs α × MatrixXd α) :
      Reachable s → Calculate_Modulation true exp s = Except.ok r → Reachable r.1

/-- What holds of every reachable object: the configuration is the accepted one, the
vectors and matrices have size 3, and the cached basis Q_ is either still the zero
matrix of initialize or has the stored frame vectors as columns, with Q_inv_ the
result of inverse() on it. -/
structure Consistent (s : CoDs α) : Prop where
  dimension : s.Dimen_state_ = 3
  velocity : s.delta_dx_ < 0
  force : 0 ≤ s.F_d_
  N_rows : s.N_.rows = 3
  q2_rows : s.q2_.rows = 3
  q3_rows : s.q3_.rows = 3
  DX_rows : s.DX_.rows = 3
  F_rows : s.F_.rows = 3
  Q_rows : s.Q_.rows = 3
  Q_cols : s.Q_.cols = 3
  Q_inv_rows : s.Q_inv_.rows = 3
  Q_inv_cols : s.Q_inv_.cols = 3
  Lambda_rows : s.Lambda_.rows = 3
  Lambda_cols : s.Lambda_.cols = 3
  InvMass_rows : s.InvMass_.rows = 3
  InvMass_cols : s.InvMass_.cols = 3
  basis : (∀ i j, s.Q_.coeff i j = 0) ∨
    (s.Q_inv_ = s.Q_.inverse ∧ ∀ i, s.Q_.coeff i 0 = s.N_.coeff i
      ∧ s.Q_.coeff i 1 = s.q2_.coeff i ∧ s.Q_.coeff i 2 = s.q3_.coeff i)

/-- A fresh object after an accepted initialize with the configuration of the
scenarios and zeroed memory. -/
def scenarioInitialised (α : Type) [LinearOrderedField α] : CoDs α :=
  initialised (fun _ _ => 0) 3 (-(1 / 20)) 5 (3 / 10) false fresh

/-- A ready object whose frame has the normal (1,0,0), the zero vector as first
tangent and (0,0,1) as second tangent, so that all three dot products are zero; the
nominal force is (1,0,0), the proximity 0.5. -/
def scenarioSingular (α : Type) [LinearOrderedField α] : CoDs α :=
  sessionState (-(1 / 20)) 5 (3 / 10) (1 / 2) (vec3 1 0 0) (vec3 0 0 0) (vec3 0 0 1)
    (vec3 0 0 0) (vec3 0 0 0) (vec3 1 0 0)

/-- The 3×3 identity matrix, as an argument of Set_Mass_Matrix. -/
def identity3 : MatrixXd α :=
  { rows := 3, cols := 3, coeff := fun i j => if i = j then 1 else 0 }

/-- A division of the program: the quotient, and the log of the call with the divisor
added at its end. -/
def divide (a b : α) (log : List α) : α × List α :=
  (a / b, log ++ [b])

/-- The member Calculate_Modulation with each division of its body carried out by
divide: the quotient on line 208 and the one inside its exponential, the quotients
on lines 213 and 233, and the ones inside the exponentials on lines 216 and 221.
The result is the object after the call, the matrix returned, and the divisors of
the divisions that ran, in the order in which they ran. -/
def Calculate_Modulation_logged (rosOk : Bool) (exp : α → α) (s : CoDs α) :
    Except (CoDs α) ((CoDs α × MatrixXd α) × List α) := do
  if !everythingisreceived s then Error rosOk s
  let s : CoDs α := { s with Lambda_ := s.Lambda_.setIdentity }
  let s : CoDs α :=
    if s.Gammma_Threshold_ ≤ s.Gamma_Value_ then
      let s : CoDs α := { s with
        Lambda_ := s.Lambda_.set 0 0 (1 - exp (-(s.Gamma_Value_ - s.Gammma_Threshold_))) }
      let s : CoDs α := { s with Lambda_ := s.Lambda_.set 1 1 (s.Lambda_.coeff 0 0) }
      { s with Lambda_ := s.Lambda_.set 2 2 (s.Lambda_.coeff 0 0) }
    else s
  let p : CoDs α × List α :=
    if s.Gamma_Value_ < s.Gammma_Threshold_ ∧ 0 < s.Gamma_Value_ then
      let s : CoDs α := { s with Normal_velocity_robot_ := s.Q_.transpose.mulVec s.DX_ }
      let s : CoDs α := { s with NF_ := (s.N_.transpose.mulVec s.F_).coeff 0 }
      if s.Normal_velocity_robot_.coeff 0 < s.delta_dx_ then
        let e : α × List α := divide (-s.Gamma_Value_) epsilon []
        let q : α × List α :=
          divide (s.delta_dx_ - s.Normal_velocity_robot_.coeff 0 + exp e.1)
            (s.Gamma_Value_ * s.NF_) e.2
        ({ s with Lambda_ := s.Lambda_.set 0 0 q.1 }, q.2)
      else
        let q : α × List α :=
          divide (s.F_d_ * ((s.N_.transpose.mul s.InvMass_).mulVec s.N_).coeff 0) s.NF_ []
        let s : CoDs α := { s with F_dNMN_ := q.1 }
        if s.delta_dx_ < s.Normal_velocity_robot_.coeff 0
            ∧ s.Normal_velocity_robot_.coeff 0 < 0 then
          let e : α × List α := divide (-s.Gamma_Value_) epsilon q.2
          ({ s with Lambda_ := s.Lambda_.set 0 0 (-s.F_dNMN_ * exp e.1) }, e.2)
        else if 0 ≤ s.Normal_velocity_robot_.coeff 0 then
          let e : α × List α := divide (-s.Gamma_Value_) epsilon q.2
          ({ s with
            Lambda_ := s.Lambda_.set 0 0
              (-100 * s.F_dNMN_ * (s.Normal_velocity_robot_.coeff 0 + exp e.1)) }, e.2)
        else (s, q.2)
    else if s.Gamma_Value_ ≤ 0 then
      let s : CoDs α := { s with NF_ := (s.N_.transpose.mulVec s.F_).coeff 0 }
      let q : α × List α :=
        divide (-s.F_d_ * ((s.N_.transpose.mul s.InvMass_).mulVec s.N_).coeff 0) s.NF_ []
      let s : CoDs α := { s with F_dNMN_ := q.1 }
      ({ s with Lambda_ := s.Lambda_.set 0 0 s.F_dNMN_ }, q.2)
    else (s, [])
  let s : CoDs α := { p.1 with M_ := (p.1.Q_.mul p.1.Lambda_).mul p.1.Q_inv_ }
  pure ((s, s.M_), p.2)

/-- The divisors that a returning call of Calculate_Modulation records. -/
def divisors (exp : α → α) (s : CoDs α) : List α :=
  match Calculate_Modulation_logged false exp s with
  | Except.ok r => r.2
  | Except.error _ => []


/-- A ready object in the transition phase whose frame is a rotation of the
coordinate axes: normal (0,1,0), tangents (0,0,1) and (1,0,0), velocity
(0, -0.2, 0.3), nominal force (0,1,0), proximity 0.1.  The basis Q_ is not
symmetric: Q_ᵀ * DX_ is (-0.2, 0.3, 0) and Q_ * DX_ is (0.3, 0, -0.2). -/
def scenarioRotated (α : Type) [LinearOrderedField α] : CoDs α :=
  sessionState (-(1 / 20)) 5 (3 / 10) (1 / 10) (vec3 0 1 0) (vec3 0 0 1) (vec3 1 0 0)
    (vec3 0 0 0) (vec3 0 (-(1 / 5)) (3 / 10)) (vec3 0 1 0)

/-- The call sequence of session is accepted for a valid configuration and vectors
of three components, and leaves sessionState. -/
theorem session_eq (delta_dx F_d T Gamma : α) (Normal q2 q3 State DState F : VectorXd α)
    (h1 : delta_dx < 0) (h2 : 0 ≤ F_d) (hN : Normal.rows = 3) (hq2 : q2.rows = 3)
    (hq3 : q3.rows = 3) (hX : State.rows = 3) (hDX : DState.rows = 3) (hF : F.rows = 3) :
    session delta_dx F_d T Gamma Normal q2 q3 State DState F
      = Except.ok (sessionState delta_dx F_d T Gamma Normal q2 q3 State DState F) := by
  have h1n : ¬ (0 ≤ delta_dx) := not_le.mpr h1
  have h2n : ¬ (F_d < 0) := not_lt.mpr h2
  simp [session, initialise, Set_Gamma, Set_State, Error, fresh, everyfalse,
    VectorXd.resize, VectorXd.transpose, MatrixXd.mulVec, VectorXd.add, bind, Except.bind,
    pure, Except.pure, h1n, h2n, hN, hq2, hq3, hX, hDX, hF, sessionState, basis,
    MatrixXd.resize, MatrixXd.setZero, MatrixXd.setIdentity, MatrixXd.setCol,
    VectorXd.setZero]

/-- The scenarios are reached by the call sequence of session. -/
theorem scenario_reached (T Gamma d1 d2 d3 f1 f2 f3 : α) :
    session (-(1 / 20)) 5 T Gamma (vec3 1 0 0) (vec3 0 1 0) (vec3 0 0 1) (vec3 0 0 0)
        (vec3 d1 d2 d3) (vec3 f1 f2 f3)
      = Except.ok (scenario T Gamma (vec3 d1 d2 d3) (vec3 f1 f2 f3)) :=
  session_eq _ _ _ _ _ _ _ _ _ _ (by norm_num) (by norm_num) rfl rfl rfl rfl rfl rfl

/-- In a ready state Calculate_Modulation returns, whatever the liveness signal. -/
theorem Calculate_Modulation_ok (rosOk : Bool) (exp : α → α) (s : CoDs α)
    (hready : everythingisreceived s = true) :
    Calculate_Modulation rosOk exp s = Except.ok (modulated exp s, (modulated exp s).M_) := by
  simp only [modulated, Calculate_Modulation, hready, Bool.not_true, Bool.false_eq_true,
    if_false, pure_bind]
  rfl

/-- With the liveness signal down Calculate_Modulation returns in every state. -/
theorem Calculate_Modulation_down (exp : α → α) (s : CoDs α) :
    Calculate_Modulation false exp s = Except.ok (modulated exp s, (modulated exp s).M_) := by
  cases h : everythingisreceived s <;>
  simp only [modulated, Calculate_Modulation, Error, h, Bool.not_true, Bool.not_false,
    Bool.false_eq_true, if_false, if_true, pure_bind] <;> rfl

/-- With the liveness signal up and an input missing Calculate_Modulation is stuck in
Error() and the object is as before the call. -/
theorem Calculate_Modulation_stuck (exp : α → α) (s : CoDs α)
    (h : everythingisreceived s = false) :
    Calculate_Modulation true exp s = Except.error s := by
  simp only [Calculate_Modulation, Error, h, Bool.not_false, if_true]
  rfl

/-- The matrix Lambda_ after the call, branch by branch. -/
theorem modulated_Lambda (exp : α → α) (s : CoDs α) :
    (modulated exp s).Lambda_
      = (if s.Gamma_Value_ < s.Gammma_Threshold_ ∧ 0 < s.Gamma_Value_ then
          (if (s.Q_.transpose.mulVec s.DX_).coeff 0 < s.delta_dx_ then
            s.Lambda_.setIdentity.set 0 0
              ((s.delta_dx_ - (s.Q_.transpose.mulVec s.DX_).coeff 0
                  + exp (-s.Gamma_Value_ / epsilon))
                / (s.Gamma_Value_ * (s.N_.transpose.mulVec s.F_).coeff 0))
          else if s.delta_dx_ < (s.Q_.transpose.mulVec s.DX_).coeff 0
              ∧ (s.Q_.transpose.mulVec s.DX_).coeff 0 < 0 then
            s.Lambda_.setIdentity.set 0 0
              (-(s.F_d_ * ((s.N_.transpose.mul s.InvMass_).mulVec s.N_).coeff 0
                  / (s.N_.transpose.mulVec s.F_).coeff 0) * exp (-s.Gamma_Value_ / epsilon))
          else if 0 ≤ (s.Q_.transpose.mulVec s.DX_).coeff 0 then
            s.Lambda_.setIdentity.set 0 0
              (-100 * (s.F_d_ * ((s.N_.transpose.mul s.InvMass_).mulVec s.N_).coeff 0
                  / (s.N_.transpose.mulVec s.F_).coeff 0)
                * ((s.Q_.transpose.mulVec s.DX_).coeff 0 + exp (-s.Gamma_Value_ / epsilon)))
          else s.Lambda_.setIdentity)
        else if s.Gamma_Value_ ≤ 0 then
          (if s.Gammma_Threshold_ ≤ s.Gamma_Value_ then
            ((s.Lambda_.setIdentity.set 0 0
                (1 - exp (-(s.Gamma_Value_ - s.Gammma_Threshold_)))).set 1 1
                (1 - exp (-(s.Gamma_Value_ - s.Gammma_Threshold_)))).set 2 2
                (1 - exp (-(s.Gamma_Value_ - s.Gammma_Threshold_)))
          else s.Lambda_.setIdentity).set 0 0
            (-s.F_d_ * ((s.N_.transpose.mul s.InvMass_).mulVec s.N_).coeff 0
              / (s.N_.transpose.mulVec s.F_).coeff 0)
        else
          ((s.Lambda_.setIdentity.set 0 0
              (1 - exp (-(s.Gamma_Value_ - s.Gammma_Threshold_)))).set 1 1
              (1 - exp (-(s.Gamma_Value_ - s.Gammma_Threshold_)))).set 2 2
              (1 - exp (-(s.Gamma_Value_ - s.Gammma_Threshold_)))) := by
  rcases lt_or_le s.Gamma_Value_ s.Gammma_Threshold_ with h1 | h1 <;>
  (first | have g1 := h1.not_le | have g1 := h1.not_lt) <;>
  rcases lt_or_le 0 s.Gamma_Value_ with h2 | h2 <;>
  (first | have g2 := h2.not_le | have g2 := h2.not_lt) <;>
  rcases lt_or_le ((s.Q_.transpose.mulVec s.DX_).coeff 0) s.delta_dx_ with h3 | h3 <;>
  (first | have g3 := h3.not_le | have g3 := h3.not_lt) <;>
  rcases lt_or_le s.delta_dx_ ((s.Q_.transpose.mulVec s.DX_).coeff 0) with h4 | h4 <;>
  (first | have g4 := h4.not_le | have g4 := h4.not_lt) <;>
  rcases lt_or_le ((s.Q_.transpose.mulVec s.DX_).coeff 0) 0 with h5 | h5 <;>
  (first | have g5 := h5.not_le | have g5 := h5.not_lt) <;>
  cases h : everythingisreceived s <;>
  simp [modulated, Calculate_Modulation, Error, h, h1, h2, h3, h4, h5, g1, g2, g3, g4, g5,
    MatrixXd.set, MatrixXd.setIdentity, pure, Except.pure, bind, Except.bind]

/-- The matrix M_ after the call is Q_ * Lambda_ * Q_inv_. -/
theorem modulated_M (exp : α → α) (s : CoDs α) :
    (modulated exp s).M_ = (s.Q_.mul (modulated exp s).Lambda_).mul s.Q_inv_ := by
  cases h : everythingisreceived s <;>
  simp only [modulated, Calculate_Modulation, Error, h, Bool.not_true, Bool.not_false,
    Bool.false_eq_true, if_false, if_true, pure_bind] <;>
  split_ifs <;> rfl

/-- The call does not change the number of columns of Lambda_. -/
theorem modulated_Lambda_cols (exp : α → α) (s : CoDs α) :
    (modulated exp s).Lambda_.cols = s.Lambda_.cols := by
  rw [modulated_Lambda]
  split_ifs <;> rfl

/-- The entries of Lambda_ off the diagonal are zero after the call. -/
theorem modulated_offdiag (exp : α → α) (s : CoDs α) (i j : Nat) (hij : i ≠ j) :
    (modulated exp s).Lambda_.coeff i j = 0 := by
  have h00 : ¬ (i = 0 ∧ j = 0) := fun h => hij (h.1.trans h.2.symm)
  have h11 : ¬ (i = 1 ∧ j = 1) := fun h => hij (h.1.trans h.2.symm)
  have h22 : ¬ (i = 2 ∧ j = 2) := fun h => hij (h.1.trans h.2.symm)
  rw [modulated_Lambda]
  split_ifs <;> simp [MatrixXd.set, MatrixXd.setIdentity, h00, h11, h22, hij]

/-- Normal component of the nominal force in a scenario. -/
theorem scenario_normalForce (T Gamma f1 f2 f3 : α) (d : VectorXd α) :
    ((scenario T Gamma d (vec3 f1 f2 f3)).N_.transpose.mulVec
      (scenario T Gamma d (vec3 f1 f2 f3)).F_).coeff 0 = f1 := by
  simp [scenario, sessionState, vec3, VectorXd.transpose, MatrixXd.mulVec,
    Finset.sum_range_succ]

/-- Normal component of the velocity in a scenario. -/
theorem scenario_normalVelocity (T Gamma d1 d2 d3 : α) (f : VectorXd α) :
    ((scenario T Gamma (vec3 d1 d2 d3) f).Q_.transpose.mulVec
      (scenario T Gamma (vec3 d1 d2 d3) f).DX_).coeff 0 = d1 := by
  simp [scenario, sessionState, basis, vec3, MatrixXd.transpose, MatrixXd.mulVec,
    Finset.sum_range_succ]

/-- The quadratic form of the inverse mass along the normal in a scenario. -/
theorem scenario_normalInvMass (T Gamma : α) (d f : VectorXd α) :
    (((scenario T Gamma d f).N_.transpose.mul (scenario T Gamma d f).InvMass_).mulVec
      (scenario T Gamma d f).N_).coeff 0 = 1 := by
  simp [scenario, sessionState, vec3, VectorXd.transpose, MatrixXd.mulVec, MatrixXd.mul,
    Finset.sum_range_succ]

/-- C1: in a ready state with proximity at most zero and a nominal force whose normal
component is not zero, Calculate_Modulation returns and leaves
Lambda_(0,0) = -F_d_ * (N_ᵀ * InvMass_ * N_) / (N_ᵀ * F_), whatever the threshold. -/
theorem contact_phase_normal_entry (rosOk : Bool) (exp : α → α) (s : CoDs α)
    (hready : everythingisreceived s = true) (hG : s.Gamma_Value_ ≤ 0)
    (_hNF : (s.N_.transpose.mulVec s.F_).coeff 0 ≠ 0) :
    ∃ r : CoDs α × MatrixXd α, Calculate_Modulation rosOk exp s = Except.ok r ∧
      r.1.Lambda_.coeff 0 0
        = -s.F_d_ * ((s.N_.transpose.mul s.InvMass_).mulVec s.N_).coeff 0
            / (s.N_.transpose.mulVec s.F_).coeff 0 := by
  refine ⟨_, Calculate_Modulation_ok rosOk exp s hready, ?_⟩
  have h0 : ¬ (0 < s.Gamma_Value_) := not_lt.mpr hG
  simp [modulated_Lambda, h0, hG, MatrixXd.set]

/-- Scenario C: proximity -0.01, normal (1,0,0), nominal force (2,0,0), identity
inverse mass, contact force 5 give Lambda_(0,0) = -2.5. -/
theorem contact_phase_normal_entry_witness :
    everythingisreceived (scenarioC ℝ) = true
    ∧ (scenarioC ℝ).Gamma_Value_ ≤ 0
    ∧ ((scenarioC ℝ).N_.transpose.mulVec (scenarioC ℝ).F_).coeff 0 ≠ 0
    ∧ ∃ r : CoDs ℝ × MatrixXd ℝ,
        Calculate_Modulation true Real.exp (scenarioC ℝ) = Except.ok r
          ∧ r.1.Lambda_.coeff 0 0 = -(5 / 2) := by
  have hNF : ((scenarioC ℝ).N_.transpose.mulVec (scenarioC ℝ).F_).coeff 0 = 2 :=
    scenario_normalForce _ _ _ _ _ _
  have hG : (scenarioC ℝ).Gamma_Value_ ≤ 0 := by
    norm_num [scenarioC, scenario, sessionState]
  have hNF0 : ((scenarioC ℝ).N_.transpose.mulVec (scenarioC ℝ).F_).coeff 0 ≠ 0 := by
    rw [hNF]; norm_num
  obtain ⟨r, hr, h⟩ := contact_phase_normal_entry true Real.exp (scenarioC ℝ) rfl hG hNF0
  refine ⟨rfl, hG, hNF0, r, hr, ?_⟩
  rw [h, hNF, scenarioC, scenario_normalInvMass]
  norm_num [scenario, sessionState]

/-- C2, as the code has it: in a ready state with the proximity at or above the
threshold, Calculate_Modulation returns Q_ * Lambda_ * Q_inv_ where Lambda_ has zero
entries off the diagonal and Lambda_(1,1) = Lambda_(2,2) = 1 - exp(-(Gamma - threshold));
Lambda_(0,0) has that value too when the proximity is positive, and is then zero
at a proximity equal to the threshold (for an exp with exp 0 = 1). -/
theorem free_motion_modulation (rosOk : Bool) (exp : α → α) (s : CoDs α)
    (hready : everythingisreceived s = true)
    (hT : s.Gammma_Threshold_ ≤ s.Gamma_Value_) :
    ∃ r : CoDs α × MatrixXd α, Calculate_Modulation rosOk exp s = Except.ok r ∧
      r.2 = (s.Q_.mul r.1.Lambda_).mul s.Q_inv_ ∧
      (∀ i j : Nat, i ≠ j → r.1.Lambda_.coeff i j = 0) ∧
      r.1.Lambda_.coeff 1 1 = 1 - exp (-(s.Gamma_Value_ - s.Gammma_Threshold_)) ∧
      r.1.Lambda_.coeff 2 2 = 1 - exp (-(s.Gamma_Value_ - s.Gammma_Threshold_)) ∧
      (0 < s.Gamma_Value_ →
        r.1.Lambda_.coeff 0 0 = 1 - exp (-(s.Gamma_Value_ - s.Gammma_Threshold_))) ∧
      (0 < s.Gamma_Value_ → s.Gamma_Value_ = s.Gammma_Threshold_ → exp 0 = 1 →
        r.1.Lambda_.coeff 0 0 = 0) := by
  have h1 : ¬ (s.Gamma_Value_ < s.Gammma_Threshold_) := not_lt.mpr hT
  have key : 0 < s.Gamma_Value_ →
      (modulated exp s).Lambda_.coeff 0 0
        = 1 - exp (-(s.Gamma_Value_ - s.Gammma_Threshold_)) := by
    intro hG
    have h0 : ¬ (s.Gamma_Value_ ≤ 0) := not_le.mpr hG
    simp [modulated_Lambda, h0, h1, MatrixXd.set]
  refine ⟨_, Calculate_Modulation_ok rosOk exp s hready, modulated_M exp s,
    fun i j hij => modulated_offdiag exp s i j hij, ?_, ?_, key, ?_⟩
  · by_cases h0 : s.Gamma_Value_ ≤ 0 <;> simp [modulated_Lambda, h0, h1, hT, MatrixXd.set]
  · by_cases h0 : s.Gamma_Value_ ≤ 0 <;> simp [modulated_Lambda, h0, h1, hT, MatrixXd.set]
  · intro hG hEq hexp
    rw [key hG, hEq, sub_self, neg_zero, hexp, sub_self]

/-- Contact branch: the entry (0,0) of Lambda_ for a proximity of at most zero. -/
theorem modulated_contact (exp : α → α) (s : CoDs α) (hG : s.Gamma_Value_ ≤ 0) :
    (modulated exp s).Lambda_.coeff 0 0
      = -s.F_d_ * ((s.N_.transpose.mul s.InvMass_).mulVec s.N_).coeff 0
          / (s.N_.transpose.mulVec s.F_).coeff 0 := by
  have h0 : ¬ (0 < s.Gamma_Value_) := not_lt.mpr hG
  simp [modulated_Lambda, h0, hG, MatrixXd.set]

/-- Scenario A (threshold 0.3, proximity 0.5, coordinate axes as frame) gives
Lambda_ = (1 - exp(-0.2)) * identity; at a proximity equal to the threshold 0.3 the
entry Lambda_(0,0) is zero. -/
theorem free_motion_modulation_witness :
    (everythingisreceived (scenarioA ℝ) = true
      ∧ (scenarioA ℝ).Gammma_Threshold_ ≤ (scenarioA ℝ).Gamma_Value_
      ∧ 0 < (scenarioA ℝ).Gamma_Value_
      ∧ ∃ r : CoDs ℝ × MatrixXd ℝ,
          Calculate_Modulation true Real.exp (scenarioA ℝ) = Except.ok r
            ∧ (∀ i j : Nat, i ≠ j → r.1.Lambda_.coeff i j = 0)
            ∧ r.1.Lambda_.coeff 0 0 = 1 - Real.exp (-(1 / 5))
            ∧ r.1.Lambda_.coeff 1 1 = 1 - Real.exp (-(1 / 5))
            ∧ r.1.Lambda_.coeff 2 2 = 1 - Real.exp (-(1 / 5)))
    ∧ (everythingisreceived (scenarioThreshold ℝ) = true
      ∧ 0 < (scenarioThreshold ℝ).Gamma_Value_
      ∧ (scenarioThreshold ℝ).Gamma_Value_ = (scenarioThreshold ℝ).Gammma_Threshold_
      ∧ Real.exp 0 = 1
      ∧ ∃ r : CoDs ℝ × MatrixXd ℝ,
          Calculate_Modulation true Real.exp (scenarioThreshold ℝ) = Except.ok r
            ∧ r.1.Lambda_.coeff 0 0 = 0) := by
  have hA : (scenarioA ℝ).Gammma_Threshold_ ≤ (scenarioA ℝ).Gamma_Value_ := by
    norm_num [scenarioA, scenario, sessionState]
  have hA0 : 0 < (scenarioA ℝ).Gamma_Value_ := by
    norm_num [scenarioA, scenario, sessionState]
  have hv : -((scenarioA ℝ).Gamma_Value_ - (scenarioA ℝ).Gammma_Threshold_) = -(1 / 5) := by
    norm_num [scenarioA, scenario, sessionState]
  have hT0 : 0 < (scenarioThreshold ℝ).Gamma_Value_ := by
    norm_num [scenarioThreshold, scenario, sessionState]
  obtain ⟨r, hr, -, hoff, h11, h22, h00, -⟩ :=
    free_motion_modulation true Real.exp (scenarioA ℝ) rfl hA
  obtain ⟨r2, hr2, -, -, -, -, -, hz⟩ :=
    free_motion_modulation true Real.exp (scenarioThreshold ℝ) rfl (le_of_eq rfl)
  refine ⟨⟨rfl, hA, hA0, r, hr, hoff, ?_, ?_, ?_⟩,
    rfl, hT0, rfl, Real.exp_zero, r2, hr2, hz hT0 rfl Real.exp_zero⟩
  · rw [h00 hA0, hv]
  · rw [h11, hv]
  · rw [h22, hv]

/-- C2 fails at threshold 0 and proximity 0: the state is reached by accepted calls,
the proximity equals the threshold, and the contact branch, which runs after the
free motion branch, leaves Lambda_(0,0) = -5 where the claim has 1 - exp(0) = 0. -/
theorem free_motion_counterexample :
    session (-(1 / 20) : ℝ) 5 0 0 (vec3 1 0 0) (vec3 0 1 0) (vec3 0 0 1) (vec3 0 0 0)
        (vec3 0 0 0) (vec3 1 0 0) = Except.ok (scenarioZeroThreshold ℝ)
    ∧ everythingisreceived (scenarioZeroThreshold ℝ) = true
    ∧ (scenarioZeroThreshold ℝ).Gammma_Threshold_ ≤ (scenarioZeroThreshold ℝ).Gamma_Value_
    ∧ (scenarioZeroThreshold ℝ).Gamma_Value_ = (scenarioZeroThreshold ℝ).Gammma_Threshold_
    ∧ ∃ r : CoDs ℝ × MatrixXd ℝ,
        Calculate_Modulation true Real.exp (scenarioZeroThreshold ℝ) = Except.ok r
          ∧ r.1.Lambda_.coeff 0 0 = -5
          ∧ r.1.Lambda_.coeff 0 0 ≠ 0
          ∧ r.1.Lambda_.coeff 0 0
              ≠ 1 - Real.exp (-((scenarioZeroThreshold ℝ).Gamma_Value_
                    - (scenarioZeroThreshold ℝ).Gammma_Threshold_)) := by
  have hG : (scenarioZeroThreshold ℝ).Gamma_Value_ ≤ 0 := le_of_eq rfl
  have hNF : ((scenarioZeroThreshold ℝ).N_.transpose.mulVec
      (scenarioZeroThreshold ℝ).F_).coeff 0 = 1 := scenario_normalForce _ _ _ _ _ _
  have h5 : (modulated Real.exp (scenarioZeroThreshold ℝ)).Lambda_.coeff 0 0 = -5 := by
    rw [modulated_contact Real.exp _ hG, hNF, scenarioZeroThreshold, scenario_normalInvMass]
    norm_num [scenario, sessionState]
  refine ⟨scenario_reached _ _ _ _ _ _ _ _, rfl, le_of_eq rfl, rfl, _,
    Calculate_Modulation_ok true Real.exp _ rfl, h5, ?_, ?_⟩
  · rw [h5]; norm_num
  · rw [h5]; simp [scenarioZeroThreshold, scenario, sessionState]

/-- C3 at the boundary: the state is reached by accepted calls, it is in the
transition phase with a normal velocity equal to the impact velocity -0.05, and
Calculate_Modulation leaves Lambda_(0,0) = 1, the value set by setIdentity, where
the claim has -forceTerm * exp(-Gamma / epsilon), a negative number. -/
theorem envelope_edge_keeps_identity :
    session (-(1 / 20) : ℝ) 5 (3 / 10) (1 / 10) (vec3 1 0 0) (vec3 0 1 0) (vec3 0 0 1)
        (vec3 0 0 0) (vec3 (-(1 / 20)) 0 0) (vec3 1 0 0) = Except.ok (scenarioEdge ℝ)
    ∧ everythingisreceived (scenarioEdge ℝ) = true
    ∧ 0 < (scenarioEdge ℝ).Gamma_Value_
    ∧ (scenarioEdge ℝ).Gamma_Value_ < (scenarioEdge ℝ).Gammma_Threshold_
    ∧ (scenarioEdge ℝ).delta_dx_
        ≤ ((scenarioEdge ℝ).Q_.transpose.mulVec (scenarioEdge ℝ).DX_).coeff 0
    ∧ ((scenarioEdge ℝ).Q_.transpose.mulVec (scenarioEdge ℝ).DX_).coeff 0 < 0
    ∧ ∃ r : CoDs ℝ × MatrixXd ℝ,
        Calculate_Modulation true Real.exp (scenarioEdge ℝ) = Except.ok r
          ∧ r.1.Lambda_.coeff 0 0 = 1
          ∧ r.1.Lambda_.coeff 0 0
              ≠ -((scenarioEdge ℝ).F_d_
                    * (((scenarioEdge ℝ).N_.transpose.mul (scenarioEdge ℝ).InvMass_).mulVec
                        (scenarioEdge ℝ).N_).coeff 0
                    / ((scenarioEdge ℝ).N_.transpose.mulVec (scenarioEdge ℝ).F_).coeff 0)
                  * Real.exp (-(scenarioEdge ℝ).Gamma_Value_ / epsilon) := by
  have hv : ((scenarioEdge ℝ).Q_.transpose.mulVec (scenarioEdge ℝ).DX_).coeff 0 = -(1 / 20) :=
    scenario_normalVelocity _ _ _ _ _ _
  have hNF : ((scenarioEdge ℝ).N_.transpose.mulVec (scenarioEdge ℝ).F_).coeff 0 = 1 :=
    scenario_normalForce _ _ _ _ _ _
  have hM : (((scenarioEdge ℝ).N_.transpose.mul (scenarioEdge ℝ).InvMass_).mulVec
      (scenarioEdge ℝ).N_).coeff 0 = 1 := scenario_normalInvMass _ _ _ _
  have hd : (scenarioEdge ℝ).delta_dx_ = -(1 / 20) := rfl
  have hG : (scenarioEdge ℝ).Gamma_Value_ = 1 / 10 := rfl
  have hT : (scenarioEdge ℝ).Gammma_Threshold_ = 3 / 10 := rfl
  have hF : (scenarioEdge ℝ).F_d_ = 5 := rfl
  have h1 : (modulated Real.exp (scenarioEdge ℝ)).Lambda_.coeff 0 0 = 1 := by
    rw [modulated_Lambda, hv, hd, hG, hT]
    norm_num [MatrixXd.set, MatrixXd.setIdentity]
  refine ⟨scenario_reached _ _ _ _ _ _ _ _, rfl, ?_, ?_, ?_, ?_, _,
    Calculate_Modulation_ok true Real.exp _ rfl, h1, ?_⟩
  · rw [hG]; norm_num
  · rw [hG, hT]; norm_num
  · rw [hv, hd]
  · rw [hv]; norm_num
  · rw [h1, hNF, hM, hF]
    have := Real.exp_pos (-(scenarioEdge ℝ).Gamma_Value_ / epsilon)
    linarith

/-- C4: in a ready state in the transition phase whose normal velocity is below the
impact velocity, with a nominal force whose normal component is not zero,
Calculate_Modulation returns and leaves
Lambda_(0,0) = (delta_dx_ - v_n + exp(-Gamma / epsilon)) / (Gamma * (N_ᵀ * F_)) and
Lambda_(1,1) = Lambda_(2,2) = 1, where v_n = (Q_ᵀ * DX_)(0). -/
theorem transition_overshoot_entry (rosOk : Bool) (exp : α → α) (s : CoDs α)
    (hready : everythingisreceived s = true)
    (hG : 0 < s.Gamma_Value_) (hT : s.Gamma_Value_ < s.Gammma_Threshold_)
    (hv : (s.Q_.transpose.mulVec s.DX_).coeff 0 < s.delta_dx_)
    (_hNF : (s.N_.transpose.mulVec s.F_).coeff 0 ≠ 0) :
    ∃ r : CoDs α × MatrixXd α, Calculate_Modulation rosOk exp s = Except.ok r ∧
      r.1.Lambda_.coeff 0 0
        = (s.delta_dx_ - (s.Q_.transpose.mulVec s.DX_).coeff 0
              + exp (-s.Gamma_Value_ / epsilon))
            / (s.Gamma_Value_ * (s.N_.transpose.mulVec s.F_).coeff 0) ∧
      r.1.Lambda_.coeff 1 1 = 1 ∧ r.1.Lambda_.coeff 2 2 = 1 := by
  refine ⟨_, Calculate_Modulation_ok rosOk exp s hready, ?_, ?_, ?_⟩ <;>
  simp [modulated_Lambda, hG, hT, hv, MatrixXd.set, MatrixXd.setIdentity]

/-- Scenario B: impact velocity -0.05, threshold 0.3, proximity 0.1, velocity
(-0.2, 0, 0), nominal force (1, 0, 0), coordinate axes as frame. -/
theorem transition_overshoot_entry_witness :
    everythingisreceived (scenarioB ℝ) = true
    ∧ 0 < (scenarioB ℝ).Gamma_Value_
    ∧ (scenarioB ℝ).Gamma_Value_ < (scenarioB ℝ).Gammma_Threshold_
    ∧ ((scenarioB ℝ).Q_.transpose.mulVec (scenarioB ℝ).DX_).coeff 0 = -(1 / 5)
    ∧ ((scenarioB ℝ).Q_.transpose.mulVec (scenarioB ℝ).DX_).coeff 0 < (scenarioB ℝ).delta_dx_
    ∧ ((scenarioB ℝ).N_.transpose.mulVec (scenarioB ℝ).F_).coeff 0 = 1
    ∧ ∃ r : CoDs ℝ × MatrixXd ℝ,
        Calculate_Modulation true Real.exp (scenarioB ℝ) = Except.ok r
          ∧ r.1.Lambda_.coeff 0 0
              = (-(1 / 20) - -(1 / 5) + Real.exp (-(1 / 10) / epsilon)) / (1 / 10 * 1)
          ∧ r.1.Lambda_.coeff 1 1 = 1 ∧ r.1.Lambda_.coeff 2 2 = 1 := by
  have hv : ((scenarioB ℝ).Q_.transpose.mulVec (scenarioB ℝ).DX_).coeff 0 = -(1 / 5) :=
    scenario_normalVelocity _ _ _ _ _ _
  have hNF : ((scenarioB ℝ).N_.transpose.mulVec (scenarioB ℝ).F_).coeff 0 = 1 :=
    scenario_normalForce _ _ _ _ _ _
  have hd : (scenarioB ℝ).delta_dx_ = -(1 / 20) := rfl
  have hG : (scenarioB ℝ).Gamma_Value_ = 1 / 10 := rfl
  have hT : (scenarioB ℝ).Gammma_Threshold_ = 3 / 10 := rfl
  have h1 : 0 < (scenarioB ℝ).Gamma_Value_ := by rw [hG]; norm_num
  have h2 : (scenarioB ℝ).Gamma_Value_ < (scenarioB ℝ).Gammma_Threshold_ := by
    rw [hG, hT]; norm_num
  have h3 : ((scenarioB ℝ).Q_.transpose.mulVec (scenarioB ℝ).DX_).coeff 0
      < (scenarioB ℝ).delta_dx_ := by rw [hv, hd]; norm_num
  obtain ⟨r, hr, h00, h11, h22⟩ :=
    transition_overshoot_entry true Real.exp (scenarioB ℝ) rfl h1 h2 h3 (by rw [hNF]; norm_num)
  refine ⟨rfl, h1, h2, hv, h3, hNF, r, hr, ?_, h11, h22⟩
  rw [h00, hv, hNF, hd, hG]

/-- C5: in a ready state (impact velocity negative, as initialize enforces) in the
transition phase whose normal velocity v_n = (Q_ᵀ * DX_)(0) is not negative, with a
nominal force whose normal component is not zero, Calculate_Modulation returns and
leaves Lambda_(0,0) = -100 * forceTerm * (v_n + exp(-Gamma / epsilon)), where
forceTerm = F_d_ * (N_ᵀ * InvMass_ * N_) / (N_ᵀ * F_). -/
theorem transition_departing_entry (rosOk : Bool) (exp : α → α) (s : CoDs α)
    (hready : everythingisreceived s = true) (hcfg : s.delta_dx_ < 0)
    (hG : 0 < s.Gamma_Value_) (hT : s.Gamma_Value_ < s.Gammma_Threshold_)
    (hv : 0 ≤ (s.Q_.transpose.mulVec s.DX_).coeff 0)
    (_hNF : (s.N_.transpose.mulVec s.F_).coeff 0 ≠ 0) :
    ∃ r : CoDs α × MatrixXd α, Calculate_Modulation rosOk exp s = Except.ok r ∧
      r.1.Lambda_.coeff 0 0
        = -100 * (s.F_d_ * ((s.N_.transpose.mul s.InvMass_).mulVec s.N_).coeff 0
              / (s.N_.transpose.mulVec s.F_).coeff 0)
            * ((s.Q_.transpose.mulVec s.DX_).coeff 0 + exp (-s.Gamma_Value_ / epsilon)) := by
  refine ⟨_, Calculate_Modulation_ok rosOk exp s hready, ?_⟩
  have h1 : ¬ ((s.Q_.transpose.mulVec s.DX_).coeff 0 < s.delta_dx_) :=
    not_lt.mpr (le_trans hcfg.le hv)
  have h2 : ¬ ((s.Q_.transpose.mulVec s.DX_).coeff 0 < 0) := not_lt.mpr hv
  simp [modulated_Lambda, hG, hT, hv, h1, h2, MatrixXd.set]

/-- The robot leaves the surface at 0.1 in the transition phase: Lambda_(0,0) is
-100 * 5 * (0.1 + exp(-0.1 / epsilon)). -/
theorem transition_departing_entry_witness :
    everythingisreceived (scenarioDeparting ℝ) = true
    ∧ (scenarioDeparting ℝ).delta_dx_ < 0
    ∧ 0 < (scenarioDeparting ℝ).Gamma_Value_
    ∧ (scenarioDeparting ℝ).Gamma_Value_ < (scenarioDeparting ℝ).Gammma_Threshold_
    ∧ 0 ≤ ((scenarioDeparting ℝ).Q_.transpose.mulVec (scenarioDeparting ℝ).DX_).coeff 0
    ∧ ((scenarioDeparting ℝ).N_.transpose.mulVec (scenarioDeparting ℝ).F_).coeff 0 ≠ 0
    ∧ ∃ r : CoDs ℝ × MatrixXd ℝ,
        Calculate_Modulation true Real.exp (scenarioDeparting ℝ) = Except.ok r
          ∧ r.1.Lambda_.coeff 0 0
              = -100 * (5 * 1 / 1) * (1 / 10 + Real.exp (-(1 / 10) / epsilon)) := by
  have hv : ((scenarioDeparting ℝ).Q_.transpose.mulVec (scenarioDeparting ℝ).DX_).coeff 0
      = 1 / 10 := scenario_normalVelocity _ _ _ _ _ _
  have hNF : ((scenarioDeparting ℝ).N_.transpose.mulVec (scenarioDeparting ℝ).F_).coeff 0 = 1 :=
    scenario_normalForce _ _ _ _ _ _
  have hM : (((scenarioDeparting ℝ).N_.transpose.mul (scenarioDeparting ℝ).InvMass_).mulVec
      (scenarioDeparting ℝ).N_).coeff 0 = 1 := scenario_normalInvMass _ _ _ _
  have hd : (scenarioDeparting ℝ).delta_dx_ = -(1 / 20) := rfl
  have hG : (scenarioDeparting ℝ).Gamma_Value_ = 1 / 10 := rfl
  have hT : (scenarioDeparting ℝ).Gammma_Threshold_ = 3 / 10 := rfl
  have hF : (scenarioDeparting ℝ).F_d_ = 5 := rfl
  have h0 : (scenarioDeparting ℝ).delta_dx_ < 0 := by rw [hd]; norm_num
  have h1 : 0 < (scenarioDeparting ℝ).Gamma_Value_ := by rw [hG]; norm_num
  have h2 : (scenarioDeparting ℝ).Gamma_Value_ < (scenarioDeparting ℝ).Gammma_Threshold_ := by
    rw [hG, hT]; norm_num
  have h3 : 0 ≤ ((scenarioDeparting ℝ).Q_.transpose.mulVec (scenarioDeparting ℝ).DX_).coeff 0 := by
    rw [hv]; norm_num
  have h4 : ((scenarioDeparting ℝ).N_.transpose.mulVec (scenarioDeparting ℝ).F_).coeff 0 ≠ 0 := by
    rw [hNF]; norm_num
  obtain ⟨r, hr, h00⟩ :=
    transition_departing_entry true Real.exp (scenarioDeparting ℝ) rfl h0 h1 h2 h3 h4
  refine ⟨rfl, h0, h1, h2, h3, h4, r, hr, ?_⟩
  rw [h00, hv, hNF, hM, hF, hG]

/-- Inside the velocity envelope, strictly above the impact velocity, with a nominal
force whose normal component is not zero: the entry (0,0) of Lambda_ is
-forceTerm * exp(-Gamma / epsilon). -/
theorem transition_envelope_entry (rosOk : Bool) (exp : α → α) (s : CoDs α)
    (hready : everythingisreceived s = true)
    (hG : 0 < s.Gamma_Value_) (hT : s.Gamma_Value_ < s.Gammma_Threshold_)
    (hlo : s.delta_dx_ < (s.Q_.transpose.mulVec s.DX_).coeff 0)
    (hhi : (s.Q_.transpose.mulVec s.DX_).coeff 0 < 0)
    (_hNF : (s.N_.transpose.mulVec s.F_).coeff 0 ≠ 0) :
    ∃ r : CoDs α × MatrixXd α, Calculate_Modulation rosOk exp s = Except.ok r ∧
      r.1.Lambda_.coeff 0 0
        = -(s.F_d_ * ((s.N_.transpose.mul s.InvMass_).mulVec s.N_).coeff 0
              / (s.N_.transpose.mulVec s.F_).coeff 0) * exp (-s.Gamma_Value_ / epsilon) := by
  refine ⟨_, Calculate_Modulation_ok rosOk exp s hready, ?_⟩
  have h1 : ¬ ((s.Q_.transpose.mulVec s.DX_).coeff 0 < s.delta_dx_) := not_lt.mpr hlo.le
  simp [modulated_Lambda, hG, hT, hlo, hhi, h1, MatrixXd.set]

/-- The block of a product is the product of the blocks when the inner size is 3. -/
theorem toMat3_mul (A B : MatrixXd α) (h : A.cols = 3) :
    toMat3 (A.mul B) = toMat3 A * toMat3 B := by
  ext i j
  simp [toMat3, MatrixXd.mul, Matrix.mul_apply, h, Finset.sum_range_succ, Fin.sum_univ_three]

/-- The matrix inverse() is a left inverse when the determinant is not zero. -/
theorem toMat3_inverse_mul (Q : MatrixXd α) (hdet : Q.det3 ≠ 0) :
    toMat3 Q.inverse * toMat3 Q = 1 := by
  simp only [MatrixXd.det3] at hdet
  ext i j
  fin_cases i <;> fin_cases j <;>
  simp [toMat3, MatrixXd.inverse, MatrixXd.det3, Matrix.mul_apply, Fin.sum_univ_three] <;>
  field_simp <;> ring

/-- The matrix inverse() is a right inverse when the determinant is not zero. -/
theorem toMat3_mul_inverse (Q : MatrixXd α) (hdet : Q.det3 ≠ 0) :
    toMat3 Q * toMat3 Q.inverse = 1 := by
  simp only [MatrixXd.det3] at hdet
  ext i j
  fin_cases i <;> fin_cases j <;>
  simp [toMat3, MatrixXd.inverse, MatrixXd.det3, Matrix.mul_apply, Fin.sum_univ_three] <;>
  field_simp <;> ring

/-- Determinant of the frame basis of a scenario. -/
theorem scenario_det (T Gamma : α) (d f : VectorXd α) : (scenario T Gamma d f).Q_.det3 = 1 := by
  simp [scenario, sessionState, basis, vec3, MatrixXd.det3]

/-- An accepted configuration makes initialize return, whatever the liveness signal. -/
theorem initialise_ok (rosOk : Bool) (heap : Nat → Nat → α) (delta_dx F_d T : α)
    (surf : Bool) (s : CoDs α) (h1 : delta_dx < 0) (h2 : 0 ≤ F_d) :
    initialise rosOk heap 3 delta_dx F_d T surf s
      = Except.ok (initialised heap 3 delta_dx F_d T surf s) := by
  have h1n : ¬ (0 ≤ delta_dx) := not_le.mpr h1
  have h2n : ¬ (F_d < 0) := not_lt.mpr h2
  simp [initialised, initialise, h1n, h2n, pure, Except.pure, bind, Except.bind]

/-- With the liveness signal down initialize returns for all arguments. -/
theorem initialise_down (heap : Nat → Nat → α) (D : Int) (delta_dx F_d T : α)
    (surf : Bool) (s : CoDs α) :
    initialise false heap D delta_dx F_d T surf s
      = Except.ok (initialised heap D delta_dx F_d T surf s) := by
  by_cases h0 : D = 3 <;> by_cases h1 : 0 ≤ delta_dx <;> by_cases h2 : F_d < 0 <;>
  simp [initialised, initialise, Error, h0, h1, h2, pure, Except.pure, bind, Except.bind]

/-- With the liveness signal up a rejected configuration leaves initialize stuck in
Error() with the object as before the call. -/
theorem initialise_stuck (heap : Nat → Nat → α) (D : Int) (delta_dx F_d T : α)
    (surf : Bool) (s : CoDs α) (h : D ≠ 3 ∨ 0 ≤ delta_dx ∨ F_d < 0) :
    initialise true heap D delta_dx F_d T surf s = Except.error s := by
  by_cases h0 : D = 3 <;> by_cases h1 : 0 ≤ delta_dx <;> by_cases h2 : F_d < 0 <;>
  simp [initialise, Error, h0, h1, h2, pure, Except.pure, bind, Except.bind]
  simp_all

/-- The flags after initialize: the state flag is false, the frame flag is the one
the object had before. -/
theorem initialised_flags (heap : Nat → Nat → α) (D : Int) (delta_dx F_d T : α)
    (surf : Bool) (s : CoDs α) :
    (initialised heap D delta_dx F_d T surf s).State_of_system_is_set_ = false
    ∧ (initialised heap D delta_dx F_d T surf s).State_of_surface_is_set_
        = s.State_of_surface_is_set_ := by
  by_cases h0 : D = 3 <;> by_cases h1 : 0 ≤ delta_dx <;> by_cases h2 : F_d < 0 <;>
  simp [initialised, initialise, Error, everyfalse, h0, h1, h2, pure, Except.pure, bind,
    Except.bind]

/-- C7: for every accepted configuration and every prior state of the object,
initialize returns, the readiness test then fails, and a call of Calculate_Modulation
made directly afterwards never returns: it is stuck in Error() with the object
unchanged, so no matrix is returned. -/
theorem modulation_right_after_initialise (rosOk : Bool) (heap : Nat → Nat → α)
    (exp : α → α) (delta_dx F_d T : α) (surf : Bool) (s : CoDs α)
    (h1 : delta_dx < 0) (h2 : 0 ≤ F_d) :
    ∃ t : CoDs α, initialise rosOk heap 3 delta_dx F_d T surf s = Except.ok t
      ∧ everythingisreceived t = false
      ∧ Calculate_Modulation true exp t = Except.error t := by
  have hf : everythingisreceived (initialised heap 3 delta_dx F_d T surf s) = false := by
    simp [everythingisreceived, (initialised_flags heap 3 delta_dx F_d T surf s).1]
  exact ⟨_, initialise_ok rosOk heap delta_dx F_d T surf s h1 h2, hf,
    Calculate_Modulation_stuck exp _ hf⟩

/-- The configuration of the scenarios on an object that was ready before. -/
theorem modulation_right_after_initialise_witness :
    (-(1 / 20) : ℝ) < 0 ∧ (0 : ℝ) ≤ 5
    ∧ everythingisreceived (scenarioA ℝ) = true
    ∧ ∃ t : CoDs ℝ,
        initialise true (fun _ _ => 0) 3 (-(1 / 20)) 5 (3 / 10) false (scenarioA ℝ)
          = Except.ok t
        ∧ everythingisreceived t = false
        ∧ Calculate_Modulation true Real.exp t = Except.error t :=
  ⟨by norm_num, by norm_num, rfl,
    modulation_right_after_initialise true (fun _ _ => 0) Real.exp (-(1 / 20)) 5 (3 / 10)
      false (scenarioA ℝ) (by norm_num) (by norm_num)⟩

/-- Set_State accepts three vectors of three components on an object of dimension 3,
whatever the liveness signal, and stores them. -/
theorem Set_State_ok (rosOk : Bool) (State DState F : VectorXd α) (s : CoDs α)
    (hd : s.Dimen_state_ = 3) (hX : State.rows = 3) (hDX : DState.rows = 3)
    (hF : F.rows = 3) :
    Set_State rosOk State DState F s
      = Except.ok { s with X_ := State, DX_ := DState, F_ := F,
                           State_of_system_is_set_ := true } := by
  simp [Set_State, hd, hX, hDX, hF, pure, Except.pure, bind, Except.bind]

/-- The dimension stored by initialize. -/
theorem initialised_dimension (heap : Nat → Nat → α) (D : Int) (delta_dx F_d T : α)
    (surf : Bool) (s : CoDs α) :
    (initialised heap D delta_dx F_d T surf s).Dimen_state_ = D := by
  by_cases h0 : D = 3 <;> by_cases h1 : 0 ≤ delta_dx <;> by_cases h2 : F_d < 0 <;>
  simp [initialised, initialise, Error, everyfalse, h0, h1, h2, pure, Except.pure, bind,
    Except.bind]

/-- The frame basis and the modulation matrices are zero after initialize. -/
theorem initialised_Q (heap : Nat → Nat → α) (D : Int) (delta_dx F_d T : α)
    (surf : Bool) (s : CoDs α) (i j : Nat) :
    (initialised heap D delta_dx F_d T surf s).Q_.coeff i j = 0 := by
  by_cases h0 : D = 3 <;> by_cases h1 : 0 ≤ delta_dx <;> by_cases h2 : F_d < 0 <;>
  simp [initialised, initialise, Error, everyfalse, h0, h1, h2, pure, Except.pure, bind,
    Except.bind, MatrixXd.setZero, MatrixXd.resize]

/-- C8 fails for an object that was ready before: initialize on scenario A (both
flags true) returns an object whose frame flag is still true, so after Set_State
alone the readiness test passes and Calculate_Modulation returns a matrix, here the
zero matrix, with the liveness signal up. -/
theorem initialise_keeps_frame_flag :
    session (-(1 / 20) : ℝ) 5 (3 / 10) (1 / 2) (vec3 1 0 0) (vec3 0 1 0) (vec3 0 0 1)
        (vec3 0 0 0) (vec3 0 0 0) (vec3 1 0 0) = Except.ok (scenarioA ℝ)
    ∧ ∃ t u : CoDs ℝ,
        initialise true (fun _ _ => 0) 3 (-(1 / 20)) 5 (3 / 10) false (scenarioA ℝ)
          = Except.ok t
        ∧ t.State_of_surface_is_set_ = true
        ∧ Set_State true (vec3 0 0 0) (vec3 0 0 0) (vec3 1 0 0) t = Except.ok u
        ∧ everythingisreceived u = true
        ∧ ∃ r : CoDs ℝ × MatrixXd ℝ, Calculate_Modulation true Real.exp u = Except.ok r
            ∧ ∀ i j : Nat, r.2.coeff i j = 0 := by
  have hfl := initialised_flags (fun _ _ => (0 : ℝ)) 3 (-(1 / 20)) 5 (3 / 10) false (scenarioA ℝ)
  have hsurf : (initialised (fun _ _ => (0 : ℝ)) 3 (-(1 / 20)) 5 (3 / 10) false
      (scenarioA ℝ)).State_of_surface_is_set_ = true := hfl.2.trans rfl
  refine ⟨scenario_reached _ _ _ _ _ _ _ _, _, _,
    initialise_ok true _ _ _ _ _ _ (by norm_num) (by norm_num), hsurf,
    Set_State_ok true _ _ _ _ (initialised_dimension _ _ _ _ _ _ _) rfl rfl rfl, ?_, ?_⟩
  · simp only [everythingisreceived, hsurf, Bool.and_self]
  · refine ⟨_, Calculate_Modulation_ok true Real.exp _ ?_, ?_⟩
    · simp only [everythingisreceived, hsurf, Bool.and_self]
    · intro i j
      simp [modulated_M, MatrixXd.mul, initialised_Q]

/-- Initialize and Set_Gamma, both accepted, on a fresh object with zeroed memory. -/
theorem frame_only_eq (delta_dx F_d T Gamma : α) (Normal q2 q3 : VectorXd α)
    (h1 : delta_dx < 0) (h2 : 0 ≤ F_d) (hN : Normal.rows = 3) (hq2 : q2.rows = 3)
    (hq3 : q3.rows = 3) :
    (initialise true (fun _ _ => 0) 3 delta_dx F_d T false (fresh : CoDs α)
        >>= Set_Gamma true Gamma Normal q2 q3)
      = Except.ok { sessionState delta_dx F_d T Gamma Normal q2 q3
                      ⟨3, fun _ => 0⟩ ⟨3, fun _ => 0⟩ ⟨3, fun _ => 0⟩ with
                    State_of_system_is_set_ := false } := by
  have h1n : ¬ (0 ≤ delta_dx) := not_le.mpr h1
  have h2n : ¬ (F_d < 0) := not_lt.mpr h2
  simp [initialise, Set_Gamma, Error, fresh, everyfalse,
    VectorXd.resize, VectorXd.transpose, MatrixXd.mulVec, VectorXd.add, bind, Except.bind,
    pure, Except.pure, h1n, h2n, hN, hq2, hq3, sessionState, basis,
    MatrixXd.resize, MatrixXd.setZero, MatrixXd.setIdentity, MatrixXd.setCol,
    VectorXd.setZero]

/-- Initialize and Set_Gamma on a fresh object lead to scenarioNoState. -/
theorem scenarioNoState_reached :
    (initialise true (fun _ _ => 0) 3 (-(1 / 20)) 5 (3 / 10) false (fresh : CoDs α)
        >>= Set_Gamma true (1 / 2) (vec3 1 0 0) (vec3 0 1 0) (vec3 0 0 1))
      = Except.ok (scenarioNoState α) :=
  frame_only_eq _ _ _ _ _ _ _ (by norm_num) (by norm_num) rfl rfl rfl

/-- C9, as the code has it.  With the liveness signal up, an operation that detects a
violation never returns: it is stuck in Error() with every field as before the call
and no result.  With the signal down Error() returns and the operation runs on to
its end. -/
theorem fault_barrier (heap : Nat → Nat → α) (exp : α → α) (s : CoDs α) :
    (∀ (D : Int) (delta_dx F_d T : α) (surf : Bool),
        (D ≠ 3 ∨ 0 ≤ delta_dx ∨ F_d < 0) →
        initialise true heap D delta_dx F_d T surf s = Except.error s
        ∧ ∃ t, initialise false heap D delta_dx F_d T surf s = Except.ok t) ∧
    (∀ (Gamma : α) (Normal q2 q3 : VectorXd α),
        ¬ ((Normal.rows : Int) = s.Dimen_state_ ∧ (q2.rows : Int) = s.Dimen_state_
            ∧ (q3.rows : Int) = s.Dimen_state_
            ∧ (((s.N_.transpose.mulVec s.q2_).add (s.N_.transpose.mulVec s.q3_)).add
                (q2.transpose.mulVec s.q3_)).coeff 0 < 1 / 10000) →
        Set_Gamma true Gamma Normal q2 q3 s = Except.error s
        ∧ ∃ t, Set_Gamma false Gamma Normal q2 q3 s = Except.ok t) ∧
    (∀ (State DState F : VectorXd α),
        ¬ ((State.rows : Int) = s.Dimen_state_ ∧ (F.rows : Int) = s.Dimen_state_
            ∧ (DState.rows : Int) = s.Dimen_state_) →
        Set_State true State DState F s = Except.error s
        ∧ ∃ t, Set_State false State DState F s = Except.ok t) ∧
    (∀ (M : MatrixXd α),
        ¬ ((M.cols : Int) = s.Dimen_state_ ∧ (M.rows : Int) = s.Dimen_state_) →
        Set_Mass_Matrix true M s = Except.error s
        ∧ ∃ t, Set_Mass_Matrix false M s = Except.ok t) ∧
    (everythingisreceived s = false →
        Calculate_Modulation true exp s = Except.error s
        ∧ ∃ r, Calculate_Modulation false exp s = Except.ok r) := by
  refine ⟨?_, ?_, ?_, ?_, ?_⟩
  · intro D delta_dx F_d T surf h
    exact ⟨initialise_stuck heap D delta_dx F_d T surf s h,
      _, initialise_down heap D delta_dx F_d T surf s⟩
  · intro Gamma Normal q2 q3 h
    constructor
    · simp only [Set_Gamma, Error, if_neg h, if_true]
      rfl
    · simp only [Set_Gamma, Error, if_neg h, Bool.false_eq_true, if_false]
      exact ⟨_, rfl⟩
  · intro State DState F h
    constructor
    · simp only [Set_State, Error, if_neg h, if_true]
      rfl
    · simp only [Set_State, Error, if_neg h, Bool.false_eq_true, if_false]
      exact ⟨_, rfl⟩
  · intro M h
    constructor
    · simp only [Set_Mass_Matrix, Error, if_neg h, if_true]
      rfl
    · simp only [Set_Mass_Matrix, Error, if_neg h, Bool.false_eq_true, if_false]
      exact ⟨_, rfl⟩
  · intro h
    exact ⟨Calculate_Modulation_stuck exp s h, _, Calculate_Modulation_down exp s⟩

/-- On an object of dimension 3 that has a frame but no state: dimension 2 at
initialize, a normal, a velocity or a mass matrix of size 2, and a call of
Calculate_Modulation are violations; with the signal up each call is stuck with the
object unchanged, with the signal down each call returns. -/
theorem fault_barrier_witness :
    (((2 : Int) ≠ 3 ∨ (0 : ℝ) ≤ -(1 / 20) ∨ (5 : ℝ) < 0)
      ∧ initialise true (fun _ _ => 0) 2 (-(1 / 20)) 5 (3 / 10) false (scenarioNoState ℝ)
          = Except.error (scenarioNoState ℝ)
      ∧ ∃ t, initialise false (fun _ _ => 0) 2 (-(1 / 20)) 5 (3 / 10) false
          (scenarioNoState ℝ) = Except.ok t)
    ∧ (Set_Gamma true (1 / 2) ⟨2, fun _ => 0⟩ (vec3 0 1 0) (vec3 0 0 1) (scenarioNoState ℝ)
          = Except.error (scenarioNoState ℝ)
      ∧ ∃ t, Set_Gamma false (1 / 2) ⟨2, fun _ => 0⟩ (vec3 0 1 0) (vec3 0 0 1)
          (scenarioNoState ℝ) = Except.ok t)
    ∧ (Set_State true (vec3 0 0 0) ⟨2, fun _ => 0⟩ (vec3 1 0 0) (scenarioNoState ℝ)
          = Except.error (scenarioNoState ℝ)
      ∧ ∃ t, Set_State false (vec3 0 0 0) ⟨2, fun _ => 0⟩ (vec3 1 0 0) (scenarioNoState ℝ)
          = Except.ok t)
    ∧ (Set_Mass_Matrix true ⟨2, 2, fun i j => if i = j then 1 else 0⟩ (scenarioNoState ℝ)
          = Except.error (scenarioNoState ℝ)
      ∧ ∃ t, Set_Mass_Matrix false ⟨2, 2, fun i j => if i = j then 1 else 0⟩
          (scenarioNoState ℝ) = Except.ok t)
    ∧ (everythingisreceived (scenarioNoState ℝ) = false
      ∧ Calculate_Modulation true Real.exp (scenarioNoState ℝ)
          = Except.error (scenarioNoState ℝ)
      ∧ ∃ r, Calculate_Modulation false Real.exp (scenarioNoState ℝ) = Except.ok r) := by
  have hb := fault_barrier (fun _ _ => (0 : ℝ)) Real.exp (scenarioNoState ℝ)
  have hd : (scenarioNoState ℝ).Dimen_state_ = 3 := rfl
  refine ⟨⟨Or.inl (by decide), hb.1 2 _ _ _ _ (Or.inl (by decide))⟩,
    hb.2.1 _ _ _ _ ?_, hb.2.2.1 _ _ _ ?_, hb.2.2.2.1 _ ?_, rfl, hb.2.2.2.2 rfl⟩
  · rw [hd]; rintro ⟨h, -⟩; revert h; decide
  · rw [hd]; rintro ⟨-, -, h⟩; revert h; decide
  · rw [hd]; rintro ⟨h, -⟩; revert h; decide

/-- C9 fails with the liveness signal down: the object has a frame (free motion,
proximity 0.5) but Set_State was never called, the readiness test fails, and yet
Calculate_Modulation returns a matrix, with entry (0,0) equal to 1 - exp(-0.2), and
has overwritten Lambda_(1,1), which was 0, with that value. -/
theorem fault_barrier_counterexample :
    (initialise true (fun _ _ => 0) 3 (-(1 / 20)) 5 (3 / 10) false (fresh : CoDs ℝ)
        >>= Set_Gamma true (1 / 2) (vec3 1 0 0) (vec3 0 1 0) (vec3 0 0 1))
      = Except.ok (scenarioNoState ℝ)
    ∧ everythingisreceived (scenarioNoState ℝ) = false
    ∧ (scenarioNoState ℝ).Lambda_.coeff 1 1 = 0
    ∧ ∃ r : CoDs ℝ × MatrixXd ℝ,
        Calculate_Modulation false Real.exp (scenarioNoState ℝ) = Except.ok r
          ∧ r.1.Lambda_.coeff 1 1 = 1 - Real.exp (-(1 / 5))
          ∧ r.1.Lambda_.coeff 1 1 ≠ (scenarioNoState ℝ).Lambda_.coeff 1 1
          ∧ r.2.coeff 0 0 = 1 - Real.exp (-(1 / 5)) := by
  have hG : (scenarioNoState ℝ).Gamma_Value_ = 1 / 2 := rfl
  have hT : (scenarioNoState ℝ).Gammma_Threshold_ = 3 / 10 := rfl
  have hL : (modulated Real.exp (scenarioNoState ℝ)).Lambda_
      = ((((scenarioNoState ℝ).Lambda_.setIdentity.set 0 0 (1 - Real.exp (-(1 / 5)))).set 1 1
          (1 - Real.exp (-(1 / 5)))).set 2 2 (1 - Real.exp (-(1 / 5)))) := by
    rw [modulated_Lambda, hG, hT]
    norm_num
  have h11 : (modulated Real.exp (scenarioNoState ℝ)).Lambda_.coeff 1 1
      = 1 - Real.exp (-(1 / 5)) := by
    rw [hL]; simp [MatrixXd.set]
  have hlt : Real.exp (-(1 / 5)) < 1 := Real.exp_lt_one_iff.mpr (by norm_num)
  refine ⟨scenarioNoState_reached, rfl, rfl, _, Calculate_Modulation_down _ _, h11, ?_, ?_⟩
  · rw [h11]
    show 1 - Real.exp (-(1 / 5)) ≠ 0
    linarith [hlt]
  · rw [modulated_M, hL]
    simp [MatrixXd.mul, MatrixXd.set, MatrixXd.setIdentity, MatrixXd.inverse, MatrixXd.det3,
      scenarioNoState, sessionState, basis, vec3, Finset.sum_range_succ]

/-- C10: with the liveness signal up initialize is stuck in Error() exactly when the
dimension is not 3, or the impact velocity is not negative, or the contact force is
negative; the threshold and the surface flag play no part.  Otherwise it returns,
the configuration fields hold the arguments, M_ and Normal_velocity_robot_ are zero
of size 3 and InvMass_ is the 3×3 identity. -/
theorem initialise_contract (rosOk : Bool) (heap : Nat → Nat → α) (D : Int)
    (delta_dx F_d T : α) (surf : Bool) (s : CoDs α) :
    ((∃ e, initialise true heap D delta_dx F_d T surf s = Except.error e)
        ↔ (D ≠ 3 ∨ 0 ≤ delta_dx ∨ F_d < 0)) ∧
    (¬ (D ≠ 3 ∨ 0 ≤ delta_dx ∨ F_d < 0) →
      ∃ t : CoDs α, initialise rosOk heap D delta_dx F_d T surf s = Except.ok t
        ∧ t.Dimen_state_ = D ∧ t.delta_dx_ = delta_dx ∧ t.F_d_ = F_d
        ∧ t.Gammma_Threshold_ = T ∧ t.Surface_ = surf
        ∧ (t.M_.rows = 3 ∧ t.M_.cols = 3 ∧ ∀ i j : Nat, t.M_.coeff i j = 0)
        ∧ (t.Normal_velocity_robot_.rows = 3
            ∧ ∀ i : Nat, t.Normal_velocity_robot_.coeff i = 0)
        ∧ (t.InvMass_.rows = 3 ∧ t.InvMass_.cols = 3
            ∧ ∀ i j : Nat, t.InvMass_.coeff i j = if i = j then 1 else 0)) := by
  constructor
  · constructor
    · rintro ⟨e, he⟩
      by_contra hv
      push_neg at hv
      obtain ⟨h0, h1, h2⟩ := hv
      subst h0
      rw [initialise_ok true heap delta_dx F_d T surf s h1 h2] at he
      cases he
    · intro hv
      exact ⟨s, initialise_stuck heap D delta_dx F_d T surf s hv⟩
  · intro hv
    push_neg at hv
    obtain ⟨h0, h1, h2⟩ := hv
    subst h0
    have h1n : ¬ (0 ≤ delta_dx) := not_le.mpr h1
    have h2n : ¬ (F_d < 0) := not_lt.mpr h2
    refine ⟨_, initialise_ok rosOk heap delta_dx F_d T surf s h1 h2, ?_⟩
    simp [initialised, initialise, everyfalse, h1n, h2n, pure, Except.pure, bind,
      Except.bind, MatrixXd.setZero, MatrixXd.setIdentity, MatrixXd.resize,
      VectorXd.setZero, VectorXd.resize]
    split_ifs with h <;> first | exact h | rfl

/-- The configuration of the scenarios is accepted on a fresh object. -/
theorem initialise_contract_witness :
    ¬ ((3 : Int) ≠ 3 ∨ (0 : ℝ) ≤ -(1 / 20) ∨ (5 : ℝ) < 0)
    ∧ ∃ t : CoDs ℝ,
        initialise true (fun _ _ => 0) 3 (-(1 / 20)) 5 (3 / 10) false fresh = Except.ok t
        ∧ t.Dimen_state_ = 3 ∧ t.delta_dx_ = -(1 / 20) ∧ t.F_d_ = 5
        ∧ t.Gammma_Threshold_ = 3 / 10 ∧ t.Surface_ = false
        ∧ (t.M_.rows = 3 ∧ t.M_.cols = 3 ∧ ∀ i j : Nat, t.M_.coeff i j = 0)
        ∧ (t.Normal_velocity_robot_.rows = 3
            ∧ ∀ i : Nat, t.Normal_velocity_robot_.coeff i = 0)
        ∧ (t.InvMass_.rows = 3 ∧ t.InvMass_.cols = 3
            ∧ ∀ i j : Nat, t.InvMass_.coeff i j = if i = j then 1 else 0) := by
  have hv : ¬ ((3 : Int) ≠ 3 ∨ (0 : ℝ) ≤ -(1 / 20) ∨ (5 : ℝ) < 0) := by norm_num
  exact ⟨hv, (initialise_contract true (fun _ _ => 0) 3 (-(1 / 20)) 5 (3 / 10) false
    fresh).2 hv⟩

/-- With the liveness signal up Set_Gamma returns exactly when its test passes. -/
theorem Set_Gamma_up (Gamma : α) (Normal q2 q3 : VectorXd α) (s : CoDs α) :
    Set_Gamma true Gamma Normal q2 q3 s
      = if (Normal.rows : Int) = s.Dimen_state_ ∧ (q2.rows : Int) = s.Dimen_state_
            ∧ (q3.rows : Int) = s.Dimen_state_ ∧ orthogonalitySum s q2 < 1 / 10000 then
          Except.ok (framed Gamma Normal q2 q3 s)
        else Except.error s := by
  by_cases h : (Normal.rows : Int) = s.Dimen_state_ ∧ (q2.rows : Int) = s.Dimen_state_
      ∧ (q3.rows : Int) = s.Dimen_state_
      ∧ (((s.N_.transpose.mulVec s.q2_).add (s.N_.transpose.mulVec s.q3_)).add
          (q2.transpose.mulVec s.q3_)).coeff 0 < 1 / 10000
  · simp only [Set_Gamma, orthogonalitySum, Error, if_pos h]
    rfl
  · simp only [Set_Gamma, orthogonalitySum, Error, if_neg h, if_true]
    rfl

/-- With the liveness signal down Set_Gamma always returns. -/
theorem Set_Gamma_down (Gamma : α) (Normal q2 q3 : VectorXd α) (s : CoDs α) :
    Set_Gamma false Gamma Normal q2 q3 s = Except.ok (framed Gamma Normal q2 q3 s) := by
  by_cases h : (Normal.rows : Int) = s.Dimen_state_ ∧ (q2.rows : Int) = s.Dimen_state_
      ∧ (q3.rows : Int) = s.Dimen_state_
      ∧ (((s.N_.transpose.mulVec s.q2_).add (s.N_.transpose.mulVec s.q3_)).add
          (q2.transpose.mulVec s.q3_)).coeff 0 < 1 / 10000
  · simp only [Set_Gamma, Error, if_pos h]
    rfl
  · simp only [Set_Gamma, Error, if_neg h, Bool.false_eq_true, if_false]
    rfl

/-- On an object of dimension 3 and for vectors of three components the test of
Set_Gamma is the comparison of the sum with 0.0001. -/
theorem Set_Gamma_three (Gamma : α) (Normal q2 q3 : VectorXd α) (s : CoDs α)
    (hd : s.Dimen_state_ = 3) (hN : Normal.rows = 3) (hq2 : q2.rows = 3) (hq3 : q3.rows = 3) :
    Set_Gamma true Gamma Normal q2 q3 s
      = if orthogonalitySum s q2 < 1 / 10000 then Except.ok (framed Gamma Normal q2 q3 s)
        else Except.error s := by
  rw [Set_Gamma_up, hd, hN, hq2, hq3]
  simp

/-- The sum evaluated on the skew frame with the incoming first tangent (0,1,0). -/
theorem scenarioSkew_sum : orthogonalitySum (scenarioSkew α) (vec3 0 1 0) = -1 := by
  simp [orthogonalitySum, scenarioSkew, sessionState, vec3, VectorXd.transpose,
    MatrixXd.mulVec, VectorXd.add, Finset.sum_range_succ]

/-- What the test of Set_Gamma does on an object of dimension 3 with three vectors of
three components: the call faults exactly when the sum is at least 0.0001 and is
accepted exactly when the sum is below 0.0001; every sum below -0.0001 is accepted. -/
theorem Set_Gamma_one_sided (Gamma : α) (Normal q2 q3 : VectorXd α) (s : CoDs α)
    (hd : s.Dimen_state_ = 3) (hN : Normal.rows = 3) (hq2 : q2.rows = 3) (hq3 : q3.rows = 3) :
    (Set_Gamma true Gamma Normal q2 q3 s = Except.error s
        ↔ 1 / 10000 ≤ orthogonalitySum s q2) ∧
    ((∃ t, Set_Gamma true Gamma Normal q2 q3 s = Except.ok t)
        ↔ orthogonalitySum s q2 < 1 / 10000) ∧
    (orthogonalitySum s q2 < -(1 / 10000) →
        ∃ t, Set_Gamma true Gamma Normal q2 q3 s = Except.ok t) := by
  rw [Set_Gamma_three Gamma Normal q2 q3 s hd hN hq2 hq3]
  by_cases h : orthogonalitySum s q2 < 1 / 10000
  · have h2 : ¬ (1 / 10000 ≤ orthogonalitySum s q2) := not_le.mpr h
    rw [if_pos h]
    refine ⟨⟨fun e => ?_, fun e => absurd e h2⟩, ⟨fun _ => h, fun _ => ⟨_, rfl⟩⟩,
      fun _ => ⟨_, rfl⟩⟩
    cases e
  · have h2 : 1 / 10000 ≤ orthogonalitySum s q2 := not_lt.mp h
    rw [if_neg h]
    refine ⟨⟨fun _ => h2, fun _ => rfl⟩, ⟨fun e => ?_, fun e => absurd e h⟩, ?_⟩
    · obtain ⟨t, e⟩ := e
      cases e
    · intro h3
      exact absurd (lt_trans h3 (by norm_num)) h

/-- On the skew frame the sum is -1, below -0.0001, and the call is accepted. -/
theorem Set_Gamma_one_sided_witness :
    (scenarioSkew ℝ).Dimen_state_ = 3
    ∧ orthogonalitySum (scenarioSkew ℝ) (vec3 0 1 0) < -(1 / 10000)
    ∧ ∃ t, Set_Gamma true (1 / 2) (vec3 1 0 0) (vec3 0 1 0) (vec3 0 0 1) (scenarioSkew ℝ)
        = Except.ok t := by
  have hs : orthogonalitySum (scenarioSkew ℝ) (vec3 0 1 0) < -(1 / 10000) := by
    rw [scenarioSkew_sum]; norm_num
  exact ⟨rfl, hs, (Set_Gamma_one_sided (1 / 2) (vec3 1 0 0) (vec3 0 1 0) (vec3 0 0 1)
    (scenarioSkew ℝ) rfl rfl rfl rfl).2.2 hs⟩

/-- C11 at a negative sum: the skew frame is stored by accepted calls, the next call
of Set_Gamma has three vectors of three components and evaluates the sum -1, which
differs from zero by more than 0.0001, and the call is accepted instead of
faulting. -/
theorem Set_Gamma_negative_sum_accepted :
    session (-(1 / 20) : ℝ) 5 (3 / 10) (1 / 2) (vec3 1 0 0) (vec3 (-1) 0 0) (vec3 0 0 1)
        (vec3 0 0 0) (vec3 0 0 0) (vec3 1 0 0) = Except.ok (scenarioSkew ℝ)
    ∧ orthogonalitySum (scenarioSkew ℝ) (vec3 0 1 0) = -1
    ∧ orthogonalitySum (scenarioSkew ℝ) (vec3 0 1 0) < -(1 / 10000)
    ∧ Set_Gamma true (1 / 2) (vec3 1 0 0) (vec3 0 1 0) (vec3 0 0 1) (scenarioSkew ℝ)
        = Except.ok (framed (1 / 2) (vec3 1 0 0) (vec3 0 1 0) (vec3 0 0 1) (scenarioSkew ℝ)) := by
  have hs : orthogonalitySum (scenarioSkew ℝ) (vec3 0 1 0) = -1 := scenarioSkew_sum
  refine ⟨session_eq _ _ _ _ _ _ _ _ _ _ (by norm_num) (by norm_num) rfl rfl rfl rfl rfl rfl,
    hs, by rw [hs]; norm_num, ?_⟩
  rw [Set_Gamma_three _ _ _ _ _ rfl rfl rfl rfl, hs]
  norm_num

/-- With the liveness signal up Set_State returns exactly when its test passes. -/
theorem Set_State_up (State DState F : VectorXd α) (s : CoDs α) :
    Set_State true State DState F s
      = if (State.rows : Int) = s.Dimen_state_ ∧ (F.rows : Int) = s.Dimen_state_
            ∧ (DState.rows : Int) = s.Dimen_state_ then
          Except.ok { s with X_ := State, DX_ := DState, F_ := F,
                             State_of_system_is_set_ := true }
        else Except.error s := by
  by_cases h : (State.rows : Int) = s.Dimen_state_ ∧ (F.rows : Int) = s.Dimen_state_
      ∧ (DState.rows : Int) = s.Dimen_state_
  · simp only [Set_State, Error, if_pos h]
    rfl
  · simp only [Set_State, Error, if_neg h, if_true]
    rfl

/-- With the liveness signal up Set_Mass_Matrix returns exactly when its test passes. -/
theorem Set_Mass_Matrix_up (M : MatrixXd α) (s : CoDs α) :
    Set_Mass_Matrix true M s
      = if (M.cols : Int) = s.Dimen_state_ ∧ (M.rows : Int) = s.Dimen_state_ then
          Except.ok { s with InvMass_ := M.inverse }
        else Except.error s := by
  by_cases h : (M.cols : Int) = s.Dimen_state_ ∧ (M.rows : Int) = s.Dimen_state_
  · simp only [Set_Mass_Matrix, Error, if_pos h]
    rfl
  · simp only [Set_Mass_Matrix, Error, if_neg h, if_true]
    rfl

/-- Set_Mass_Matrix accepts a 3×3 matrix on an object of dimension 3, whatever the
liveness signal, and stores its inverse. -/
theorem Set_Mass_Matrix_ok (rosOk : Bool) (M : MatrixXd α) (s : CoDs α)
    (hd : s.Dimen_state_ = 3) (hr : M.rows = 3) (hc : M.cols = 3) :
    Set_Mass_Matrix rosOk M s = Except.ok { s with InvMass_ := M.inverse } := by
  simp [Set_Mass_Matrix, hd, hr, hc, pure, Except.pure, bind, Except.bind]

/-- C12: on an object of dimension 3, Set_Gamma faults whenever one of its three
vectors does not have three components; Set_State faults exactly when one of its
three vectors does not have three components; Set_Mass_Matrix faults exactly when
its matrix is not 3×3.  An accepted Set_State stores the three vectors, sets
State_of_system_is_set_ and changes nothing else: the frame, the inverse mass and
State_of_surface_is_set_ are as before. -/
theorem setters_dimension_contract (Gamma : α) (Normal q2 q3 State DState F : VectorXd α)
    (M : MatrixXd α) (s : CoDs α) (hd : s.Dimen_state_ = 3) :
    ((Normal.rows ≠ 3 ∨ q2.rows ≠ 3 ∨ q3.rows ≠ 3) →
        Set_Gamma true Gamma Normal q2 q3 s = Except.error s) ∧
    (Set_State true State DState F s = Except.error s
        ↔ (State.rows ≠ 3 ∨ DState.rows ≠ 3 ∨ F.rows ≠ 3)) ∧
    (Set_Mass_Matrix true M s = Except.error s ↔ ¬ (M.rows = 3 ∧ M.cols = 3)) ∧
    (State.rows = 3 → DState.rows = 3 → F.rows = 3 → ∀ rosOk : Bool,
        ∃ t : CoDs α, Set_State rosOk State DState F s = Except.ok t
          ∧ t = { s with X_ := State, DX_ := DState, F_ := F,
                         State_of_system_is_set_ := true }
          ∧ t.X_ = State ∧ t.DX_ = DState ∧ t.F_ = F ∧ t.State_of_system_is_set_ = true
          ∧ t.State_of_surface_is_set_ = s.State_of_surface_is_set_
          ∧ t.Gamma_Value_ = s.Gamma_Value_ ∧ t.N_ = s.N_ ∧ t.q2_ = s.q2_ ∧ t.q3_ = s.q3_
          ∧ t.Q_ = s.Q_ ∧ t.Q_inv_ = s.Q_inv_ ∧ t.InvMass_ = s.InvMass_) := by
  refine ⟨?_, ?_, ?_, ?_⟩
  · intro h
    rw [Set_Gamma_up, hd, if_neg]
    rintro ⟨h1, h2, h3, -⟩
    rcases h with h | h | h
    · exact h (by exact_mod_cast h1)
    · exact h (by exact_mod_cast h2)
    · exact h (by exact_mod_cast h3)
  · rw [Set_State_up, hd]
    by_cases h : (State.rows : Int) = 3 ∧ (F.rows : Int) = 3 ∧ (DState.rows : Int) = 3
    · rw [if_pos h]
      obtain ⟨h1, h2, h3⟩ := h
      constructor
      · intro e
        cases e
      · rintro (h | h | h)
        · exact absurd (by exact_mod_cast h1) h
        · exact absurd (by exact_mod_cast h3) h
        · exact absurd (by exact_mod_cast h2) h
    · rw [if_neg h]
      refine ⟨fun _ => ?_, fun _ => rfl⟩
      by_contra hc
      push_neg at hc
      exact h ⟨by exact_mod_cast hc.1, by exact_mod_cast hc.2.2, by exact_mod_cast hc.2.1⟩
  · rw [Set_Mass_Matrix_up, hd]
    by_cases h : (M.cols : Int) = 3 ∧ (M.rows : Int) = 3
    · rw [if_pos h]
      obtain ⟨h1, h2⟩ := h
      constructor
      · intro e
        cases e
      · intro hn
        exact absurd ⟨by exact_mod_cast h2, by exact_mod_cast h1⟩ hn
    · rw [if_neg h]
      refine ⟨fun _ hc => h ⟨by exact_mod_cast hc.2, by exact_mod_cast hc.1⟩, fun _ => rfl⟩
  · intro hX hDX hF rosOk
    exact ⟨_, Set_State_ok rosOk State DState F s hd hX hDX hF, rfl, rfl, rfl, rfl, rfl, rfl,
      rfl, rfl, rfl, rfl, rfl, rfl, rfl⟩

/-- On an object with a frame: a normal of two components and a call of Set_State
with three vectors of three components. -/
theorem setters_dimension_contract_witness :
    (scenarioNoState ℝ).Dimen_state_ = 3
    ∧ ((⟨2, fun _ => 0⟩ : VectorXd ℝ).rows ≠ 3 ∨ (vec3 (0 : ℝ) 1 0).rows ≠ 3
        ∨ (vec3 (0 : ℝ) 0 1).rows ≠ 3)
    ∧ Set_Gamma true (1 / 2) ⟨2, fun _ => 0⟩ (vec3 0 1 0) (vec3 0 0 1) (scenarioNoState ℝ)
        = Except.error (scenarioNoState ℝ)
    ∧ (vec3 (0 : ℝ) 0 0).rows = 3 ∧ (vec3 (-(1 / 5) : ℝ) 0 0).rows = 3
    ∧ (vec3 (1 : ℝ) 0 0).rows = 3
    ∧ ∃ t : CoDs ℝ,
        Set_State true (vec3 0 0 0) (vec3 (-(1 / 5)) 0 0) (vec3 1 0 0) (scenarioNoState ℝ)
          = Except.ok t
        ∧ t.X_ = vec3 0 0 0 ∧ t.DX_ = vec3 (-(1 / 5)) 0 0 ∧ t.F_ = vec3 1 0 0
        ∧ t.State_of_system_is_set_ = true
        ∧ t.State_of_surface_is_set_ = (scenarioNoState ℝ).State_of_surface_is_set_
        ∧ t.Q_ = (scenarioNoState ℝ).Q_ ∧ t.InvMass_ = (scenarioNoState ℝ).InvMass_ := by
  have h := setters_dimension_contract (1 / 2 : ℝ) ⟨2, fun _ => 0⟩ (vec3 0 1 0) (vec3 0 0 1)
    (vec3 0 0 0) (vec3 (-(1 / 5)) 0 0) (vec3 1 0 0) ⟨3, 3, fun _ _ => 0⟩ (scenarioNoState ℝ) rfl
  have h2 : (⟨2, fun _ => 0⟩ : VectorXd ℝ).rows ≠ 3 ∨ (vec3 (0 : ℝ) 1 0).rows ≠ 3
      ∨ (vec3 (0 : ℝ) 0 1).rows ≠ 3 := Or.inl (by decide)
  obtain ⟨t, ht, -, e1, e2, e3, e4, e5, -, -, -, -, e6, -, e7⟩ := h.2.2.2 rfl rfl rfl true
  exact ⟨rfl, h2, h.1 h2, rfl, rfl, rfl, t, ht, e1, e2, e3, e4, e5, e6, e7⟩

/-- The sum evaluated on the frame of scenario A with an incoming first tangent. -/
theorem scenarioA_sum (a b c : α) :
    orthogonalitySum (scenarioA α) (vec3 a b c) = c := by
  simp [orthogonalitySum, scenarioA, scenario, sessionState, vec3, VectorXd.transpose,
    MatrixXd.mulVec, VectorXd.add, Finset.sum_range_succ]

/-- The sum is zero when the stored normal and the stored second tangent are zero. -/
theorem orthogonalitySum_zero (s : CoDs α) (q2 : VectorXd α)
    (hN : ∀ k, s.N_.coeff k = 0) (hq3 : ∀ k, s.q3_.coeff k = 0) :
    orthogonalitySum s q2 = 0 := by
  simp [orthogonalitySum, VectorXd.transpose, MatrixXd.mulVec, VectorXd.add, hN, hq3]

/-- C16, as the code has it: on an object of dimension 3 and for vectors of three
components, whether Set_Gamma accepts is decided by the stored N_, q2_, q3_ and the
incoming first tangent q2: two calls with the same q2 are both accepted or both
rejected, whatever the proximities, normals and second tangents.  When the stored
frame vectors are zero every frame of three components is accepted. -/
theorem Set_Gamma_decided_by (Gamma1 Gamma2 : α) (Normal1 Normal2 q2 q31 q32 : VectorXd α)
    (s : CoDs α) (hd : s.Dimen_state_ = 3)
    (hN1 : Normal1.rows = 3) (hN2 : Normal2.rows = 3) (hq2 : q2.rows = 3)
    (hq31 : q31.rows = 3) (hq32 : q32.rows = 3) :
    ((∃ t, Set_Gamma true Gamma1 Normal1 q2 q31 s = Except.ok t)
        ↔ (∃ t, Set_Gamma true Gamma2 Normal2 q2 q32 s = Except.ok t)) ∧
    ((∀ k, s.N_.coeff k = 0) → (∀ k, s.q2_.coeff k = 0) → (∀ k, s.q3_.coeff k = 0) →
        ∃ t, Set_Gamma true Gamma1 Normal1 q2 q31 s = Except.ok t) := by
  rw [Set_Gamma_three Gamma1 Normal1 q2 q31 s hd hN1 hq2 hq31,
    Set_Gamma_three Gamma2 Normal2 q2 q32 s hd hN2 hq2 hq32]
  constructor
  · by_cases h : orthogonalitySum s q2 < 1 / 10000
    · rw [if_pos h, if_pos h]
      exact ⟨fun _ => ⟨_, rfl⟩, fun _ => ⟨_, rfl⟩⟩
    · rw [if_neg h, if_neg h]
  · intro hN _ hq3
    rw [orthogonalitySum_zero s q2 hN hq3, if_pos (by norm_num)]
    exact ⟨_, rfl⟩

/-- Right after initialize on a fresh object with zeroed memory the stored frame
vectors are zero, and two different frames with first tangent (5,6,7) are accepted. -/
theorem Set_Gamma_decided_by_witness :
    (initialised (fun _ _ => (0 : ℝ)) 3 (-(1 / 20)) 5 (3 / 10) false fresh).Dimen_state_ = 3
    ∧ (∀ k, (initialised (fun _ _ => (0 : ℝ)) 3 (-(1 / 20)) 5 (3 / 10) false
          fresh).N_.coeff k = 0)
    ∧ (∀ k, (initialised (fun _ _ => (0 : ℝ)) 3 (-(1 / 20)) 5 (3 / 10) false
          fresh).q2_.coeff k = 0)
    ∧ (∀ k, (initialised (fun _ _ => (0 : ℝ)) 3 (-(1 / 20)) 5 (3 / 10) false
          fresh).q3_.coeff k = 0)
    ∧ (∃ t, Set_Gamma true (1 / 2) (vec3 1 2 3) (vec3 5 6 7) (vec3 1 1 1)
          (initialised (fun _ _ => (0 : ℝ)) 3 (-(1 / 20)) 5 (3 / 10) false fresh)
          = Except.ok t)
    ∧ ((∃ t, Set_Gamma true (1 / 2) (vec3 1 2 3) (vec3 5 6 7) (vec3 1 1 1)
          (initialised (fun _ _ => (0 : ℝ)) 3 (-(1 / 20)) 5 (3 / 10) false fresh)
          = Except.ok t)
        ↔ (∃ t, Set_Gamma true (-1) (vec3 0 0 1) (vec3 5 6 7) (vec3 0 1 0)
          (initialised (fun _ _ => (0 : ℝ)) 3 (-(1 / 20)) 5 (3 / 10) false fresh)
          = Except.ok t)) := by
  have hd := initialised_dimension (fun _ _ => (0 : ℝ)) 3 (-(1 / 20)) 5 (3 / 10) false fresh
  have hN : ∀ k, (initialised (fun _ _ => (0 : ℝ)) 3 (-(1 / 20)) 5 (3 / 10) false
      fresh).N_.coeff k = 0 := by
    intro k
    simp [initialised, initialise, Error, everyfalse, fresh, VectorXd.resize, pure, Except.pure,
      bind, Except.bind]
  have hq2 : ∀ k, (initialised (fun _ _ => (0 : ℝ)) 3 (-(1 / 20)) 5 (3 / 10) false
      fresh).q2_.coeff k = 0 := by
    intro k
    simp [initialised, initialise, Error, everyfalse, fresh, VectorXd.resize, pure, Except.pure,
      bind, Except.bind]
  have hq3 : ∀ k, (initialised (fun _ _ => (0 : ℝ)) 3 (-(1 / 20)) 5 (3 / 10) false
      fresh).q3_.coeff k = 0 := by
    intro k
    simp [initialised, initialise, Error, everyfalse, fresh, VectorXd.resize, pure, Except.pure,
      bind, Except.bind]
  have h := Set_Gamma_decided_by (1 / 2 : ℝ) (-1) (vec3 1 2 3) (vec3 0 0 1) (vec3 5 6 7)
    (vec3 1 1 1) (vec3 0 1 0) _ hd rfl rfl rfl rfl rfl
  exact ⟨hd, hN, hq2, hq3, h.2 hN hq2 hq3, h.1⟩

/-- C16 fails on the frame of scenario A, stored by accepted calls: from that one
state the call with first tangent (0,1,0) is accepted and the call with first tangent
(0,0,1) is rejected, both with vectors of three components. -/
theorem Set_Gamma_reads_incoming_tangent :
    session (-(1 / 20) : ℝ) 5 (3 / 10) (1 / 2) (vec3 1 0 0) (vec3 0 1 0) (vec3 0 0 1)
        (vec3 0 0 0) (vec3 0 0 0) (vec3 1 0 0) = Except.ok (scenarioA ℝ)
    ∧ (∃ t, Set_Gamma true (1 / 2) (vec3 1 0 0) (vec3 0 1 0) (vec3 0 0 1) (scenarioA ℝ)
        = Except.ok t)
    ∧ Set_Gamma true (1 / 2) (vec3 1 0 0) (vec3 0 0 1) (vec3 0 1 0) (scenarioA ℝ)
        = Except.error (scenarioA ℝ) := by
  refine ⟨scenario_reached _ _ _ _ _ _ _ _, ?_, ?_⟩
  · rw [Set_Gamma_three _ _ _ _ _ rfl rfl rfl rfl, scenarioA_sum, if_pos (by norm_num)]
    exact ⟨_, rfl⟩
  · rw [Set_Gamma_three _ _ _ _ _ rfl rfl rfl rfl, scenarioA_sum, if_neg (by norm_num)]

/-- Calculate_Modulation writes Lambda_, M_, NF_, F_dNMN_ and Normal_velocity_robot_
and no other field. -/
theorem modulated_frame (exp : α → α) (s : CoDs α) :
    modulated exp s
      = { s with
          Lambda_ := (modulated exp s).Lambda_, M_ := (modulated exp s).M_,
          NF_ := (modulated exp s).NF_, F_dNMN_ := (modulated exp s).F_dNMN_,
          Normal_velocity_robot_ := (modulated exp s).Normal_velocity_robot_ } := by
  cases h : everythingisreceived s <;>
  simp only [modulated, Calculate_Modulation, Error, h, Bool.not_true, Bool.not_false,
    Bool.false_eq_true, if_false, if_true, pure_bind] <;>
  split_ifs <;> rfl

/-- The call does not change the number of rows of Lambda_. -/
theorem modulated_Lambda_rows (exp : α → α) (s : CoDs α) :
    (modulated exp s).Lambda_.rows = s.Lambda_.rows := by
  rw [modulated_Lambda]
  split_ifs <;> rfl

/-- A resized vector has the requested size. -/
theorem VectorXd.resize_rows (v : VectorXd α) (n : Nat) (f : Nat → α) :
    (v.resize n f).rows = n := by
  unfold VectorXd.resize
  split_ifs with h
  · exact h
  · rfl

/-- An accepted initialize leaves a consistent object. -/
theorem initialise_consistent (heap : Nat → Nat → α) (D : Int) (delta_dx F_d T : α)
    (surf : Bool) (s t : CoDs α)
    (h : initialise true heap D delta_dx F_d T surf s = Except.ok t) : Consistent t := by
  have hv : ¬ (D ≠ 3 ∨ 0 ≤ delta_dx ∨ F_d < 0) := by
    intro hv
    rw [initialise_stuck heap D delta_dx F_d T surf s hv] at h
    cases h
  push_neg at hv
  obtain ⟨h0, h1, h2⟩ := hv
  subst h0
  rw [initialise_ok true heap delta_dx F_d T surf s h1 h2] at h
  obtain rfl := Except.ok.inj h
  have h1n : ¬ (0 ≤ delta_dx) := not_le.mpr h1
  have h2n : ¬ (F_d < 0) := not_lt.mpr h2
  constructor
  case basis => exact Or.inl (fun i j => initialised_Q heap 3 delta_dx F_d T surf s i j)
  all_goals
    simp [initialised, initialise, everyfalse, h1n, h2n, h1, h2, pure, Except.pure, bind,
      Except.bind, MatrixXd.setZero, MatrixXd.setIdentity, MatrixXd.resize,
      VectorXd.setZero, VectorXd.resize_rows]

/-- An accepted Set_Gamma keeps an object consistent. -/
theorem Set_Gamma_consistent (Gamma : α) (Normal q2 q3 : VectorXd α) (s t : CoDs α)
    (hs : Consistent s) (h : Set_Gamma true Gamma Normal q2 q3 s = Except.ok t) :
    Consistent t := by
  rw [Set_Gamma_up, hs.dimension] at h
  split_ifs at h with hc
  obtain rfl := Except.ok.inj h
  obtain ⟨c1, c2, c3, -⟩ := hc
  exact
    { dimension := hs.dimension, velocity := hs.velocity, force := hs.force
      N_rows := by exact_mod_cast c1
      q2_rows := by exact_mod_cast c2
      q3_rows := by exact_mod_cast c3
      DX_rows := hs.DX_rows, F_rows := hs.F_rows
      Q_rows := hs.Q_rows, Q_cols := hs.Q_cols, Q_inv_rows := hs.Q_rows, Q_inv_cols := hs.Q_cols
      Lambda_rows := hs.Lambda_rows, Lambda_cols := hs.Lambda_cols
      InvMass_rows := hs.InvMass_rows, InvMass_cols := hs.InvMass_cols
      basis := Or.inr ⟨rfl, fun i => by simp [framed, MatrixXd.setCol]⟩ }

/-- An accepted Set_State keeps an object consistent. -/
theorem Set_State_consistent (State DState F : VectorXd α) (s t : CoDs α)
    (hs : Consistent s) (h : Set_State true State DState F s = Except.ok t) :
    Consistent t := by
  rw [Set_State_up, hs.dimension] at h
  split_ifs at h with hc
  obtain rfl := Except.ok.inj h
  obtain ⟨-, c2, c3⟩ := hc
  exact
    { dimension := rfl, velocity := hs.velocity, force := hs.force
      N_rows := hs.N_rows, q2_rows := hs.q2_rows, q3_rows := hs.q3_rows
      DX_rows := by exact_mod_cast c3
      F_rows := by exact_mod_cast c2
      Q_rows := hs.Q_rows, Q_cols := hs.Q_cols
      Q_inv_rows := hs.Q_inv_rows, Q_inv_cols := hs.Q_inv_cols
      Lambda_rows := hs.Lambda_rows, Lambda_cols := hs.Lambda_cols
      InvMass_rows := hs.InvMass_rows, InvMass_cols := hs.InvMass_cols
      basis := hs.basis }

/-- An accepted Set_Mass_Matrix keeps an object consistent. -/
theorem Set_Mass_Matrix_consistent (M : MatrixXd α) (s t : CoDs α)
    (hs : Consistent s) (h : Set_Mass_Matrix true M s = Except.ok t) :
    Consistent t := by
  rw [Set_Mass_Matrix_up, hs.dimension] at h
  split_ifs at h with hc
  obtain rfl := Except.ok.inj h
  obtain ⟨c1, c2⟩ := hc
  exact
    { dimension := rfl, velocity := hs.velocity, force := hs.force
      N_rows := hs.N_rows, q2_rows := hs.q2_rows, q3_rows := hs.q3_rows
      DX_rows := hs.DX_rows, F_rows := hs.F_rows
      Q_rows := hs.Q_rows, Q_cols := hs.Q_cols
      Q_inv_rows := hs.Q_inv_rows, Q_inv_cols := hs.Q_inv_cols
      Lambda_rows := hs.Lambda_rows, Lambda_cols := hs.Lambda_cols
      InvMass_rows := by exact_mod_cast c2
      InvMass_cols := by exact_mod_cast c1
      basis := hs.basis }

/-- A returning Calculate_Modulation keeps an object consistent. -/
theorem modulated_consistent (exp : α → α) (s : CoDs α) (hs : Consistent s) :
    Consistent (modulated exp s) := by
  have e := modulated_frame exp s
  have e1 : ∀ (f : CoDs α → Prop), f { s with
          Lambda_ := (modulated exp s).Lambda_, M_ := (modulated exp s).M_,
          NF_ := (modulated exp s).NF_, F_dNMN_ := (modulated exp s).F_dNMN_,
          Normal_velocity_robot_ := (modulated exp s).Normal_velocity_robot_ } →
      f (modulated exp s) := fun f hf => by rw [e]; exact hf
  exact
    { dimension := e1 (fun x => x.Dimen_state_ = 3) hs.dimension
      velocity := e1 (fun x => x.delta_dx_ < 0) hs.velocity
      force := e1 (fun x => 0 ≤ x.F_d_) hs.force
      N_rows := e1 (fun x => x.N_.rows = 3) hs.N_rows
      q2_rows := e1 (fun x => x.q2_.rows = 3) hs.q2_rows
      q3_rows := e1 (fun x => x.q3_.rows = 3) hs.q3_rows
      DX_rows := e1 (fun x => x.DX_.rows = 3) hs.DX_rows
      F_rows := e1 (fun x => x.F_.rows = 3) hs.F_rows
      Q_rows := e1 (fun x => x.Q_.rows = 3) hs.Q_rows
      Q_cols := e1 (fun x => x.Q_.cols = 3) hs.Q_cols
      Q_inv_rows := e1 (fun x => x.Q_inv_.rows = 3) hs.Q_inv_rows
      Q_inv_cols := e1 (fun x => x.Q_inv_.cols = 3) hs.Q_inv_cols
      Lambda_rows := (modulated_Lambda_rows exp s).trans hs.Lambda_rows
      Lambda_cols := (modulated_Lambda_cols exp s).trans hs.Lambda_cols
      InvMass_rows := e1 (fun x => x.InvMass_.rows = 3) hs.InvMass_rows
      InvMass_cols := e1 (fun x => x.InvMass_.cols = 3) hs.InvMass_cols
      basis := e1 (fun x => (∀ i j, x.Q_.coeff i j = 0) ∨
        (x.Q_inv_ = x.Q_.inverse ∧ ∀ i, x.Q_.coeff i 0 = x.N_.coeff i
          ∧ x.Q_.coeff i 1 = x.q2_.coeff i ∧ x.Q_.coeff i 2 = x.q3_.coeff i)) hs.basis }

/-- With the liveness signal up Calculate_Modulation returns only in a ready state,
and then returns the modulated object and its M_. -/
theorem Calculate_Modulation_up (exp : α → α) (s : CoDs α) (r : CoDs α × MatrixXd α)
    (h : Calculate_Modulation true exp s = Except.ok r) :
    everythingisreceived s = true ∧ r = (modulated exp s, (modulated exp s).M_) := by
  cases hr : everythingisreceived s
  · rw [Calculate_Modulation_stuck exp s hr] at h
    cases h
  · rw [Calculate_Modulation_ok true exp s hr] at h
    exact ⟨rfl, (Except.ok.inj h).symm⟩

/-- Every reachable object is consistent. -/
theorem reachable_consistent (s : CoDs α) (h : Reachable s) : Consistent s := by
  induction h with
  | init heap D delta_dx F_d T surf s t h => exact initialise_consistent heap D delta_dx F_d T surf s t h
  | frame Gamma Normal q2 q3 s t _ h ih => exact Set_Gamma_consistent Gamma Normal q2 q3 s t ih h
  | state State DState F s t _ h ih => exact Set_State_consistent State DState F s t ih h
  | mass M s t _ h ih => exact Set_Mass_Matrix_consistent M s t ih h
  | modulation exp s r _ h ih =>
    rw [(Calculate_Modulation_up exp s r h).2]
    exact modulated_consistent exp s ih

/-- The object scenarioInitialised is the result of an accepted initialize. -/
theorem scenarioInitialised_reached :
    initialise true (fun _ _ => 0) 3 (-(1 / 20)) 5 (3 / 10) false (fresh : CoDs α)
      = Except.ok (scenarioInitialised α) :=
  initialise_ok true _ _ _ _ _ _ (by norm_num) (by norm_num)

/-- The object scenarioInitialised is reachable. -/
theorem scenarioInitialised_reachable : Reachable (scenarioInitialised α) :=
  Reachable.init _ _ _ _ _ _ _ _ scenarioInitialised_reached

/-- The stored frame vectors of scenarioInitialised are zero. -/
theorem scenarioInitialised_zero (k : Nat) :
    (scenarioInitialised α).N_.coeff k = 0 ∧ (scenarioInitialised α).q2_.coeff k = 0
    ∧ (scenarioInitialised α).q3_.coeff k = 0 := by
  have h1n : ¬ ((0 : α) ≤ -(1 / 20)) := by norm_num
  have h2n : ¬ ((20 : α) ≤ 0) := by norm_num
  simp [scenarioInitialised, initialised, initialise, Error, everyfalse, fresh,
    VectorXd.resize, pure, Except.pure, bind, Except.bind, h1n, h2n]

/-- The first Set_Gamma on scenarioInitialised accepts every frame of three
components. -/
theorem scenarioInitialised_accepts (Gamma : α) (Normal q2 q3 : VectorXd α)
    (hN : Normal.rows = 3) (hq2 : q2.rows = 3) (hq3 : q3.rows = 3) :
    Set_Gamma true Gamma Normal q2 q3 (scenarioInitialised α)
      = Except.ok (framed Gamma Normal q2 q3 (scenarioInitialised α)) := by
  have hd : (scenarioInitialised α).Dimen_state_ = 3 := initialised_dimension _ _ _ _ _ _ _
  rw [Set_Gamma_three Gamma Normal q2 q3 (scenarioInitialised α) hd hN hq2 hq3,
    orthogonalitySum_zero _ q2 (fun k => (scenarioInitialised_zero k).1)
      (fun k => (scenarioInitialised_zero k).2.2), if_pos (by norm_num)]

/-- C13, as the code has it: for every frame that Set_Gamma accepts in a reachable
object, the cached basis Q_ has the normal and the two tangents as columns and Q_inv_
is the result of inverse() on it; when the determinant of Q_ is not zero, Q_ * Q_inv_
and Q_inv_ * Q_ are the identity.  Set_Gamma does not test the determinant. -/
theorem accepted_frame_inverse (Gamma : α) (Normal q2 q3 : VectorXd α) (s t : CoDs α)
    (hs : Reachable s) (h : Set_Gamma true Gamma Normal q2 q3 s = Except.ok t) :
    (∀ i, t.Q_.coeff i 0 = Normal.coeff i ∧ t.Q_.coeff i 1 = q2.coeff i
        ∧ t.Q_.coeff i 2 = q3.coeff i) ∧
    t.Q_inv_ = t.Q_.inverse ∧
    (t.Q_.det3 ≠ 0 →
      toMat3 (t.Q_.mul t.Q_inv_) = 1 ∧ toMat3 (t.Q_inv_.mul t.Q_) = 1) := by
  have hc := reachable_consistent s hs
  have ht := Set_Gamma_consistent Gamma Normal q2 q3 s t hc h
  rw [Set_Gamma_up] at h
  split_ifs at h with hcond
  obtain rfl := Except.ok.inj h
  refine ⟨fun i => by simp [framed, MatrixXd.setCol], rfl, fun hdet => ?_⟩
  rw [toMat3_mul _ _ ht.Q_cols, toMat3_mul _ _ ht.Q_inv_cols]
  exact ⟨toMat3_mul_inverse _ hdet, toMat3_inverse_mul _ hdet⟩

/-- The coordinate axes as first frame of scenarioInitialised: determinant 1. -/
theorem accepted_frame_inverse_witness :
    Reachable (scenarioInitialised ℝ)
    ∧ Set_Gamma true (1 / 2) (vec3 1 0 0) (vec3 0 1 0) (vec3 0 0 1) (scenarioInitialised ℝ)
        = Except.ok (framed (1 / 2) (vec3 1 0 0) (vec3 0 1 0) (vec3 0 0 1)
            (scenarioInitialised ℝ))
    ∧ (framed (1 / 2) (vec3 1 0 0) (vec3 0 1 0) (vec3 0 0 1)
        (scenarioInitialised ℝ)).Q_.det3 ≠ 0
    ∧ toMat3 ((framed (1 / 2) (vec3 1 0 0) (vec3 0 1 0) (vec3 0 0 1)
          (scenarioInitialised ℝ)).Q_.mul
        (framed (1 / 2) (vec3 1 0 0) (vec3 0 1 0) (vec3 0 0 1)
          (scenarioInitialised ℝ)).Q_inv_) = 1 := by
  have hacc := scenarioInitialised_accepts (1 / 2 : ℝ) (vec3 1 0 0) (vec3 0 1 0) (vec3 0 0 1)
    rfl rfl rfl
  have hdet : (framed (1 / 2) (vec3 1 0 0) (vec3 0 1 0) (vec3 0 0 1)
      (scenarioInitialised ℝ)).Q_.det3 ≠ 0 := by
    simp [framed, MatrixXd.setCol, MatrixXd.det3, vec3]
  exact ⟨scenarioInitialised_reachable, hacc, hdet,
    ((accepted_frame_inverse (1 / 2) (vec3 1 0 0) (vec3 0 1 0) (vec3 0 0 1) _ _
      scenarioInitialised_reachable hacc).2.2 hdet).1⟩

/-- C13 fails for the frame with the zero vector as normal and the tangents (0,1,0)
and (0,0,1), whose three dot products are zero: the first Set_Gamma on a reachable
object accepts it, the basis has determinant zero, no matrix is a right inverse of
it, and Q_ * Q_inv_ is not the identity. -/
theorem singular_frame_accepted :
    Reachable (scenarioInitialised ℝ)
    ∧ Set_Gamma true (1 / 2) (vec3 0 0 0) (vec3 0 1 0) (vec3 0 0 1) (scenarioInitialised ℝ)
        = Except.ok (framed (1 / 2) (vec3 0 0 0) (vec3 0 1 0) (vec3 0 0 1)
            (scenarioInitialised ℝ))
    ∧ (framed (1 / 2) (vec3 0 0 0) (vec3 0 1 0) (vec3 0 0 1)
        (scenarioInitialised ℝ)).Q_.det3 = 0
    ∧ (∀ X : Matrix (Fin 3) (Fin 3) ℝ,
        toMat3 (framed (1 / 2) (vec3 0 0 0) (vec3 0 1 0) (vec3 0 0 1)
          (scenarioInitialised ℝ)).Q_ * X ≠ 1)
    ∧ toMat3 ((framed (1 / 2) (vec3 0 0 0) (vec3 0 1 0) (vec3 0 0 1)
          (scenarioInitialised ℝ)).Q_.mul
        (framed (1 / 2) (vec3 0 0 0) (vec3 0 1 0) (vec3 0 0 1)
          (scenarioInitialised ℝ)).Q_inv_) ≠ 1 := by
  have hacc := scenarioInitialised_accepts (1 / 2 : ℝ) (vec3 0 0 0) (vec3 0 1 0) (vec3 0 0 1)
    rfl rfl rfl
  have hno : ∀ X : Matrix (Fin 3) (Fin 3) ℝ,
      toMat3 (framed (1 / 2) (vec3 0 0 0) (vec3 0 1 0) (vec3 0 0 1)
        (scenarioInitialised ℝ)).Q_ * X ≠ 1 := by
    intro X hX
    have h11 := congrFun (congrFun hX 0) 0
    simp [Matrix.mul_apply, Fin.sum_univ_three, toMat3, framed, MatrixXd.setCol, vec3] at h11
  have hcols : (framed (1 / 2) (vec3 0 0 0) (vec3 0 1 0) (vec3 0 0 1)
      (scenarioInitialised ℝ)).Q_.cols = 3 :=
    (Set_Gamma_consistent _ _ _ _ _ _ (reachable_consistent _ scenarioInitialised_reachable)
      hacc).Q_cols
  refine ⟨scenarioInitialised_reachable, hacc, ?_, hno, ?_⟩
  · simp [framed, MatrixXd.setCol, MatrixXd.det3, vec3]
  · rw [toMat3_mul _ _ hcols]
    exact hno _

/-- The object that an accepted session leaves is reachable. -/
theorem session_reachable (delta_dx F_d T Gamma : α)
    (Normal q2 q3 State DState F : VectorXd α) (t : CoDs α)
    (h : session delta_dx F_d T Gamma Normal q2 q3 State DState F = Except.ok t) :
    Reachable t := by
  unfold session at h
  cases h1 : initialise true (fun _ _ => 0) 3 delta_dx F_d T false (fresh : CoDs α) with
  | error e =>
    rw [h1] at h
    cases h
  | ok s1 =>
    rw [h1] at h
    cases h2 : Set_Gamma true Gamma Normal q2 q3 s1 with
    | error e =>
      simp only [bind, Except.bind, h2] at h
      cases h
    | ok s2 =>
      simp only [bind, Except.bind, h2] at h
      exact Reachable.state _ _ _ _ _
        (Reachable.frame _ _ _ _ _ _ (Reachable.init _ _ _ _ _ _ _ _ h1) h2) h

/-- The quantities of a reachable ready object with an invertible basis: Q_inv_ is
the result of inverse() on Q_ and the columns of Q_ are the stored frame vectors. -/
theorem reachable_basis (s : CoDs α) (hs : Reachable s) (hdet : s.Q_.det3 ≠ 0) :
    s.Q_inv_ = s.Q_.inverse ∧ ∀ i, s.Q_.coeff i 0 = s.N_.coeff i
      ∧ s.Q_.coeff i 1 = s.q2_.coeff i ∧ s.Q_.coeff i 2 = s.q3_.coeff i := by
  rcases (reachable_consistent s hs).basis with h | h
  · exact absurd (by simp [MatrixXd.det3, h]) hdet
  · exact h

/-- The logged call and the call agree: same fault, same object, same matrix. -/
theorem Calculate_Modulation_logged_fst (rosOk : Bool) (exp : α → α) (s : CoDs α) :
    (Calculate_Modulation_logged rosOk exp s).map Prod.fst
      = Calculate_Modulation rosOk exp s := by
  rcases lt_or_le s.Gamma_Value_ s.Gammma_Threshold_ with h1 | h1 <;>
  (first | have g1 := h1.not_le | have g1 := h1.not_lt) <;>
  rcases lt_or_le 0 s.Gamma_Value_ with h2 | h2 <;>
  (first | have g2 := h2.not_le | have g2 := h2.not_lt) <;>
  rcases lt_or_le ((s.Q_.transpose.mulVec s.DX_).coeff 0) s.delta_dx_ with h3 | h3 <;>
  (first | have g3 := h3.not_le | have g3 := h3.not_lt) <;>
  rcases lt_or_le s.delta_dx_ ((s.Q_.transpose.mulVec s.DX_).coeff 0) with h4 | h4 <;>
  (first | have g4 := h4.not_le | have g4 := h4.not_lt) <;>
  rcases lt_or_le ((s.Q_.transpose.mulVec s.DX_).coeff 0) 0 with h5 | h5 <;>
  (first | have g5 := h5.not_le | have g5 := h5.not_lt) <;>
  cases h : everythingisreceived s <;> cases rosOk <;>
  simp [Calculate_Modulation_logged, Calculate_Modulation, Error, divide, h, h1, h2, h3, h4,
    h5, g1, g2, g3, g4, g5, Except.map, pure, Except.pure, bind, Except.bind]

/-- The divisors of a returning call, branch by branch. -/
theorem divisors_eq (exp : α → α) (s : CoDs α) :
    divisors exp s
      = (if s.Gamma_Value_ < s.Gammma_Threshold_ ∧ 0 < s.Gamma_Value_ then
          (if (s.Q_.transpose.mulVec s.DX_).coeff 0 < s.delta_dx_ then
            [epsilon, s.Gamma_Value_ * (s.N_.transpose.mulVec s.F_).coeff 0]
          else if s.delta_dx_ < (s.Q_.transpose.mulVec s.DX_).coeff 0
              ∧ (s.Q_.transpose.mulVec s.DX_).coeff 0 < 0 then
            [(s.N_.transpose.mulVec s.F_).coeff 0, epsilon]
          else if 0 ≤ (s.Q_.transpose.mulVec s.DX_).coeff 0 then
            [(s.N_.transpose.mulVec s.F_).coeff 0, epsilon]
          else [(s.N_.transpose.mulVec s.F_).coeff 0])
        else if s.Gamma_Value_ ≤ 0 then [(s.N_.transpose.mulVec s.F_).coeff 0]
        else []) := by
  rcases lt_or_le s.Gamma_Value_ s.Gammma_Threshold_ with h1 | h1 <;>
  (first | have g1 := h1.not_le | have g1 := h1.not_lt) <;>
  rcases lt_or_le 0 s.Gamma_Value_ with h2 | h2 <;>
  (first | have g2 := h2.not_le | have g2 := h2.not_lt) <;>
  rcases lt_or_le ((s.Q_.transpose.mulVec s.DX_).coeff 0) s.delta_dx_ with h3 | h3 <;>
  (first | have g3 := h3.not_le | have g3 := h3.not_lt) <;>
  rcases lt_or_le s.delta_dx_ ((s.Q_.transpose.mulVec s.DX_).coeff 0) with h4 | h4 <;>
  (first | have g4 := h4.not_le | have g4 := h4.not_lt) <;>
  rcases lt_or_le ((s.Q_.transpose.mulVec s.DX_).coeff 0) 0 with h5 | h5 <;>
  (first | have g5 := h5.not_le | have g5 := h5.not_lt) <;>
  cases h : everythingisreceived s <;>
  simp [divisors, Calculate_Modulation_logged, Error, divide, h, h1, h2, h3, h4,
    h5, g1, g2, g3, g4, g5, pure, Except.pure, bind, Except.bind]

/-- In a ready state the logged call returns what the call returns, with the
divisors of its divisions. -/
theorem Calculate_Modulation_logged_ok (rosOk : Bool) (exp : α → α) (s : CoDs α)
    (hready : everythingisreceived s = true) :
    Calculate_Modulation_logged rosOk exp s
      = Except.ok ((modulated exp s, (modulated exp s).M_), divisors exp s) := by
  have h1 := Calculate_Modulation_logged_fst rosOk exp s
  rw [Calculate_Modulation_ok rosOk exp s hready] at h1
  have h2 := Calculate_Modulation_logged_fst false exp s
  rw [Calculate_Modulation_ok false exp s hready] at h2
  have hsame : Calculate_Modulation_logged rosOk exp s
      = Calculate_Modulation_logged false exp s := by
    simp only [Calculate_Modulation_logged, hready, Bool.not_true, Bool.false_eq_true,
      if_false]
  rw [hsame] at h1 ⊢
  unfold divisors
  cases hl : Calculate_Modulation_logged false exp s with
  | error e =>
    rw [hl] at h1
    simp [Except.map] at h1
  | ok r =>
    rw [hl] at h1
    simp only [Except.map] at h1
    have := Except.ok.inj h1
    rw [← this]

/-- The divisor epsilon is not zero. -/
theorem epsilon_ne_zero : (epsilon : α) ≠ 0 := by
  unfold epsilon
  positivity

/-- No divisor of a returning call is zero when the nominal force has a non-zero
normal component, and none when the call is in free motion with a positive
proximity, where it divides nothing. -/
theorem divisors_ne_zero (exp : α → α) (s : CoDs α)
    (h : (s.N_.transpose.mulVec s.F_).coeff 0 ≠ 0
      ∨ (s.Gammma_Threshold_ ≤ s.Gamma_Value_ ∧ 0 < s.Gamma_Value_)) :
    ∀ d ∈ divisors exp s, d ≠ 0 := by
  intro d hd
  rw [divisors_eq] at hd
  rcases h with h | ⟨hT, hG⟩
  · split_ifs at hd with c1 c2 c3 c4 c5 <;>
    simp only [List.mem_cons, List.mem_singleton, List.not_mem_nil, or_false] at hd
    · rcases hd with rfl | rfl
      · exact epsilon_ne_zero
      · exact mul_ne_zero (ne_of_gt c1.2) h
    · rcases hd with rfl | rfl
      · exact h
      · exact epsilon_ne_zero
    · rcases hd with rfl | rfl
      · exact h
      · exact epsilon_ne_zero
    · rw [hd]; exact h
    · rw [hd]; exact h
  · rw [if_neg (fun c => absurd c.1 (not_lt.mpr hT)), if_neg (not_le.mpr hG)] at hd
    cases hd

/-- C17, as the code has it: in a reachable ready object whose nominal force has a
non-zero normal component, Calculate_Modulation returns a matrix with 3 rows and 3
columns, and no division of its body has a zero divisor.  The divisors that the call
records are epsilon and Gamma * (N_ᵀ * F_) in the overshoot branch, N_ᵀ * F_ and
epsilon above the impact velocity, N_ᵀ * F_ alone at the impact velocity and in the
contact branch, and none in free motion with a positive proximity.  The determinant
of the basis, the divisor of inverse() in Set_Gamma, is not among the guarantees:
when it is not zero, Q_inv_ is the inverse of Q_. -/
theorem modulation_divisors (rosOk : Bool) (exp : α → α) (s : CoDs α)
    (hs : Reachable s) (hready : everythingisreceived s = true)
    (hNF : (s.N_.transpose.mulVec s.F_).coeff 0 ≠ 0) :
    ∃ (r : CoDs α × MatrixXd α) (log : List α),
      Calculate_Modulation_logged rosOk exp s = Except.ok (r, log) ∧
      Calculate_Modulation rosOk exp s = Except.ok r ∧
      r.2.rows = 3 ∧ r.2.cols = 3 ∧
      (∀ d ∈ log, d ≠ 0) ∧
      (s.Gamma_Value_ < s.Gammma_Threshold_ → 0 < s.Gamma_Value_ →
        ((s.Q_.transpose.mulVec s.DX_).coeff 0 < s.delta_dx_ →
          log = [epsilon, s.Gamma_Value_ * (s.N_.transpose.mulVec s.F_).coeff 0]) ∧
        (s.delta_dx_ < (s.Q_.transpose.mulVec s.DX_).coeff 0 →
          log = [(s.N_.transpose.mulVec s.F_).coeff 0, epsilon]) ∧
        ((s.Q_.transpose.mulVec s.DX_).coeff 0 = s.delta_dx_ →
          log = [(s.N_.transpose.mulVec s.F_).coeff 0])) ∧
      (s.Gamma_Value_ ≤ 0 → log = [(s.N_.transpose.mulVec s.F_).coeff 0]) ∧
      (s.Gammma_Threshold_ ≤ s.Gamma_Value_ → 0 < s.Gamma_Value_ → log = []) ∧
      (s.Q_.det3 ≠ 0 →
        toMat3 s.Q_ * toMat3 s.Q_inv_ = 1 ∧ toMat3 s.Q_inv_ * toMat3 s.Q_ = 1) := by
  have hc := reachable_consistent s hs
  refine ⟨_, _, Calculate_Modulation_logged_ok rosOk exp s hready,
    Calculate_Modulation_ok rosOk exp s hready, ?_, ?_,
    divisors_ne_zero exp s (Or.inl hNF), ?_, ?_, ?_, ?_⟩
  · rw [modulated_M]
    exact hc.Q_rows
  · rw [modulated_M]
    exact hc.Q_inv_cols
  · intro hT hG
    refine ⟨?_, ?_, ?_⟩
    · intro hv
      rw [divisors_eq, if_pos ⟨hT, hG⟩, if_pos hv]
    · intro hv
      rw [divisors_eq, if_pos ⟨hT, hG⟩, if_neg (not_lt.mpr hv.le)]
      rcases lt_or_le ((s.Q_.transpose.mulVec s.DX_).coeff 0) 0 with h0 | h0
      · rw [if_pos ⟨hv, h0⟩]
      · rw [if_neg (fun c => absurd c.2 (not_lt.mpr h0)), if_pos h0]
    · intro hv
      have hneg : (s.Q_.transpose.mulVec s.DX_).coeff 0 < 0 := by rw [hv]; exact hc.velocity
      rw [divisors_eq, if_pos ⟨hT, hG⟩, if_neg (by rw [hv]; exact lt_irrefl _),
        if_neg (fun c => absurd c.1 (by rw [hv]; exact lt_irrefl _)),
        if_neg (not_le.mpr hneg)]
  · intro hG
    rw [divisors_eq, if_neg (fun c => absurd c.2 (not_lt.mpr hG)), if_pos hG]
  · intro hT hG
    rw [divisors_eq, if_neg (fun c => absurd c.1 (not_lt.mpr hT)), if_neg (not_le.mpr hG)]
  · intro hdet
    rw [(reachable_basis s hs hdet).1]
    exact ⟨toMat3_mul_inverse _ hdet, toMat3_inverse_mul _ hdet⟩

/-- Scenario B (transition, overshoot): reachable, ready, normal force 1, proximity
0.1, determinant 1; the call records the divisors epsilon and 0.1 * 1. -/
theorem modulation_divisors_witness :
    Reachable (scenarioB ℝ) ∧ everythingisreceived (scenarioB ℝ) = true
    ∧ ((scenarioB ℝ).N_.transpose.mulVec (scenarioB ℝ).F_).coeff 0 ≠ 0
    ∧ (scenarioB ℝ).Q_.det3 ≠ 0
    ∧ ∃ (r : CoDs ℝ × MatrixXd ℝ) (log : List ℝ),
        Calculate_Modulation_logged true Real.exp (scenarioB ℝ) = Except.ok (r, log)
        ∧ Calculate_Modulation true Real.exp (scenarioB ℝ) = Except.ok r
        ∧ r.2.rows = 3 ∧ r.2.cols = 3
        ∧ log = [epsilon, 1 / 10 * 1]
        ∧ (∀ d ∈ log, d ≠ 0)
        ∧ toMat3 (scenarioB ℝ).Q_ * toMat3 (scenarioB ℝ).Q_inv_ = 1 := by
  have hr : Reachable (scenarioB ℝ) := session_reachable _ _ _ _ _ _ _ _ _ _ _
    (scenario_reached (3 / 10 : ℝ) (1 / 10) (-(1 / 5)) 0 0 1 0 0)
  have hNF1 : ((scenarioB ℝ).N_.transpose.mulVec (scenarioB ℝ).F_).coeff 0 = 1 :=
    scenario_normalForce _ _ _ _ _ _
  have hNF : ((scenarioB ℝ).N_.transpose.mulVec (scenarioB ℝ).F_).coeff 0 ≠ 0 := by
    rw [hNF1]; norm_num
  have hv : ((scenarioB ℝ).Q_.transpose.mulVec (scenarioB ℝ).DX_).coeff 0 = -(1 / 5) :=
    scenario_normalVelocity _ _ _ _ _ _
  have hd : (scenarioB ℝ).delta_dx_ = -(1 / 20) := rfl
  have hGv : (scenarioB ℝ).Gamma_Value_ = 1 / 10 := rfl
  have hTv : (scenarioB ℝ).Gammma_Threshold_ = 3 / 10 := rfl
  have hG : 0 < (scenarioB ℝ).Gamma_Value_ := by rw [hGv]; norm_num
  have hT : (scenarioB ℝ).Gamma_Value_ < (scenarioB ℝ).Gammma_Threshold_ := by
    rw [hGv, hTv]; norm_num
  have hlt : ((scenarioB ℝ).Q_.transpose.mulVec (scenarioB ℝ).DX_).coeff 0
      < (scenarioB ℝ).delta_dx_ := by rw [hv, hd]; norm_num
  have hdet : (scenarioB ℝ).Q_.det3 ≠ 0 := by
    rw [scenarioB, scenario_det]; norm_num
  obtain ⟨r, log, h1, h2, h3, h4, h5, h6, -, -, h7⟩ :=
    modulation_divisors true Real.exp (scenarioB ℝ) hr rfl hNF
  have hlog := (h6 hT hG).1 hlt
  rw [hNF1, hGv] at hlog
  exact ⟨hr, rfl, hNF, hdet, r, log, h1, h2, h3, h4, hlog, h5, (h7 hdet).1⟩

/-- C17 fails for the determinant: the object with normal (1,0,0), first tangent zero
and second tangent (0,0,1) is reached by accepted calls, it is ready and its nominal
force has normal component 1, Calculate_Modulation returns, and the determinant
behind the cached inverse is zero. -/
theorem singular_frame_divisor :
    session (-(1 / 20) : ℝ) 5 (3 / 10) (1 / 2) (vec3 1 0 0) (vec3 0 0 0) (vec3 0 0 1)
        (vec3 0 0 0) (vec3 0 0 0) (vec3 1 0 0) = Except.ok (scenarioSingular ℝ)
    ∧ Reachable (scenarioSingular ℝ)
    ∧ everythingisreceived (scenarioSingular ℝ) = true
    ∧ ((scenarioSingular ℝ).N_.transpose.mulVec (scenarioSingular ℝ).F_).coeff 0 = 1
    ∧ ((scenarioSingular ℝ).N_.transpose.mulVec (scenarioSingular ℝ).F_).coeff 0 ≠ 0
    ∧ (∃ r, Calculate_Modulation true Real.exp (scenarioSingular ℝ) = Except.ok r)
    ∧ (scenarioSingular ℝ).Q_.det3 = 0 := by
  have hreach : session (-(1 / 20) : ℝ) 5 (3 / 10) (1 / 2) (vec3 1 0 0) (vec3 0 0 0)
      (vec3 0 0 1) (vec3 0 0 0) (vec3 0 0 0) (vec3 1 0 0) = Except.ok (scenarioSingular ℝ) :=
    session_eq _ _ _ _ _ _ _ _ _ _ (by norm_num) (by norm_num) rfl rfl rfl rfl rfl rfl
  have hNF : ((scenarioSingular ℝ).N_.transpose.mulVec (scenarioSingular ℝ).F_).coeff 0 = 1 := by
    simp [scenarioSingular, sessionState, vec3, VectorXd.transpose, MatrixXd.mulVec,
      Finset.sum_range_succ]
  refine ⟨hreach, session_reachable _ _ _ _ _ _ _ _ _ _ _ hreach, rfl, hNF, ?_,
    ⟨_, Calculate_Modulation_ok true Real.exp _ rfl⟩, ?_⟩
  · rw [hNF]; norm_num
  · simp [scenarioSingular, sessionState, basis, vec3, MatrixXd.det3]

/-- The matrix Lambda_ after the call is the same for two objects that agree on the
proximity, the threshold, the basis, the velocity, the impact velocity, the normal,
the nominal force, the contact force, the quadratic form of the inverse mass along
the normal and the size of Lambda_. -/
theorem modulated_Lambda_congr (exp : α → α) (s t : CoDs α)
    (h1 : t.Gamma_Value_ = s.Gamma_Value_) (h2 : t.Gammma_Threshold_ = s.Gammma_Threshold_)
    (h3 : t.Q_ = s.Q_) (h4 : t.DX_ = s.DX_) (h5 : t.delta_dx_ = s.delta_dx_)
    (h6 : t.N_ = s.N_) (h7 : t.F_ = s.F_) (h8 : t.F_d_ = s.F_d_)
    (h9 : ((t.N_.transpose.mul t.InvMass_).mulVec t.N_).coeff 0
        = ((s.N_.transpose.mul s.InvMass_).mulVec s.N_).coeff 0)
    (h10 : t.Lambda_.rows = s.Lambda_.rows) (h11 : t.Lambda_.cols = s.Lambda_.cols) :
    (modulated exp t).Lambda_ = (modulated exp s).Lambda_ := by
  have hI : t.Lambda_.setIdentity = s.Lambda_.setIdentity := by
    simp [MatrixXd.setIdentity, h10, h11]
  rw [modulated_Lambda exp t, modulated_Lambda exp s, h9, h1, h2, h3, h4, h5, h6, h7, h8, hI]

/-- The returned matrix is the same for two objects that agree as in
modulated_Lambda_congr and on the cached inverse. -/
theorem modulated_M_congr (exp : α → α) (s t : CoDs α)
    (h1 : t.Gamma_Value_ = s.Gamma_Value_) (h2 : t.Gammma_Threshold_ = s.Gammma_Threshold_)
    (h3 : t.Q_ = s.Q_) (h4 : t.DX_ = s.DX_) (h5 : t.delta_dx_ = s.delta_dx_)
    (h6 : t.N_ = s.N_) (h7 : t.F_ = s.F_) (h8 : t.F_d_ = s.F_d_)
    (h9 : ((t.N_.transpose.mul t.InvMass_).mulVec t.N_).coeff 0
        = ((s.N_.transpose.mul s.InvMass_).mulVec s.N_).coeff 0)
    (h10 : t.Lambda_.rows = s.Lambda_.rows) (h11 : t.Lambda_.cols = s.Lambda_.cols)
    (h12 : t.Q_inv_ = s.Q_inv_) :
    (modulated exp t).M_ = (modulated exp s).M_ := by
  rw [modulated_M exp t, modulated_M exp s,
    modulated_Lambda_congr exp s t h1 h2 h3 h4 h5 h6 h7 h8 h9 h10 h11, h3, h12]

/-- The fields read by the modulation are the same after a call as before it. -/
theorem modulated_inputs (exp : α → α) (s : CoDs α) :
    (modulated exp s).Gamma_Value_ = s.Gamma_Value_
    ∧ (modulated exp s).Gammma_Threshold_ = s.Gammma_Threshold_
    ∧ (modulated exp s).Q_ = s.Q_ ∧ (modulated exp s).DX_ = s.DX_
    ∧ (modulated exp s).delta_dx_ = s.delta_dx_ ∧ (modulated exp s).N_ = s.N_
    ∧ (modulated exp s).F_ = s.F_ ∧ (modulated exp s).F_d_ = s.F_d_
    ∧ (modulated exp s).InvMass_ = s.InvMass_ ∧ (modulated exp s).Q_inv_ = s.Q_inv_
    ∧ (modulated exp s).State_of_system_is_set_ = s.State_of_system_is_set_
    ∧ (modulated exp s).State_of_surface_is_set_ = s.State_of_surface_is_set_ := by
  have e := modulated_frame exp s
  refine ⟨?_, ?_, ?_, ?_, ?_, ?_, ?_, ?_, ?_, ?_, ?_, ?_⟩ <;> rw [e]

/-- C14: in a ready state Calculate_Modulation returns and leaves both readiness
flags true; a second call right after it returns and gives the same matrix; and the
matrix is the same whatever values Lambda_ (its size kept), M_, NF_, F_dNMN_ and
Normal_velocity_robot_ hold before the call: it is a function of the configuration,
the frame (proximity, normal, basis, cached inverse), the velocity, the nominal
force and the inverse mass. -/
theorem modulation_repeatable (rosOk : Bool) (exp : α → α) (s : CoDs α)
    (hready : everythingisreceived s = true) :
    ∃ r : CoDs α × MatrixXd α, Calculate_Modulation rosOk exp s = Except.ok r ∧
      r.1.State_of_system_is_set_ = true ∧ r.1.State_of_surface_is_set_ = true ∧
      (∃ r2 : CoDs α × MatrixXd α, Calculate_Modulation rosOk exp r.1 = Except.ok r2
        ∧ r2.2 = r.2) ∧
      (∀ (L : Nat → Nat → α) (M : MatrixXd α) (a b : α) (v : VectorXd α),
        ∃ r3 : CoDs α × MatrixXd α,
          Calculate_Modulation rosOk exp
              { s with Lambda_ := { s.Lambda_ with coeff := L }, M_ := M, NF_ := a,
                       F_dNMN_ := b, Normal_velocity_robot_ := v } = Except.ok r3
            ∧ r3.2 = r.2) := by
  have hf : s.State_of_system_is_set_ = true ∧ s.State_of_surface_is_set_ = true := by
    simpa [everythingisreceived] using hready
  obtain ⟨i1, i2, i3, i4, i5, i6, i7, i8, i9, i10, i11, i12⟩ := modulated_inputs exp s
  have hready2 : everythingisreceived (modulated exp s) = true := by
    simp [everythingisreceived, i11, i12, hf.1, hf.2]
  refine ⟨_, Calculate_Modulation_ok rosOk exp s hready, i11.trans hf.1, i12.trans hf.2,
    ⟨_, Calculate_Modulation_ok rosOk exp _ hready2, ?_⟩, ?_⟩
  · exact modulated_M_congr exp s (modulated exp s) i1 i2 i3 i4 i5 i6 i7 i8 (by rw [i6, i9])
      (modulated_Lambda_rows exp s) (modulated_Lambda_cols exp s) i10
  · intro L M a b v
    exact ⟨_, Calculate_Modulation_ok rosOk exp _ hready,
      modulated_M_congr exp s _ rfl rfl rfl rfl rfl rfl rfl rfl rfl rfl rfl rfl⟩

/-- Scenario B: two calls in a row return the same matrix. -/
theorem modulation_repeatable_witness :
    everythingisreceived (scenarioB ℝ) = true
    ∧ ∃ r : CoDs ℝ × MatrixXd ℝ, Calculate_Modulation true Real.exp (scenarioB ℝ) = Except.ok r
        ∧ r.1.State_of_system_is_set_ = true ∧ r.1.State_of_surface_is_set_ = true
        ∧ ∃ r2 : CoDs ℝ × MatrixXd ℝ, Calculate_Modulation true Real.exp r.1 = Except.ok r2
            ∧ r2.2 = r.2 := by
  obtain ⟨r, h1, h2, h3, h4, -⟩ := modulation_repeatable true Real.exp (scenarioB ℝ) rfl
  exact ⟨rfl, r, h1, h2, h3, h4⟩

/-- In the transition phase the call stores Q_ᵀ * DX_ in Normal_velocity_robot_. -/
theorem modulated_velocity (exp : α → α) (s : CoDs α)
    (hG : 0 < s.Gamma_Value_) (hT : s.Gamma_Value_ < s.Gammma_Threshold_) :
    (modulated exp s).Normal_velocity_robot_ = s.Q_.transpose.mulVec s.DX_ := by
  have h1 : ¬ (s.Gammma_Threshold_ ≤ s.Gamma_Value_) := not_le.mpr hT
  cases h : everythingisreceived s <;>
  simp only [modulated, Calculate_Modulation, Error, h, h1, hG, hT, and_self, Bool.not_true,
    Bool.not_false, Bool.false_eq_true, if_false, if_true, pure_bind] <;>
  split_ifs <;> rfl

/-- The product Q_ᵀ * DX_ coefficient by coefficient: entry i is the sum over the
rows k of Q_ of Q_(k,i) * DX_(k). -/
theorem Get_Normal_Velocity_coeff (s : CoDs α) (i : Nat) :
    (Get_Normal_Velocity s).coeff i
      = ∑ k in Finset.range s.Q_.rows, s.Q_.coeff k i * s.DX_.coeff k := by
  simp [Get_Normal_Velocity, MatrixXd.transpose, MatrixXd.mulVec]

/-- C15: on every object Get_Normal_Velocity returns Q_ᵀ * DX_, the vector whose
entry i is the sum over k of Q_(k,i) * DX_(k); the member assigns nothing, so it is
a function of the object.  On a reachable object with an invertible basis its three
entries are the products of the velocity with the normal and the two tangents.
After a call of Calculate_Modulation in the transition phase its entry 0 is the
entry 0 that the call stored in Normal_velocity_robot_, the sum over k of
Q_(k,0) * DX_(k) of the object before the call, and that value selected the
sub-branch: with a nominal force whose normal component is not zero, Lambda_(0,0)
is the overshoot entry when it is below the impact velocity, the in-envelope entry
when it is strictly between the impact velocity and zero, and the departing entry
when it is at least zero. -/
theorem normal_velocity_accessor (rosOk : Bool) (exp : α → α) (s : CoDs α) :
    ((Get_Normal_Velocity s).rows = s.Q_.cols ∧
      ∀ i, (Get_Normal_Velocity s).coeff i
        = ∑ k in Finset.range s.Q_.rows, s.Q_.coeff k i * s.DX_.coeff k) ∧
    (Reachable s → s.Q_.det3 ≠ 0 →
      (Get_Normal_Velocity s).coeff 0
          = ∑ k in Finset.range 3, s.N_.coeff k * s.DX_.coeff k ∧
      (Get_Normal_Velocity s).coeff 1
          = ∑ k in Finset.range 3, s.q2_.coeff k * s.DX_.coeff k ∧
      (Get_Normal_Velocity s).coeff 2
          = ∑ k in Finset.range 3, s.q3_.coeff k * s.DX_.coeff k) ∧
    (everythingisreceived s = true → 0 < s.Gamma_Value_ →
      s.Gamma_Value_ < s.Gammma_Threshold_ →
      ∃ r : CoDs α × MatrixXd α, Calculate_Modulation rosOk exp s = Except.ok r ∧
        r.1.Normal_velocity_robot_.coeff 0
          = ∑ k in Finset.range s.Q_.rows, s.Q_.coeff k 0 * s.DX_.coeff k ∧
        (Get_Normal_Velocity r.1).coeff 0 = r.1.Normal_velocity_robot_.coeff 0 ∧
        ((s.N_.transpose.mulVec s.F_).coeff 0 ≠ 0 →
          ((Get_Normal_Velocity r.1).coeff 0 < s.delta_dx_ →
            r.1.Lambda_.coeff 0 0
              = (s.delta_dx_ - (Get_Normal_Velocity r.1).coeff 0
                    + exp (-s.Gamma_Value_ / epsilon))
                  / (s.Gamma_Value_ * (s.N_.transpose.mulVec s.F_).coeff 0)) ∧
          (s.delta_dx_ < (Get_Normal_Velocity r.1).coeff 0 →
            (Get_Normal_Velocity r.1).coeff 0 < 0 →
            r.1.Lambda_.coeff 0 0
              = -(s.F_d_ * ((s.N_.transpose.mul s.InvMass_).mulVec s.N_).coeff 0
                    / (s.N_.transpose.mulVec s.F_).coeff 0)
                  * exp (-s.Gamma_Value_ / epsilon)) ∧
          (s.delta_dx_ ≤ (Get_Normal_Velocity r.1).coeff 0 →
            0 ≤ (Get_Normal_Velocity r.1).coeff 0 →
            r.1.Lambda_.coeff 0 0
              = -100 * (s.F_d_ * ((s.N_.transpose.mul s.InvMass_).mulVec s.N_).coeff 0
                    / (s.N_.transpose.mulVec s.F_).coeff 0)
                  * ((Get_Normal_Velocity r.1).coeff 0
                      + exp (-s.Gamma_Value_ / epsilon))))) := by
  refine ⟨⟨rfl, Get_Normal_Velocity_coeff s⟩, ?_, ?_⟩
  · intro hs hdet
    have hc := reachable_consistent s hs
    obtain ⟨-, hcol⟩ := reachable_basis s hs hdet
    refine ⟨?_, ?_, ?_⟩ <;> rw [Get_Normal_Velocity_coeff, hc.Q_rows]
    · exact Finset.sum_congr rfl (fun k _ => by rw [(hcol k).1])
    · exact Finset.sum_congr rfl (fun k _ => by rw [(hcol k).2.1])
    · exact Finset.sum_congr rfl (fun k _ => by rw [(hcol k).2.2])
  · intro hready hG hT
    obtain ⟨-, -, i3, i4, -⟩ := modulated_inputs exp s
    have hv := modulated_velocity exp s hG hT
    have hg : Get_Normal_Velocity (modulated exp s) = Get_Normal_Velocity s := by
      rw [Get_Normal_Velocity, i3, i4]
      rfl
    have hgs : Get_Normal_Velocity s = s.Q_.transpose.mulVec s.DX_ := rfl
    refine ⟨_, Calculate_Modulation_ok rosOk exp s hready, ?_, ?_, ?_⟩
    · rw [hv, ← hgs, Get_Normal_Velocity_coeff]
    · rw [hg, hv, hgs]
    · intro _
      show (_ → (modulated exp s).Lambda_.coeff 0 0 = _) ∧
        (_ → _ → (modulated exp s).Lambda_.coeff 0 0 = _) ∧
        (_ → _ → (modulated exp s).Lambda_.coeff 0 0 = _)
      rw [hg, hgs]
      refine ⟨?_, ?_, ?_⟩
      · intro hlt
        simp [modulated_Lambda, hG, hT, hlt, MatrixXd.set]
      · intro hlo hhi
        have h1 : ¬ ((s.Q_.transpose.mulVec s.DX_).coeff 0 < s.delta_dx_) := not_lt.mpr hlo.le
        simp [modulated_Lambda, hG, hT, hlo, hhi, h1, MatrixXd.set]
      · intro hlo hhi
        have h1 : ¬ ((s.Q_.transpose.mulVec s.DX_).coeff 0 < s.delta_dx_) := not_lt.mpr hlo
        have h2 : ¬ ((s.Q_.transpose.mulVec s.DX_).coeff 0 < 0) := not_lt.mpr hhi
        simp [modulated_Lambda, hG, hT, hhi, h1, h2, MatrixXd.set]

/-- The rotated scenario is reached by the call sequence of session. -/
theorem scenarioRotated_reached :
    session (-(1 / 20) : α) 5 (3 / 10) (1 / 10) (vec3 0 1 0) (vec3 0 0 1) (vec3 1 0 0)
        (vec3 0 0 0) (vec3 0 (-(1 / 5)) (3 / 10)) (vec3 0 1 0)
      = Except.ok (scenarioRotated α) :=
  session_eq _ _ _ _ _ _ _ _ _ _ (by norm_num) (by norm_num) rfl rfl rfl rfl rfl rfl

/-- On the rotated scenario the accessor gives entry 0 = -0.2, the product of the
velocity with the normal (0,1,0), where Q_ * DX_ without the transposition would give
0.3, and entry 2 = 0, the product with the second tangent (1,0,0); after the call the stored entry and the accessor agree on -0.2, which is below
the impact velocity -0.05, and Lambda_(0,0) is the overshoot entry. -/
theorem normal_velocity_accessor_witness :
    session (-(1 / 20) : ℝ) 5 (3 / 10) (1 / 10) (vec3 0 1 0) (vec3 0 0 1) (vec3 1 0 0)
        (vec3 0 0 0) (vec3 0 (-(1 / 5)) (3 / 10)) (vec3 0 1 0)
      = Except.ok (scenarioRotated ℝ)
    ∧ Reachable (scenarioRotated ℝ) ∧ (scenarioRotated ℝ).Q_.det3 ≠ 0
    ∧ everythingisreceived (scenarioRotated ℝ) = true
    ∧ 0 < (scenarioRotated ℝ).Gamma_Value_
    ∧ (scenarioRotated ℝ).Gamma_Value_ < (scenarioRotated ℝ).Gammma_Threshold_
    ∧ ((scenarioRotated ℝ).N_.transpose.mulVec (scenarioRotated ℝ).F_).coeff 0 ≠ 0
    ∧ (Get_Normal_Velocity (scenarioRotated ℝ)).coeff 0 = -(1 / 5)
    ∧ (Get_Normal_Velocity (scenarioRotated ℝ)).coeff 1 = 3 / 10
    ∧ (Get_Normal_Velocity (scenarioRotated ℝ)).coeff 2 = 0
    ∧ ((scenarioRotated ℝ).Q_.mulVec (scenarioRotated ℝ).DX_).coeff 0 = 3 / 10
    ∧ ∃ r : CoDs ℝ × MatrixXd ℝ,
        Calculate_Modulation true Real.exp (scenarioRotated ℝ) = Except.ok r
        ∧ r.1.Normal_velocity_robot_.coeff 0 = -(1 / 5)
        ∧ (Get_Normal_Velocity r.1).coeff 0 = -(1 / 5)
        ∧ (Get_Normal_Velocity r.1).coeff 0 < (scenarioRotated ℝ).delta_dx_
        ∧ r.1.Lambda_.coeff 0 0
            = (-(1 / 20) - -(1 / 5) + Real.exp (-(1 / 10) / epsilon)) / (1 / 10 * 1) := by
  have hreach : Reachable (scenarioRotated ℝ) :=
    session_reachable _ _ _ _ _ _ _ _ _ _ _ scenarioRotated_reached
  have hdet : (scenarioRotated ℝ).Q_.det3 ≠ 0 := by
    simp [scenarioRotated, sessionState, basis, vec3, MatrixXd.det3]
  have hG : 0 < (scenarioRotated ℝ).Gamma_Value_ := by
    norm_num [scenarioRotated, sessionState]
  have hT : (scenarioRotated ℝ).Gamma_Value_ < (scenarioRotated ℝ).Gammma_Threshold_ := by
    norm_num [scenarioRotated, sessionState]
  have hNF : ((scenarioRotated ℝ).N_.transpose.mulVec (scenarioRotated ℝ).F_).coeff 0 = 1 := by
    simp [scenarioRotated, sessionState, vec3, VectorXd.transpose, MatrixXd.mulVec,
      Finset.sum_range_succ]
  have hsum : ∑ k in Finset.range (scenarioRotated ℝ).Q_.rows,
      (scenarioRotated ℝ).Q_.coeff k 0 * (scenarioRotated ℝ).DX_.coeff k = -(1 / 5) := by
    simp [scenarioRotated, sessionState, basis, vec3, Finset.sum_range_succ]
  have hd : (scenarioRotated ℝ).delta_dx_ = -(1 / 20) := rfl
  have hGv : (scenarioRotated ℝ).Gamma_Value_ = 1 / 10 := rfl
  obtain ⟨⟨-, hco⟩, hfr, htr⟩ := normal_velocity_accessor true Real.exp (scenarioRotated ℝ)
  obtain ⟨r, hr, h1, h2, h3⟩ := htr rfl hG hT
  have hne : ((scenarioRotated ℝ).N_.transpose.mulVec (scenarioRotated ℝ).F_).coeff 0 ≠ 0 := by
    rw [hNF]; norm_num
  have hv : (Get_Normal_Velocity r.1).coeff 0 = -(1 / 5) := by rw [h2, h1, hsum]
  have hlt : (Get_Normal_Velocity r.1).coeff 0 < (scenarioRotated ℝ).delta_dx_ := by
    rw [hv, hd]; norm_num
  have h00 := (h3 hne).1 hlt
  rw [hv, hNF, hd, hGv] at h00
  refine ⟨scenarioRotated_reached, hreach, hdet, rfl, hG, hT, hne, ?_, ?_, ?_, ?_, r, hr, ?_,
    hv, hlt, h00⟩
  · rw [hco, hsum]
  · rw [hco]
    simp [scenarioRotated, sessionState, basis, vec3, Finset.sum_range_succ]
  · rw [(hfr hreach hdet).2.2]
    simp [scenarioRotated, sessionState, vec3, Finset.sum_range_succ]
  · simp [scenarioRotated, sessionState, basis, vec3, MatrixXd.mulVec, Finset.sum_range_succ]
  · rw [h1, hsum]

/-- Free motion with a positive proximity: the whole matrix Lambda_. -/
theorem modulated_Lambda_free (exp : α → α) (s : CoDs α)
    (hT : s.Gammma_Threshold_ ≤ s.Gamma_Value_) (hG : 0 < s.Gamma_Value_) :
    (modulated exp s).Lambda_
      = ((s.Lambda_.setIdentity.set 0 0
            (1 - exp (-(s.Gamma_Value_ - s.Gammma_Threshold_)))).set 1 1
            (1 - exp (-(s.Gamma_Value_ - s.Gammma_Threshold_)))).set 2 2
            (1 - exp (-(s.Gamma_Value_ - s.Gammma_Threshold_))) := by
  rw [modulated_Lambda, if_neg (fun h => absurd h.1 (not_lt.mpr hT)),
    if_neg (not_le.mpr hG)]

/-- A call of Set_State that returns leaves the object with the three vectors stored
and State_of_system_is_set_ raised. -/
theorem Set_State_returns (rosOk : Bool) (State DState F : VectorXd α) (s t : CoDs α)
    (h : Set_State rosOk State DState F s = Except.ok t) :
    t = { s with X_ := State, DX_ := DState, F_ := F, State_of_system_is_set_ := true } := by
  by_cases hc : (State.rows : Int) = s.Dimen_state_ ∧ (F.rows : Int) = s.Dimen_state_
      ∧ (DState.rows : Int) = s.Dimen_state_
  · have e : Set_State rosOk State DState F s
        = Except.ok { s with X_ := State, DX_ := DState, F_ := F,
                             State_of_system_is_set_ := true } := by
      simp only [Set_State, if_pos hc]
      rfl
    rw [e] at h
    exact (Except.ok.inj h).symm
  · cases rosOk
    · have e : Set_State false State DState F s
          = Except.ok { s with X_ := State, DX_ := DState, F_ := F,
                               State_of_system_is_set_ := true } := by
        simp only [Set_State, Error, if_neg hc, Bool.false_eq_true, if_false]
        rfl
      rw [e] at h
      exact (Except.ok.inj h).symm
    · rw [Set_State_up, if_neg hc] at h
      exact absurd h (by simp)

/-- C20: the matrix that Calculate_Modulation returns does not depend on the position:
replacing X_ changes nothing, two runs of Set_State followed by Calculate_Modulation
from the same object that differ only in the position return the same matrix when
both return, and they return or fault together when the two positions have the same
size.  In free motion with a positive proximity two ready
objects that agree on the threshold, the proximity, the basis, its cached inverse and
the size of Lambda_ return the same matrix, whatever their velocities, nominal forces
and inverse masses. -/
theorem modulation_independence (rosOk : Bool) (exp : α → α) (s : CoDs α) :
    (∀ X : VectorXd α,
      (Calculate_Modulation rosOk exp { s with X_ := X }).toOption.map Prod.snd
        = (Calculate_Modulation rosOk exp s).toOption.map Prod.snd) ∧
    (∀ (X1 X2 DX F : VectorXd α) (r1 r2 : CoDs α × MatrixXd α),
      Set_State rosOk X1 DX F s >>= Calculate_Modulation rosOk exp = Except.ok r1 →
      Set_State rosOk X2 DX F s >>= Calculate_Modulation rosOk exp = Except.ok r2 →
      r1.2 = r2.2) ∧
    (∀ X1 X2 DX F : VectorXd α, X1.rows = X2.rows →
      (Set_State rosOk X1 DX F s >>= Calculate_Modulation rosOk exp).toOption.map Prod.snd
        = (Set_State rosOk X2 DX F s >>= Calculate_Modulation rosOk exp).toOption.map
            Prod.snd) ∧
    (∀ t : CoDs α, everythingisreceived s = true → everythingisreceived t = true →
      s.Gammma_Threshold_ ≤ s.Gamma_Value_ → 0 < s.Gamma_Value_ →
      t.Gammma_Threshold_ = s.Gammma_Threshold_ → t.Gamma_Value_ = s.Gamma_Value_ →
      t.Q_ = s.Q_ → t.Q_inv_ = s.Q_inv_ →
      t.Lambda_.rows = s.Lambda_.rows → t.Lambda_.cols = s.Lambda_.cols →
      ∃ r1 r2 : CoDs α × MatrixXd α, Calculate_Modulation rosOk exp s = Except.ok r1
        ∧ Calculate_Modulation rosOk exp t = Except.ok r2 ∧ r1.2 = r2.2) := by
  have pos : ∀ (u : CoDs α) (X : VectorXd α),
      (Calculate_Modulation rosOk exp { u with X_ := X }).toOption.map Prod.snd
        = (Calculate_Modulation rosOk exp u).toOption.map Prod.snd := by
    intro u X
    cases hr : everythingisreceived u
    · have hr2 : everythingisreceived { u with X_ := X } = false := hr
      cases rosOk
      · rw [Calculate_Modulation_down, Calculate_Modulation_down]
        simp only [Except.toOption, Option.map]
        exact congrArg some
          (modulated_M_congr exp u _ rfl rfl rfl rfl rfl rfl rfl rfl rfl rfl rfl rfl)
      · rw [Calculate_Modulation_stuck exp _ hr, Calculate_Modulation_stuck exp _ hr2]
        rfl
    · have hr2 : everythingisreceived { u with X_ := X } = true := hr
      rw [Calculate_Modulation_ok rosOk exp _ hr, Calculate_Modulation_ok rosOk exp _ hr2]
      simp only [Except.toOption, Option.map]
      exact congrArg some
        (modulated_M_congr exp u _ rfl rfl rfl rfl rfl rfl rfl rfl rfl rfl rfl rfl)
  refine ⟨pos s, ?_, ?_, ?_⟩
  · intro X1 X2 DX F r1 r2 h1 h2
    have key : ∀ (X : VectorXd α) (r : CoDs α × MatrixXd α),
        Set_State rosOk X DX F s >>= Calculate_Modulation rosOk exp = Except.ok r →
        (Calculate_Modulation rosOk exp
            { s with DX_ := DX, F_ := F, State_of_system_is_set_ := true }).toOption.map
              Prod.snd = some r.2 := by
      intro X r h
      cases hs : Set_State rosOk X DX F s with
      | error e =>
        rw [hs] at h
        exact absurd h (by simp [bind, Except.bind])
      | ok t =>
        rw [hs] at h
        have ht := Set_State_returns rosOk X DX F s t hs
        have h3 : Calculate_Modulation rosOk exp t = Except.ok r := h
        rw [← pos { s with DX_ := DX, F_ := F, State_of_system_is_set_ := true } X]
        have e : ({ s with DX_ := DX, F_ := F, State_of_system_is_set_ := true, X_ := X }
            : CoDs α) = t := by rw [ht]
        rw [e, h3]
        rfl
    exact Option.some.inj ((key X1 r1 h1).symm.trans (key X2 r2 h2))
  · intro X1 X2 DX F hX
    by_cases hc : (X1.rows : Int) = s.Dimen_state_ ∧ (F.rows : Int) = s.Dimen_state_
        ∧ (DX.rows : Int) = s.Dimen_state_
    · have hc2 : (X2.rows : Int) = s.Dimen_state_ ∧ (F.rows : Int) = s.Dimen_state_
          ∧ (DX.rows : Int) = s.Dimen_state_ := by rw [← hX]; exact hc
      have e1 : Set_State rosOk X1 DX F s
          = Except.ok { s with X_ := X1, DX_ := DX, F_ := F,
                               State_of_system_is_set_ := true } := by
        simp only [Set_State, if_pos hc]
        rfl
      have e2 : Set_State rosOk X2 DX F s
          = Except.ok { s with X_ := X2, DX_ := DX, F_ := F,
                               State_of_system_is_set_ := true } := by
        simp only [Set_State, if_pos hc2]
        rfl
      rw [e1, e2]
      simp only [bind, Except.bind]
      have p1 := pos { s with DX_ := DX, F_ := F, State_of_system_is_set_ := true } X1
      have p2 := pos { s with DX_ := DX, F_ := F, State_of_system_is_set_ := true } X2
      exact p1.trans p2.symm
    · have hc2 : ¬ ((X2.rows : Int) = s.Dimen_state_ ∧ (F.rows : Int) = s.Dimen_state_
          ∧ (DX.rows : Int) = s.Dimen_state_) := by rw [← hX]; exact hc
      cases rosOk
      · have e1 : Set_State false X1 DX F s
            = Except.ok { s with X_ := X1, DX_ := DX, F_ := F,
                                 State_of_system_is_set_ := true } := by
          simp only [Set_State, Error, if_neg hc, Bool.false_eq_true, if_false]
          rfl
        have e2 : Set_State false X2 DX F s
            = Except.ok { s with X_ := X2, DX_ := DX, F_ := F,
                                 State_of_system_is_set_ := true } := by
          simp only [Set_State, Error, if_neg hc2, Bool.false_eq_true, if_false]
          rfl
        rw [e1, e2]
        simp only [bind, Except.bind]
        have p1 := pos { s with DX_ := DX, F_ := F, State_of_system_is_set_ := true } X1
        have p2 := pos { s with DX_ := DX, F_ := F, State_of_system_is_set_ := true } X2
        exact p1.trans p2.symm
      · rw [Set_State_up, Set_State_up, if_neg hc, if_neg hc2]
  · intro t hs ht hT hG e1 e2 e3 e4 e5 e6
    refine ⟨_, _, Calculate_Modulation_ok rosOk exp s hs,
      Calculate_Modulation_ok rosOk exp t ht, ?_⟩
    have hI : t.Lambda_.setIdentity = s.Lambda_.setIdentity := by
      simp [MatrixXd.setIdentity, e5, e6]
    show (modulated exp s).M_ = (modulated exp t).M_
    rw [modulated_M exp s, modulated_M exp t, modulated_Lambda_free exp s hT hG,
      modulated_Lambda_free exp t (by rw [e1, e2]; exact hT) (by rw [e2]; exact hG),
      e1, e2, e3, e4, hI]

/-- Scenario A: two positions of three components give the same matrix, and so does
an object with the same frame and configuration but velocity (7,8,9), nominal force
(0,5,0) and inverse mass 2 * identity. -/
theorem modulation_independence_witness :
    (vec3 (0 : ℝ) 0 0).rows = (vec3 (9 : ℝ) 9 9).rows
    ∧ (Set_State true (vec3 0 0 0) (vec3 0 0 0) (vec3 1 0 0) (scenarioA ℝ)
          >>= Calculate_Modulation true Real.exp).toOption.map Prod.snd
        = (Set_State true (vec3 9 9 9) (vec3 0 0 0) (vec3 1 0 0) (scenarioA ℝ)
          >>= Calculate_Modulation true Real.exp).toOption.map Prod.snd
    ∧ everythingisreceived (scenarioA ℝ) = true
    ∧ (scenarioA ℝ).Gammma_Threshold_ ≤ (scenarioA ℝ).Gamma_Value_
    ∧ 0 < (scenarioA ℝ).Gamma_Value_
    ∧ ∃ r1 r2 : CoDs ℝ × MatrixXd ℝ,
        Calculate_Modulation true Real.exp (scenarioA ℝ) = Except.ok r1
        ∧ Calculate_Modulation true Real.exp
            { scenario (3 / 10 : ℝ) (1 / 2) (vec3 7 8 9) (vec3 0 5 0) with
              InvMass_ := ⟨3, 3, fun i j => if i = j then 2 else 0⟩ } = Except.ok r2
        ∧ r1.2 = r2.2 := by
  have hT : (scenarioA ℝ).Gammma_Threshold_ ≤ (scenarioA ℝ).Gamma_Value_ := by
    norm_num [scenarioA, scenario, sessionState]
  have hG : 0 < (scenarioA ℝ).Gamma_Value_ := by
    norm_num [scenarioA, scenario, sessionState]
  have h := modulation_independence true Real.exp (scenarioA ℝ)
  exact ⟨rfl, h.2.2.1 (vec3 0 0 0) (vec3 9 9 9) (vec3 0 0 0) (vec3 1 0 0) rfl, rfl, hT, hG,
    h.2.2.2 _ rfl rfl hT hG rfl rfl rfl rfl rfl rfl⟩

/-- The inverse mass after initialize is the identity of the configured size. -/
theorem initialised_InvMass (heap : Nat → Nat → α) (D : Int) (delta_dx F_d T : α)
    (surf : Bool) (s : CoDs α) :
    (initialised heap D delta_dx F_d T surf s).InvMass_
      = ⟨D.toNat, D.toNat, fun i j => if i = j then 1 else 0⟩ := by
  by_cases h0 : D = 3 <;> by_cases h1 : 0 ≤ delta_dx <;> by_cases h2 : F_d < 0 <;>
  simp [initialised, initialise, Error, everyfalse, h0, h1, h2, pure, Except.pure, bind,
    Except.bind, MatrixXd.setIdentity, MatrixXd.resize]

/-- The result of inverse() on the 3×3 identity is the identity on the 3×3 block. -/
theorem identity3_inverse (i j : Nat) (hi : i < 3) (hj : j < 3) :
    (identity3 : MatrixXd α).inverse.coeff i j = if i = j then 1 else 0 := by
  interval_cases i <;> interval_cases j <;>
  simp [identity3, MatrixXd.inverse, MatrixXd.det3]

/-- The quadratic form N_ᵀ * A * N_ reads only the 3×3 block of A. -/
theorem quadratic_form_block (N : VectorXd α) (A B : MatrixXd α)
    (hN : N.rows = 3) (hA : A.cols = 3) (hB : B.cols = 3)
    (h : ∀ i j : Nat, i < 3 → j < 3 → A.coeff i j = B.coeff i j) :
    ((N.transpose.mul A).mulVec N).coeff 0 = ((N.transpose.mul B).mulVec N).coeff 0 := by
  simp [MatrixXd.mulVec, MatrixXd.mul, VectorXd.transpose, hN, hA, hB, Finset.sum_range_succ,
    h 0 0, h 0 1, h 0 2, h 1 0, h 1 1, h 1 2, h 2 0, h 2 1, h 2 2]

/-- Replacing the inverse mass by a matrix with the same 3×3 block does not change
the returned matrix. -/
theorem modulated_mass_block (exp : α → α) (u : CoDs α) (m : MatrixXd α)
    (hN : u.N_.rows = 3) (hA : u.InvMass_.cols = 3) (hm : m.cols = 3)
    (h : ∀ i j : Nat, i < 3 → j < 3 → m.coeff i j = u.InvMass_.coeff i j) :
    (modulated exp { u with InvMass_ := m }).M_ = (modulated exp u).M_ :=
  modulated_M_congr exp u _ rfl rfl rfl rfl rfl rfl rfl rfl
    (quadratic_form_block u.N_ m u.InvMass_ hN hm hA h) rfl rfl rfl

/-- Set_State and Calculate_Modulation in a row return the same matrix when the
inverse mass is replaced beforehand by a matrix with the same 3×3 block. -/
theorem state_modulation_mass (exp : α → α) (State DState F : VectorXd α) (a : CoDs α)
    (m : MatrixXd α) (hN : a.N_.rows = 3) (hA : a.InvMass_.cols = 3) (hm : m.cols = 3)
    (h : ∀ i j : Nat, i < 3 → j < 3 → m.coeff i j = a.InvMass_.coeff i j) :
    (Set_State true State DState F { a with InvMass_ := m }
        >>= Calculate_Modulation true exp).toOption.map Prod.snd
      = (Set_State true State DState F a
        >>= Calculate_Modulation true exp).toOption.map Prod.snd := by
  rw [Set_State_up, Set_State_up]
  by_cases hs : (State.rows : Int) = a.Dimen_state_ ∧ (F.rows : Int) = a.Dimen_state_
      ∧ (DState.rows : Int) = a.Dimen_state_
  · have hs2 : (State.rows : Int) = ({ a with InvMass_ := m } : CoDs α).Dimen_state_
        ∧ (F.rows : Int) = ({ a with InvMass_ := m } : CoDs α).Dimen_state_
        ∧ (DState.rows : Int) = ({ a with InvMass_ := m } : CoDs α).Dimen_state_ := hs
    rw [if_pos hs, if_pos hs2]
    simp only [bind, Except.bind]
    cases hr : everythingisreceived
        ({ a with X_ := State, DX_ := DState, F_ := F, State_of_system_is_set_ := true } : CoDs α)
    · have hr2 : everythingisreceived
          ({ ({ a with InvMass_ := m } : CoDs α) with
              X_ := State, DX_ := DState, F_ := F, State_of_system_is_set_ := true } : CoDs α)
          = false := hr
      rw [Calculate_Modulation_stuck exp _ hr, Calculate_Modulation_stuck exp _ hr2]
      rfl
    · have hr2 : everythingisreceived
          ({ ({ a with InvMass_ := m } : CoDs α) with
              X_ := State, DX_ := DState, F_ := F, State_of_system_is_set_ := true } : CoDs α)
          = true := hr
      rw [Calculate_Modulation_ok true exp _ hr, Calculate_Modulation_ok true exp _ hr2]
      simp only [Except.toOption, Option.map]
      have key := modulated_mass_block exp
        ({ a with X_ := State, DX_ := DState, F_ := F, State_of_system_is_set_ := true } : CoDs α)
        m hN hA hm h
      exact congrArg some key
  · have hs2 : ¬ ((State.rows : Int) = ({ a with InvMass_ := m } : CoDs α).Dimen_state_
        ∧ (F.rows : Int) = ({ a with InvMass_ := m } : CoDs α).Dimen_state_
        ∧ (DState.rows : Int) = ({ a with InvMass_ := m } : CoDs α).Dimen_state_) := hs
    rw [if_neg hs, if_neg hs2]
    rfl

/-- Set_Gamma, Set_State and Calculate_Modulation in a row return the same matrix
when the inverse mass is replaced beforehand by a matrix with the same 3×3 block. -/
theorem frame_state_modulation_mass (exp : α → α) (Gamma : α)
    (Normal q2 q3 State DState F : VectorXd α) (u : CoDs α) (m : MatrixXd α)
    (hd : u.Dimen_state_ = 3) (hA : u.InvMass_.cols = 3) (hm : m.cols = 3)
    (h : ∀ i j : Nat, i < 3 → j < 3 → m.coeff i j = u.InvMass_.coeff i j) :
    (Set_Gamma true Gamma Normal q2 q3 { u with InvMass_ := m }
        >>= Set_State true State DState F
        >>= Calculate_Modulation true exp).toOption.map Prod.snd
      = (Set_Gamma true Gamma Normal q2 q3 u >>= Set_State true State DState F
        >>= Calculate_Modulation true exp).toOption.map Prod.snd := by
  rw [Set_Gamma_up, Set_Gamma_up]
  by_cases hc : (Normal.rows : Int) = u.Dimen_state_ ∧ (q2.rows : Int) = u.Dimen_state_
      ∧ (q3.rows : Int) = u.Dimen_state_ ∧ orthogonalitySum u q2 < 1 / 10000
  · have hc2 : (Normal.rows : Int) = ({ u with InvMass_ := m } : CoDs α).Dimen_state_
        ∧ (q2.rows : Int) = ({ u with InvMass_ := m } : CoDs α).Dimen_state_
        ∧ (q3.rows : Int) = ({ u with InvMass_ := m } : CoDs α).Dimen_state_
        ∧ orthogonalitySum ({ u with InvMass_ := m } : CoDs α) q2 < 1 / 10000 := hc
    have hNr : Normal.rows = 3 := by
      have := hc.1
      rw [hd] at this
      exact_mod_cast this
    rw [if_pos hc, if_pos hc2]
    exact state_modulation_mass exp State DState F (framed Gamma Normal q2 q3 u) m hNr hA hm h
  · have hc2 : ¬ ((Normal.rows : Int) = ({ u with InvMass_ := m } : CoDs α).Dimen_state_
        ∧ (q2.rows : Int) = ({ u with InvMass_ := m } : CoDs α).Dimen_state_
        ∧ (q3.rows : Int) = ({ u with InvMass_ := m } : CoDs α).Dimen_state_
        ∧ orthogonalitySum ({ u with InvMass_ := m } : CoDs α) q2 < 1 / 10000) := hc
    rw [if_neg hc, if_neg hc2]
    rfl

/-- C18: the matrix returned after initialize, Set_Gamma and Set_State is the same
whether Set_Mass_Matrix was never called or was called with the 3×3 identity, right
after initialize or right before Calculate_Modulation.  On an object of dimension 3,
Set_Mass_Matrix with a 3×3 matrix of non-zero determinant returns, stores the inverse
of the matrix in InvMass_ and changes no other field: both readiness flags, the
frame and the state are as before. -/
theorem default_inverse_mass (heap : Nat → Nat → α) (exp : α → α) (D : Int)
    (delta_dx F_d T : α) (surf : Bool) (Gamma : α)
    (Normal q2 q3 State DState F : VectorXd α) (s0 s : CoDs α) (M : MatrixXd α) :
    (initialise true heap D delta_dx F_d T surf s0 >>= Set_Mass_Matrix true identity3
        >>= Set_Gamma true Gamma Normal q2 q3 >>= Set_State true State DState F
        >>= Calculate_Modulation true exp).toOption.map Prod.snd
      = (initialise true heap D delta_dx F_d T surf s0
        >>= Set_Gamma true Gamma Normal q2 q3 >>= Set_State true State DState F
        >>= Calculate_Modulation true exp).toOption.map Prod.snd ∧
    (initialise true heap D delta_dx F_d T surf s0
        >>= Set_Gamma true Gamma Normal q2 q3 >>= Set_State true State DState F
        >>= Set_Mass_Matrix true identity3
        >>= Calculate_Modulation true exp).toOption.map Prod.snd
      = (initialise true heap D delta_dx F_d T surf s0
        >>= Set_Gamma true Gamma Normal q2 q3 >>= Set_State true State DState F
        >>= Calculate_Modulation true exp).toOption.map Prod.snd ∧
    (s.Dimen_state_ = 3 → M.rows = 3 → M.cols = 3 → M.det3 ≠ 0 → ∀ rosOk : Bool,
      ∃ t : CoDs α, Set_Mass_Matrix rosOk M s = Except.ok t
        ∧ toMat3 M * toMat3 t.InvMass_ = 1 ∧ toMat3 t.InvMass_ * toMat3 M = 1
        ∧ t = { s with InvMass_ := M.inverse }
        ∧ t.State_of_system_is_set_ = s.State_of_system_is_set_
        ∧ t.State_of_surface_is_set_ = s.State_of_surface_is_set_
        ∧ t.Gamma_Value_ = s.Gamma_Value_ ∧ t.N_ = s.N_ ∧ t.q2_ = s.q2_ ∧ t.q3_ = s.q3_
        ∧ t.Q_ = s.Q_ ∧ t.Q_inv_ = s.Q_inv_
        ∧ t.X_ = s.X_ ∧ t.DX_ = s.DX_ ∧ t.F_ = s.F_) := by
  refine ⟨?_, ?_, ?_⟩
  · cases h1 : initialise true heap D delta_dx F_d T surf s0 with
    | error e => rfl
    | ok s1 =>
      have hc := initialise_consistent heap D delta_dx F_d T surf s0 s1 h1
      have hm := Set_Mass_Matrix_ok true (identity3 : MatrixXd α) s1 hc.dimension rfl rfl
      show (Set_Mass_Matrix true identity3 s1 >>= Set_Gamma true Gamma Normal q2 q3
          >>= Set_State true State DState F
          >>= Calculate_Modulation true exp).toOption.map Prod.snd
        = (Set_Gamma true Gamma Normal q2 q3 s1 >>= Set_State true State DState F
          >>= Calculate_Modulation true exp).toOption.map Prod.snd
      rw [hm]
      have hI : ∀ i j : Nat, i < 3 → j < 3 →
          (identity3 : MatrixXd α).inverse.coeff i j = s1.InvMass_.coeff i j := by
        intro i j hi hj
        have hv : ¬ (D ≠ 3 ∨ 0 ≤ delta_dx ∨ F_d < 0) := by
          intro hv
          rw [initialise_stuck heap D delta_dx F_d T surf s0 hv] at h1
          cases h1
        push_neg at hv
        obtain ⟨h0, h1', h2'⟩ := hv
        subst h0
        rw [initialise_ok true heap delta_dx F_d T surf s0 h1' h2'] at h1
        obtain rfl := Except.ok.inj h1
        rw [identity3_inverse i j hi hj, initialised_InvMass]
      exact frame_state_modulation_mass exp Gamma Normal q2 q3 State DState F s1
        (identity3 : MatrixXd α).inverse hc.dimension hc.InvMass_cols rfl hI
  · cases h1 : initialise true heap D delta_dx F_d T surf s0 with
    | error e => rfl
    | ok s1 =>
      have hc1 := initialise_consistent heap D delta_dx F_d T surf s0 s1 h1
      have hI1 : ∀ i j : Nat, i < 3 → j < 3 →
          (identity3 : MatrixXd α).inverse.coeff i j = s1.InvMass_.coeff i j := by
        intro i j hi hj
        have hv : ¬ (D ≠ 3 ∨ 0 ≤ delta_dx ∨ F_d < 0) := by
          intro hv
          rw [initialise_stuck heap D delta_dx F_d T surf s0 hv] at h1
          cases h1
        push_neg at hv
        obtain ⟨h0, h1', h2'⟩ := hv
        subst h0
        rw [initialise_ok true heap delta_dx F_d T surf s0 h1' h2'] at h1
        obtain rfl := Except.ok.inj h1
        rw [identity3_inverse i j hi hj, initialised_InvMass]
      cases h2 : Set_Gamma true Gamma Normal q2 q3 s1 with
      | error e =>
        simp only [bind, Except.bind, h2]
      | ok s2 =>
        have hc2 := Set_Gamma_consistent Gamma Normal q2 q3 s1 s2 hc1 h2
        have hM2 : s2.InvMass_ = s1.InvMass_ := by
          rw [Set_Gamma_up] at h2
          split_ifs at h2
          obtain rfl := Except.ok.inj h2
          rfl
        have hf2 : s2.State_of_surface_is_set_ = true := by
          rw [Set_Gamma_up] at h2
          split_ifs at h2
          obtain rfl := Except.ok.inj h2
          rfl
        cases h3 : Set_State true State DState F s2 with
        | error e =>
          simp only [bind, Except.bind, h2, h3]
        | ok s3 =>
          have hc3 := Set_State_consistent State DState F s2 s3 hc2 h3
          have hs3 : s3.InvMass_ = s2.InvMass_ ∧ s3.State_of_surface_is_set_
              = s2.State_of_surface_is_set_ ∧ s3.State_of_system_is_set_ = true := by
            rw [Set_State_up] at h3
            split_ifs at h3
            obtain rfl := Except.ok.inj h3
            exact ⟨rfl, rfl, rfl⟩
          have hr : everythingisreceived s3 = true := by
            simp [everythingisreceived, hs3.2.1, hs3.2.2, hf2]
          have hr2 : everythingisreceived
              ({ s3 with InvMass_ := (identity3 : MatrixXd α).inverse } : CoDs α) = true := hr
          have hm := Set_Mass_Matrix_ok true (identity3 : MatrixXd α) s3 hc3.dimension rfl rfl
          simp only [bind, Except.bind, h2, h3, hm]
          rw [Calculate_Modulation_ok true exp _ hr, Calculate_Modulation_ok true exp _ hr2]
          simp only [Except.toOption, Option.map]
          refine congrArg some (modulated_mass_block exp s3 _ hc3.N_rows hc3.InvMass_cols rfl ?_)
          intro i j hi hj
          rw [hs3.1, hM2]
          exact hI1 i j hi hj
  · intro hd hr hcM hdet rosOk
    refine ⟨_, Set_Mass_Matrix_ok rosOk M s hd hr hcM, toMat3_mul_inverse M hdet,
      toMat3_inverse_mul M hdet, rfl, rfl, rfl, rfl, rfl, rfl, rfl, rfl, rfl, rfl, rfl, rfl⟩

/-- On a fresh object with the configuration of the scenarios the run without
Set_Mass_Matrix returns a matrix, and the run with Set_Mass_Matrix(identity) returns
the same one; on scenario A, Set_Mass_Matrix with 2 * identity stores its inverse and
keeps both flags and the basis. -/
theorem default_inverse_mass_witness :
    (∃ R : MatrixXd ℝ,
      (initialise true (fun _ _ => 0) 3 (-(1 / 20)) 5 (3 / 10) false (fresh : CoDs ℝ)
        >>= Set_Gamma true (1 / 2) (vec3 1 0 0) (vec3 0 1 0) (vec3 0 0 1)
        >>= Set_State true (vec3 0 0 0) (vec3 0 0 0) (vec3 1 0 0)
        >>= Calculate_Modulation true Real.exp).toOption.map Prod.snd = some R
      ∧ (initialise true (fun _ _ => 0) 3 (-(1 / 20)) 5 (3 / 10) false (fresh : CoDs ℝ)
        >>= Set_Mass_Matrix true identity3
        >>= Set_Gamma true (1 / 2) (vec3 1 0 0) (vec3 0 1 0) (vec3 0 0 1)
        >>= Set_State true (vec3 0 0 0) (vec3 0 0 0) (vec3 1 0 0)
        >>= Calculate_Modulation true Real.exp).toOption.map Prod.snd = some R)
    ∧ (scenarioA ℝ).Dimen_state_ = 3
    ∧ (⟨3, 3, fun i j => if i = j then 2 else 0⟩ : MatrixXd ℝ).det3 ≠ 0
    ∧ ∃ t : CoDs ℝ,
        Set_Mass_Matrix true ⟨3, 3, fun i j => if i = j then 2 else 0⟩ (scenarioA ℝ)
          = Except.ok t
        ∧ toMat3 (⟨3, 3, fun i j => if i = j then 2 else 0⟩ : MatrixXd ℝ)
            * toMat3 t.InvMass_ = 1
        ∧ t.State_of_system_is_set_ = (scenarioA ℝ).State_of_system_is_set_
        ∧ t.State_of_surface_is_set_ = (scenarioA ℝ).State_of_surface_is_set_
        ∧ t.Q_ = (scenarioA ℝ).Q_ ∧ t.DX_ = (scenarioA ℝ).DX_ := by
  have hdet : (⟨3, 3, fun i j => if i = j then 2 else 0⟩ : MatrixXd ℝ).det3 ≠ 0 := by
    simp [MatrixXd.det3]
  have h := default_inverse_mass (fun _ _ => (0 : ℝ)) Real.exp 3 (-(1 / 20)) 5 (3 / 10) false
    (1 / 2) (vec3 1 0 0) (vec3 0 1 0) (vec3 0 0 1) (vec3 0 0 0) (vec3 0 0 0) (vec3 1 0 0)
    fresh (scenarioA ℝ) ⟨3, 3, fun i j => if i = j then 2 else 0⟩
  obtain ⟨t, ht, e1, -, -, e2, e3, -, -, -, -, e4, -, -, e5, -⟩ := h.2.2 rfl rfl rfl hdet true
  have hinit : initialise true (fun _ _ => 0) 3 (-(1 / 20)) 5 (3 / 10) false (fresh : CoDs ℝ)
      = Except.ok (scenarioInitialised ℝ) := scenarioInitialised_reached
  have hacc := scenarioInitialised_accepts (1 / 2 : ℝ) (vec3 1 0 0) (vec3 0 1 0) (vec3 0 0 1)
    rfl rfl rfl
  have hst := Set_State_ok true (vec3 (0 : ℝ) 0 0) (vec3 0 0 0) (vec3 1 0 0)
    (framed (1 / 2) (vec3 1 0 0) (vec3 0 1 0) (vec3 0 0 1) (scenarioInitialised ℝ))
    (initialised_dimension _ _ _ _ _ _ _) rfl rfl rfl
  have hrun : ∃ R : MatrixXd ℝ,
      (initialise true (fun _ _ => 0) 3 (-(1 / 20)) 5 (3 / 10) false (fresh : CoDs ℝ)
        >>= Set_Gamma true (1 / 2) (vec3 1 0 0) (vec3 0 1 0) (vec3 0 0 1)
        >>= Set_State true (vec3 0 0 0) (vec3 0 0 0) (vec3 1 0 0)
        >>= Calculate_Modulation true Real.exp).toOption.map Prod.snd = some R := by
    rw [hinit]
    simp only [bind, Except.bind, hacc, hst]
    rw [Calculate_Modulation_ok true Real.exp]
    · exact ⟨_, rfl⟩
    · rfl
  obtain ⟨R, hR⟩ := hrun
  exact ⟨⟨R, hR, h.1.trans hR⟩, rfl, hdet, t, ht, e1, e2, e3, e4, e5⟩

end CoDs
